import Mathlib

/-!
# PlusLib temporal data buffer: embedding and verified properties

Shallow embedding of `vtkPlusDataBuffer` (PlusCommon/vtkPlusDataBuffer.cxx), of
`PlusMath::Slerp` and `PlusMath::LSQRMinimize` (PlusCommon/PlusMath.cxx), of `PlusLockGuard`
(PlusCommon/PlusCommon.h) and of `vtkPlusStartStopRecordingCommand::GetDescription`
(PlusServer/vtkPlusStartStopRecordingCommand.cxx).

Conventions of the embedding:

* C++ `double` values are elements of a linearly ordered field `K`; every operation is the
  exact field operation.  Concrete runs use `K = ℚ`, trigonometric facts use `K = ℝ`.
* Output parameters of a C++ method (`DataBufferItem* bufferItem`, `DataBufferItem& itemA`)
  are passed in as values and returned next to the status code.  Where the effect of a
  read on the buffer itself is at stake, the calls run on `ItemMemory`, in which the
  output is a pointer and `DataBufferItem::DeepCopy` is a store through a pointer.
* Functions that belong to VTK, to libm or to the acquisition layer are parameters
  (`ExternalMath`, `ExternalAcquisition`).
* `vtkTimestampedCircularBuffer` is part of PlusLib but its source is not among the
  files at hand; its operations are modelled from the specification.  The time lookup
  fails on an empty ring and for a query more than 0.00001 s before the oldest item.
-/

namespace Plus

set_option linter.unusedSectionVars false

/-! ## Status codes -/

/-- Result of a PlusLib call (PlusCommon.h). -/
inductive PlusStatus where
  | PLUS_FAIL
  | PLUS_SUCCESS
  deriving DecidableEq, Repr

/-- Modelled from the spec: the `ItemStatus` enumeration of vtkTimestampedCircularBuffer.h
(the header is missing); the four values are the ones vtkPlusDataBuffer.cxx uses. -/
inductive ItemStatus where
  | ITEM_OK
  | ITEM_NOT_AVAILABLE_YET
  | ITEM_NOT_AVAILABLE_ANYMORE
  | ITEM_UNKNOWN_ERROR
  deriving DecidableEq, Repr

/-- Modelled from the spec: the `ToolStatus` enumeration (its header is missing); spec section 3
lists OK, MISSING, OUT_OF_VIEW, OUT_OF_VOLUME, REQUEST_TIMEOUT, the source uses the
names `TOOL_OK` and `TOOL_MISSING`. -/
inductive ToolStatus where
  | TOOL_OK
  | TOOL_MISSING
  | TOOL_OUT_OF_VIEW
  | TOOL_OUT_OF_VOLUME
  | TOOL_REQ_TIMEOUT
  deriving DecidableEq, Repr

open PlusStatus ItemStatus ToolStatus

/-! ## Data model -/

/-- A `vtkMatrix4x4`: `m i j` is `Element[i][j]`. -/
abbrev Matrix4x4 (K : Type) := Fin 4 → Fin 4 → K

/-- A `double[3][3]` rotation block. -/
abbrev Matrix3x3 (K : Type) := Fin 3 → Fin 3 → K

/-- A `double[4]` quaternion (w, x, y, z). -/
abbrev Quaternion (K : Type) := Fin 4 → K

/-- The matrix a freshly constructed `vtkMatrix4x4` holds. -/
def Matrix4x4.Identity (K : Type) [Zero K] [One K] : Matrix4x4 K :=
  fun i j => if i = j then 1 else 0

/-- The part of `PlusVideoFrame` the buffer code reads and writes: frame size, pixel type,
image type, orientation and the pixel bytes. -/
structure PlusVideoFrame where
  FrameSize : Int × Int
  PixelType : Nat
  ImageType : Nat
  ImageOrientation : Nat
  Pixels : List Nat
  deriving DecidableEq, Repr

/-- Fields copied by `DataBufferItem::operator=` (vtkPlusDataBuffer.cxx lines 50-68).
`CustomFrameFields` is the `std::map<std::string,std::string>` as an association list. -/
structure DataBufferItem (K : Type) where
  Frame : PlusVideoFrame
  FilteredTimeStamp : K
  UnfilteredTimeStamp : K
  Index : Int
  Uid : Int
  CustomFrameFields : List (String × String)
  Status : ToolStatus
  Matrix : Matrix4x4 K

/-- Embeds `DataBufferItem::DataBufferItem()`: identity matrix, status `TOOL_OK`; the remaining
members are zero-initialised. -/
def DataBufferItem.new (K : Type) [Zero K] [One K] : DataBufferItem K :=
  { Frame := { FrameSize := (0, 0), PixelType := 0, ImageType := 0, ImageOrientation := 0,
               Pixels := [] }
    FilteredTimeStamp := 0
    UnfilteredTimeStamp := 0
    Index := 0
    Uid := 0
    CustomFrameFields := []
    Status := TOOL_OK
    Matrix := Matrix4x4.Identity K }

/-- Embeds `DataBufferItem::SetCustomFrameField`: `std::map` insertion, replacing the value of a
key that is already present and keeping every other key. -/
def DataBufferItem.SetCustomFrameField {K : Type} (item : DataBufferItem K)
    (name value : String) : DataBufferItem K :=
  { item with
    CustomFrameFields := (name, value) :: item.CustomFrameFields.filter (fun kv => kv.1 ≠ name) }

/-- Modelled from the spec: the state of `vtkTimestampedCircularBuffer` (its source is missing).
Spec section 3: `items[capacity]` is the fixed slot array (`capacity = items.length`),
`nextUid`, `oldestUid`, `newestUid` are the UID counters; `Clear` resets the three counters
to 0, so the ring holds no item while `nextUid = 0`.  `FilterWindow` is the trailing list of
(index, raw timestamp) pairs of spec section 4.3. -/
structure vtkTimestampedCircularBuffer (K : Type) where
  items : List (DataBufferItem K)
  nextUid : Int
  oldestUid : Int
  newestUid : Int
  FilterWindow : List (Int × K)

/-- Members of `vtkPlusDataBuffer` (constructor at vtkPlusDataBuffer.cxx lines 115-131). -/
structure vtkPlusDataBuffer (K : Type) where
  FrameSize : Int × Int
  PixelType : Nat
  ImageType : Nat
  ImageOrientation : Nat
  DataBuffer : vtkTimestampedCircularBuffer K
  MaxAllowedTimeDifference : K

/-- Numeric routines of VTK and libm called by the interpolation code; they are not PlusLib
code and are taken as parameters. -/
structure ExternalMath (K : Type) where
  acos : K → K
  sin : K → K
  cos : K → K
  atan2 : K → K → K
  Matrix3x3ToQuaternion : Matrix3x3 K → Quaternion K
  QuaternionToMatrix3x3 : Quaternion K → Matrix3x3 K
  Invert : Matrix4x4 K → Matrix4x4 K
  GetOrientationWXYZ : Matrix4x4 K → Fin 4 → K
  RadiansFromDegrees : K → K
  DegreesFromRadians : K → K

/-- Acquisition-side collaborators of `AddItem` and `AddTimeStampedItem`, taken as parameters:
the `UNDEFINED_TIMESTAMP` sentinel, the clock reading of `vtkAccurateTimer::GetSystemTime`,
the timestamp filter `CreateFilteredTimeStampForItem` (window, index, raw timestamp to
status, filtered timestamp, probably-valid flag and new window) and
`PlusVideoFrame::GetOrientedImage` (`none` is `PLUS_FAIL`). -/
structure ExternalAcquisition (K : Type) where
  UNDEFINED_TIMESTAMP : K
  GetSystemTime : K
  CreateFilteredTimeStampForItem : List (Int × K) → Int → K → PlusStatus × K × Bool × List (Int × K)
  GetOrientedImage : List Nat → Nat → Int × Int → Nat → Nat → PlusVideoFrame → Option PlusVideoFrame

section Model

variable {K : Type} [LinearOrderedField K]

/-- The constant `NEGLIGIBLE_TIME_DIFFERENCE=0.00001` (vtkPlusDataBuffer.cxx line 21). -/
def NEGLIGIBLE_TIME_DIFFERENCE : K := 1 / 100000

/-- The constant `ANGLE_INTERPOLATION_WARNING_THRESHOLD_DEG=10` (line 22). -/
def ANGLE_INTERPOLATION_WARNING_THRESHOLD_DEG : K := 10

/-! ## The circular buffer (modelled from the specification) -/

namespace vtkTimestampedCircularBuffer

/-- Modelled from the spec: `GetBufferSize` of the missing circular buffer, the capacity. -/
def GetBufferSize (b : vtkTimestampedCircularBuffer K) : Nat := b.items.length

/-- Modelled from the spec: `GetNumberOfItems` of the missing circular buffer; no item before
the first UID is issued, `newestUid - oldestUid + 1` afterwards (spec section 3). -/
def GetNumberOfItems (b : vtkTimestampedCircularBuffer K) : Nat :=
  if b.nextUid = 0 then 0 else (b.newestUid - b.oldestUid + 1).toNat

/-- Modelled from the spec: `GetOldestItemUidInBuffer` of the missing circular buffer. -/
def GetOldestItemUidInBuffer (b : vtkTimestampedCircularBuffer K) : Int := b.oldestUid

/-- Modelled from the spec: `GetLatestItemUidInBuffer` of the missing circular buffer. -/
def GetLatestItemUidInBuffer (b : vtkTimestampedCircularBuffer K) : Int := b.newestUid

/-- Modelled from the spec: the slot of a UID in the missing circular buffer; slots are
reused in ring order, so the UID is taken modulo the capacity. -/
def BufferIndexFromUid (b : vtkTimestampedCircularBuffer K) (uid : Int) : Nat :=
  (uid % (b.items.length : Int)).toNat

/-- Modelled from the spec: `GetBufferItemFromBufferIndex` of the missing circular buffer;
`none` is the NULL pointer returned for an index outside the slot array. -/
def GetBufferItemFromBufferIndex (b : vtkTimestampedCircularBuffer K) (bufferIndex : Nat) :
    Option (DataBufferItem K) :=
  b.items.get? bufferIndex

/-- Modelled from the spec: `GetBufferItemFromUid` of the missing circular buffer. -/
def GetBufferItemFromUid (b : vtkTimestampedCircularBuffer K) (uid : Int) :
    Option (DataBufferItem K) :=
  b.GetBufferItemFromBufferIndex (b.BufferIndexFromUid uid)

/-- Modelled from the spec: `GetFrameStatus` of the missing circular buffer (spec section 4.2,
`GetByUid`): "anymore" if `uid < oldestUid`, "yet" if `uid ≥ nextUid`. -/
def GetFrameStatus (b : vtkTimestampedCircularBuffer K) (uid : Int) : ItemStatus :=
  if uid < b.oldestUid then ITEM_NOT_AVAILABLE_ANYMORE
  else if uid ≥ b.nextUid then ITEM_NOT_AVAILABLE_YET
  else ITEM_OK

/-- Modelled from the spec: `GetTimeStamp` of the missing circular buffer; the filtered
timestamp of the item with the given UID, or the failure status of the UID. -/
def GetTimeStamp (b : vtkTimestampedCircularBuffer K) (uid : Int) : ItemStatus × K :=
  match b.GetFrameStatus uid with
  | ITEM_OK =>
    match b.GetBufferItemFromUid uid with
    | some item => (ITEM_OK, item.FilteredTimeStamp)
    | none => (ITEM_UNKNOWN_ERROR, 0)
  | status => (status, 0)

/-- The UIDs currently in the ring, oldest first. -/
def Uids (b : vtkTimestampedCircularBuffer K) : List Int :=
  (List.range b.GetNumberOfItems).map (fun (k : Nat) => b.oldestUid + (k : Int))

/-- One step of the linear search for the closest item: the candidate replaces the best UID
so far only when it is strictly closer to `time`. -/
def CloserUid (b : vtkTimestampedCircularBuffer K) (time : K) (best candidate : Int) : Int :=
  if |(b.GetTimeStamp candidate).2 - time| < |(b.GetTimeStamp best).2 - time| then candidate
  else best

/-- Modelled from the spec: `GetItemUidFromTime` of the missing circular buffer (spec section
4.2, the time lookup, and section 8, Scenario A).  It fails when no item exists, reported
as `ITEM_NOT_AVAILABLE_YET` ("no data yet").  Otherwise a linear search over the ordered
ring finds the UID of the item whose filtered timestamp is closest to `time` (the earlier
item on a tie).  When the search ends at the oldest item and `time` lies before the
timestamp of that item by more than the negligible difference, the query is before the
oldest retained item and the lookup fails with `ITEM_NOT_AVAILABLE_ANYMORE` (Scenario A).
A query within the negligible difference of the oldest item is an exact match (section
4.4, case 1) and a query after the newest item finds the newest item, however far
(section 9).  The UID found by the search is handed back with either status; the callers
read it only after `ITEM_OK`. -/
def GetItemUidFromTime (b : vtkTimestampedCircularBuffer K) (time : K) : ItemStatus × Int :=
  match b.Uids with
  | [] => (ITEM_NOT_AVAILABLE_YET, 0)
  | first :: rest =>
    let uid := rest.foldl (b.CloserUid time) first
    if uid = b.oldestUid ∧ time < (b.GetTimeStamp uid).2 - NEGLIGIBLE_TIME_DIFFERENCE then
      (ITEM_NOT_AVAILABLE_ANYMORE, uid)
    else (ITEM_OK, uid)

/-- Modelled from the spec: `PrepareForNewItem` of the missing circular buffer (spec section
4.2, `PrepareSlot`): rejected when the ring holds an item and `timestamp` is not strictly
greater than the newest item's filtered timestamp; otherwise the next UID is issued, its
ring slot is returned, `newestUid` and `nextUid` advance and, if the ring was already
full, `oldestUid` advances too.  Returns status, new state, issued UID and slot index. -/
def PrepareForNewItem (b : vtkTimestampedCircularBuffer K) (timestamp : K) :
    PlusStatus × vtkTimestampedCircularBuffer K × Int × Nat :=
  if b.GetNumberOfItems ≠ 0 ∧ timestamp ≤ (b.GetTimeStamp b.newestUid).2 then
    (PLUS_FAIL, b, 0, 0)
  else
    let newFrameUid := b.nextUid
    let wasFull := decide (b.GetNumberOfItems = b.GetBufferSize)
    (PLUS_SUCCESS,
     { b with
       nextUid := newFrameUid + 1
       newestUid := newFrameUid
       oldestUid := if wasFull then b.oldestUid + 1 else b.oldestUid },
     newFrameUid, b.BufferIndexFromUid newFrameUid)

/-- Write an item into a slot of the ring (the effect of the setters called through the
pointer returned by `GetBufferItemFromBufferIndex`). -/
def SetBufferItem (b : vtkTimestampedCircularBuffer K) (bufferIndex : Nat)
    (item : DataBufferItem K) : vtkTimestampedCircularBuffer K :=
  { b with items := b.items.set bufferIndex item }

/-- The counter invariant of spec section 3 for a ring that holds at least one item:
`oldestUid ≤ newestUid < nextUid` and `newestUid - oldestUid + 1 ≤ capacity`
(UIDs are issued from 0 upwards). -/
def CountersValid (b : vtkTimestampedCircularBuffer K) : Prop :=
  0 ≤ b.oldestUid ∧ b.oldestUid ≤ b.newestUid ∧ b.newestUid < b.nextUid
    ∧ b.newestUid - b.oldestUid + 1 ≤ (b.items.length : Int)

/-- Every UID of the window is stored in its slot: the item found there carries that UID
(`SetUid(itemUid)` at commit). -/
def UidsStored (b : vtkTimestampedCircularBuffer K) : Prop :=
  ∀ uid ∈ b.Uids, (b.GetBufferItemFromUid uid).map (fun item => item.Uid) = some uid

/-- The monotonicity invariant of spec section 3: filtered timestamps strictly increase
from each stored UID to the next. -/
def TimestampsIncreasing (b : vtkTimestampedCircularBuffer K) : Prop :=
  ∀ uid ∈ b.Uids, uid + 1 ∈ b.Uids → (b.GetTimeStamp uid).2 < (b.GetTimeStamp (uid + 1)).2

end vtkTimestampedCircularBuffer

/-! ## PlusMath (PlusCommon/PlusMath.cxx) -/

namespace PlusMath

/-- The two blending coefficients `sclp`, `sclq` of `PlusMath::Slerp` (PlusMath.cxx lines
228-244) as a function of the cosine actually used and of `t`. -/
def SlerpCoefficients (acos sin : K → K) (cosom t : K) : K × K :=
  if (1 : K) - cosom > 1 / 10000 then
    let omega := acos cosom
    let sinom := sin omega
    (sin (((1 : K) - t) * omega) / sinom, sin (t * omega) / sinom)
  else
    ((1 : K) - t, t)

/-- The expression `dot( from, to )` of PlusMath.cxx line 208. -/
def Dot (from_ to_ : Quaternion K) : K :=
  from_ 0 * to_ 0 + from_ 1 * to_ 1 + from_ 2 * to_ 2 + from_ 3 * to_ 3

/-- Embeds `PlusMath::Slerp` (PlusMath.cxx lines 203-250); the result array is the return value,
`acos` and `sin` are the libm functions. -/
def Slerp (acos sin : K → K) (t : K) (from_ to_ : Quaternion K) (adjustSign : Bool) :
    Quaternion K :=
  let p := from_
  let cosom := Dot from_ to_
  let flip : Bool := adjustSign && decide (cosom < 0)
  let cosom1 := if flip then -cosom else cosom
  let q : Quaternion K := if flip then (fun i => -to_ i) else to_
  let scl := SlerpCoefficients acos sin cosom1 t
  fun i => scl.1 * p i + scl.2 * q i

/-- Embeds `vtkMatrix4x4::Multiply4x4`. -/
def Multiply4x4 (a b : Matrix4x4 K) : Matrix4x4 K :=
  fun i j => a i 0 * b 0 j + a i 1 * b 1 j + a i 2 * b 2 j + a i 3 * b 3 j

/-- Embeds `PlusMath::GetOrientationDifference` (PlusMath.cxx lines 176-195). -/
def GetOrientationDifference (m : ExternalMath K) (aMatrix bMatrix : Matrix4x4 K) : K :=
  let invBmatrix := m.Invert bMatrix
  let diffMatrix := Multiply4x4 aMatrix invBmatrix
  let angleDiff_rad := m.RadiansFromDegrees (m.GetOrientationWXYZ diffMatrix 0)
  let normalizedAngleDiff_rad := m.atan2 (m.sin angleDiff_rad) (m.cos angleDiff_rad)
  m.DegreesFromRadians normalizedAngleDiff_rad

end PlusMath

/-! ## vtkPlusDataBuffer (PlusCommon/vtkPlusDataBuffer.cxx) -/

namespace vtkPlusDataBuffer

open vtkTimestampedCircularBuffer

/-- Embeds `vtkPlusDataBuffer::GetOldestItemUidInBuffer`. -/
def GetOldestItemUidInBuffer (self : vtkPlusDataBuffer K) : Int :=
  self.DataBuffer.GetOldestItemUidInBuffer

/-- Embeds `vtkPlusDataBuffer::GetLatestItemUidInBuffer`. -/
def GetLatestItemUidInBuffer (self : vtkPlusDataBuffer K) : Int :=
  self.DataBuffer.GetLatestItemUidInBuffer

/-- Embeds `vtkPlusDataBuffer::GetDataBufferItem` (lines 538-574); `bufferItem` is the (non-NULL)
output item, returned unchanged on the failure paths. -/
def GetDataBufferItem (self : vtkPlusDataBuffer K) (uid : Int) (bufferItem : DataBufferItem K) :
    ItemStatus × DataBufferItem K :=
  let status := self.DataBuffer.GetFrameStatus uid
  if status ≠ ITEM_OK then (status, bufferItem)
  else
    match self.DataBuffer.GetBufferItemFromUid uid with
    | none => (ITEM_UNKNOWN_ERROR, bufferItem)
    | some dataItem => (self.DataBuffer.GetFrameStatus uid, dataItem)

/-- The UID of item B chosen at lines 934-944: the neighbour of item A on the other side of
the requested time. -/
def NeighbourUid (itemAuid : Int) (time itemAtime : K) : Int :=
  if time < itemAtime then itemAuid - 1 else itemAuid + 1

/-- Embeds `vtkPlusDataBuffer::GetPrevNextBufferItemFromTime` (lines 876-981); returns the status
and the values left in `itemA` and `itemB`. -/
def GetPrevNextBufferItemFromTime (self : vtkPlusDataBuffer K) (time : K)
    (itemA itemB : DataBufferItem K) : PlusStatus × DataBufferItem K × DataBufferItem K :=
  let r := self.DataBuffer.GetItemUidFromTime time
  let itemAuid := r.2
  if r.1 ≠ ITEM_OK then (PLUS_FAIL, itemA, itemB)
  else
    let ra := self.GetDataBufferItem itemAuid itemA
    let itemA := ra.2
    if ra.1 ≠ ITEM_OK then (PLUS_FAIL, itemA, itemB)
    else if itemA.Status ≠ TOOL_OK then (PLUS_FAIL, itemA, itemB)
    else
      let rt := self.DataBuffer.GetTimeStamp itemAuid
      let itemAtime := rt.2
      if rt.1 ≠ ITEM_OK then (PLUS_FAIL, itemA, itemB)
      else if |itemAtime - time| < NEGLIGIBLE_TIME_DIFFERENCE then (PLUS_SUCCESS, itemA, itemA)
      else if |itemAtime - time| > self.MaxAllowedTimeDifference then (PLUS_FAIL, itemA, itemB)
      else
        let itemBuid : Int := NeighbourUid itemAuid time itemAtime
        if itemBuid < self.GetOldestItemUidInBuffer ∨ itemBuid > self.GetLatestItemUidInBuffer then
          (PLUS_FAIL, itemA, itemB)
        else
          let rtb := self.DataBuffer.GetTimeStamp itemBuid
          let itemBtime := rtb.2
          if rtb.1 ≠ ITEM_OK then (PLUS_FAIL, itemA, itemB)
          else if |itemBtime - time| > self.MaxAllowedTimeDifference then (PLUS_FAIL, itemA, itemB)
          else
            let rb := self.GetDataBufferItem itemBuid itemB
            let itemB := rb.2
            if rb.1 ≠ ITEM_OK then (PLUS_FAIL, itemA, itemB)
            else if itemB.Status ≠ TOOL_OK then (PLUS_FAIL, itemA, itemB)
            else (PLUS_SUCCESS, itemA, itemB)

/-- Embeds `vtkPlusDataBuffer::GetDataBufferItemFromClosestTime` (lines 1028-1048). -/
def GetDataBufferItemFromClosestTime (self : vtkPlusDataBuffer K) (time : K)
    (bufferItem : DataBufferItem K) : ItemStatus × DataBufferItem K :=
  let r := self.DataBuffer.GetItemUidFromTime time
  if r.1 ≠ ITEM_OK then (r.1, bufferItem)
  else self.GetDataBufferItem r.2 bufferItem

/-- Embeds `vtkPlusDataBuffer::GetDataBufferItemFromExactTime` (lines 999-1025). -/
def GetDataBufferItemFromExactTime (self : vtkPlusDataBuffer K) (time : K)
    (bufferItem : DataBufferItem K) : ItemStatus × DataBufferItem K :=
  let r := self.GetDataBufferItemFromClosestTime time bufferItem
  let bufferItem := r.2
  if r.1 ≠ ITEM_OK then (r.1, bufferItem)
  else
    let uid := bufferItem.Uid
    let rt := self.DataBuffer.GetTimeStamp uid
    if rt.1 ≠ ITEM_OK then (rt.1, bufferItem)
    else if |rt.2 - time| > NEGLIGIBLE_TIME_DIFFERENCE then (ITEM_UNKNOWN_ERROR, bufferItem)
    else (rt.1, bufferItem)

/-- The weight of item A (line 1105). -/
def ItemAWeight (time itemAtime itemBtime : K) : K :=
  |itemBtime - time| / |itemAtime - itemBtime|

/-- The rotation block `matrixA[i][j]` read from a 4x4 matrix (lines 1116-1124). -/
def RotationPart (matrix : Matrix4x4 K) : Matrix3x3 K :=
  fun i j => matrix ⟨i.val, by omega⟩ ⟨j.val, by omega⟩

/-- The matrix assembled at lines 1142-1161: rows 0..2 hold the Slerp-interpolated rotation
and the weighted translation, row 3 is the one of a new `vtkMatrix4x4`. -/
def InterpolatedMatrix (m : ExternalMath K) (itemAmatrix itemBmatrix : Matrix4x4 K)
    (itemAweight itemBweight : K) : Matrix4x4 K :=
  let matrixAquat := m.Matrix3x3ToQuaternion (RotationPart itemAmatrix)
  let matrixBquat := m.Matrix3x3ToQuaternion (RotationPart itemBmatrix)
  let interpolatedRotationQuat :=
    PlusMath.Slerp m.acos m.sin itemBweight matrixAquat matrixBquat true
  let interpolatedRotation := m.QuaternionToMatrix3x3 interpolatedRotationQuat
  fun i j =>
    if hi : i.val < 3 then
      if hj : j.val < 3 then interpolatedRotation ⟨i.val, hi⟩ ⟨j.val, hj⟩
      else itemAmatrix i 3 * itemAweight + itemBmatrix i 3 * itemBweight
    else Matrix4x4.Identity K i j

/-- The item written at lines 1163-1174: a copy of `itemA` whose matrix, filtered timestamp
and unfiltered timestamp are replaced by the interpolated values (weights of lines
1105-1106). -/
def InterpolatedItem (m : ExternalMath K) (itemA itemB : DataBufferItem K)
    (time itemAtime itemBtime : K) : DataBufferItem K :=
  let itemAweight := ItemAWeight time itemAtime itemBtime
  let itemBweight := 1 - itemAweight
  let interpolatedMatrix := InterpolatedMatrix m itemA.Matrix itemB.Matrix itemAweight itemBweight
  let interpolatedUnfilteredTimestamp :=
    itemA.UnfilteredTimeStamp * itemAweight + itemB.UnfilteredTimeStamp * itemBweight
  { itemA with
    Matrix := interpolatedMatrix
    FilteredTimeStamp := time
    UnfilteredTimeStamp := interpolatedUnfilteredTimestamp }

/-- The condition of line 1178 under which the large-rotation warning is logged. -/
def LargeAngleWarning (m : ExternalMath K) (interpolatedMatrix itemAmatrix itemBmatrix : Matrix4x4 K) :
    Bool :=
  let angleDiffA := PlusMath.GetOrientationDifference m interpolatedMatrix itemAmatrix
  let angleDiffB := PlusMath.GetOrientationDifference m interpolatedMatrix itemBmatrix
  decide (|angleDiffA| > ANGLE_INTERPOLATION_WARNING_THRESHOLD_DEG
          ∧ |angleDiffB| > ANGLE_INTERPOLATION_WARNING_THRESHOLD_DEG)

/-- Embeds `vtkPlusDataBuffer::GetInterpolatedDataBufferItemFromTime` (lines 1056-1184); returns
the status, the value left in `*bufferItem` and whether the large-angle warning of
line 1180 was logged. -/
def GetInterpolatedDataBufferItemFromTime (m : ExternalMath K) (self : vtkPlusDataBuffer K)
    (time : K) (bufferItem : DataBufferItem K) : ItemStatus × DataBufferItem K × Bool :=
  let r := self.GetPrevNextBufferItemFromTime time (DataBufferItem.new K) (DataBufferItem.new K)
  let itemA := r.2.1
  let itemB := r.2.2
  if r.1 ≠ PLUS_SUCCESS then
    let rc := self.GetDataBufferItemFromClosestTime time bufferItem
    if rc.1 ≠ ITEM_OK then (rc.1, rc.2, false)
    else (ITEM_OK, { rc.2 with Status := TOOL_MISSING }, false)
  else if itemA.Uid = itemB.Uid then (ITEM_OK, itemA, false)
  else
    let rta := self.DataBuffer.GetTimeStamp itemA.Uid
    if rta.1 ≠ ITEM_OK then (ITEM_UNKNOWN_ERROR, bufferItem, false)
    else
      let rtb := self.DataBuffer.GetTimeStamp itemB.Uid
      if rtb.1 ≠ ITEM_OK then (ITEM_UNKNOWN_ERROR, bufferItem, false)
      else
        let itemAtime := rta.2
        let itemBtime := rtb.2
        if |itemAtime - itemBtime| < NEGLIGIBLE_TIME_DIFFERENCE then (ITEM_OK, itemA, false)
        else
          let interpolated := InterpolatedItem m itemA itemB time itemAtime itemBtime
          (ITEM_OK, interpolated, LargeAngleWarning m interpolated.Matrix itemA.Matrix itemB.Matrix)

/-- The exact-match path of `GetInterpolatedDataBufferItemFromTime` (lines 1061 and
1075-1080): the neighbour lookup succeeds and hands back the same item twice. -/
def TakesExactMatchPath (self : vtkPlusDataBuffer K) (time : K) : Prop :=
  (self.GetPrevNextBufferItemFromTime time (DataBufferItem.new K) (DataBufferItem.new K)).1
      = PLUS_SUCCESS
    ∧ (self.GetPrevNextBufferItemFromTime time (DataBufferItem.new K) (DataBufferItem.new K)).2.1.Uid
      = (self.GetPrevNextBufferItemFromTime time (DataBufferItem.new K) (DataBufferItem.new K)).2.2.Uid

/-- What it means for a returned item to carry the pose interpolated between `A` and `B`
at `time` (lines 1105-1170): its filtered timestamp is the query time, each translation
component is `wA * posA[i] + wB * posB[i]` with `wA = |tB - t| / |tA - tB|` and
`wB = 1 - wA`, and its rotation block is the matrix of the quaternion that `Slerp` returns
from the quaternion of `A` to the quaternion of `B` with parameter `wB`. -/
def CarriesInterpolatedPose (m : ExternalMath K) (item A B : DataBufferItem K) (time : K) :
    Prop :=
  item.FilteredTimeStamp = time
  ∧ (∀ i : Fin 4, i.val < 3 →
      item.Matrix i 3
        = (|B.FilteredTimeStamp - time| / |A.FilteredTimeStamp - B.FilteredTimeStamp|)
            * A.Matrix i 3
          + (1 - |B.FilteredTimeStamp - time| / |A.FilteredTimeStamp - B.FilteredTimeStamp|)
            * B.Matrix i 3)
  ∧ RotationPart item.Matrix
      = m.QuaternionToMatrix3x3
          (PlusMath.Slerp m.acos m.sin
            (1 - |B.FilteredTimeStamp - time| / |A.FilteredTimeStamp - B.FilteredTimeStamp|)
            (m.Matrix3x3ToQuaternion (RotationPart A.Matrix))
            (m.Matrix3x3ToQuaternion (RotationPart B.Matrix)) true)

/-- The interpolation preconditions (a)-(e) of spec section 4.4, case 2, for the closest
item `A` (stored under `itemAuid`) and the item `B` found in the slot of the adjacent UID:
the adjacent UID lies in `[oldest UID, latest UID]`, both items are `TOOL_OK` and both
timestamps are within `MaxAllowedTimeDifference` of the query. -/
def InterpolationPreconditions (self : vtkPlusDataBuffer K) (time : K) (itemAuid : Int)
    (A B : DataBufferItem K) : Prop :=
  (self.GetOldestItemUidInBuffer ≤ NeighbourUid itemAuid time A.FilteredTimeStamp
    ∧ NeighbourUid itemAuid time A.FilteredTimeStamp ≤ self.GetLatestItemUidInBuffer)
  ∧ A.Status = TOOL_OK ∧ B.Status = TOOL_OK
  ∧ |A.FilteredTimeStamp - time| ≤ self.MaxAllowedTimeDifference
  ∧ |B.FilteredTimeStamp - time| ≤ self.MaxAllowedTimeDifference

/-- Embeds `vtkPlusDataBuffer::CheckFrameFormat` (lines 222-247). -/
def CheckFrameFormat (self : vtkPlusDataBuffer K) (frameSizeInPx : Int × Int)
    (pixelType imgType : Nat) : Bool :=
  if frameSizeInPx.1 ≠ self.FrameSize.1 ∨ frameSizeInPx.2 ≠ self.FrameSize.2 then false
  else if pixelType ≠ self.PixelType then false
  else if imgType ≠ self.ImageType then false
  else true

/-- The buffer with a new state of its circular buffer. -/
def WithDataBuffer (self : vtkPlusDataBuffer K) (b : vtkTimestampedCircularBuffer K) :
    vtkPlusDataBuffer K :=
  { self with DataBuffer := b }

/-- The raw-pointer overload of `vtkPlusDataBuffer::AddItem` (lines 250-342).
`imageDataPtr = none` is the NULL pointer, `customFields = none` the NULL map pointer;
returns the status and the buffer after the call. -/
def AddItem (e : ExternalAcquisition K) (self : vtkPlusDataBuffer K)
    (imageDataPtr : Option (List Nat)) (usImageOrientation : Nat) (frameSizeInPx : Int × Int)
    (pixelType imageType : Nat) (numberOfBytesToSkip : Nat) (frameNumber : Int)
    (unfilteredTimestamp filteredTimestamp : K)
    (customFields : Option (List (String × String))) : PlusStatus × vtkPlusDataBuffer K :=
  let unfilteredTimestamp :=
    if unfilteredTimestamp = e.UNDEFINED_TIMESTAMP then e.GetSystemTime else unfilteredTimestamp
  let f := e.CreateFilteredTimeStampForItem self.DataBuffer.FilterWindow frameNumber
    unfilteredTimestamp
  let undefinedFiltered : Bool := decide (filteredTimestamp = e.UNDEFINED_TIMESTAMP)
  let self1 :=
    if undefinedFiltered then
      self.WithDataBuffer { self.DataBuffer with FilterWindow := f.2.2.2 }
    else self
  let filteredTimestamp := if undefinedFiltered then f.2.1 else filteredTimestamp
  if undefinedFiltered ∧ f.1 ≠ PLUS_SUCCESS then (PLUS_FAIL, self1)
  else if undefinedFiltered ∧ f.2.2.1 = false then (PLUS_SUCCESS, self1)
  else
    match imageDataPtr with
    | none => (PLUS_FAIL, self1)
    | some imageData =>
      if ¬ self1.CheckFrameFormat frameSizeInPx pixelType imageType then (PLUS_FAIL, self1)
      else
        let prep := self1.DataBuffer.PrepareForNewItem filteredTimestamp
        let itemUid := prep.2.2.1
        let bufferIndex := prep.2.2.2
        if prep.1 ≠ PLUS_SUCCESS then (PLUS_FAIL, self1.WithDataBuffer prep.2.1)
        else
          let self2 := self1.WithDataBuffer prep.2.1
          match self2.DataBuffer.GetBufferItemFromBufferIndex bufferIndex with
          | none => (PLUS_FAIL, self2)
          | some newObjectInBuffer =>
            let receivedFrameSize := newObjectInBuffer.Frame.FrameSize
            if frameSizeInPx.1 ≠ receivedFrameSize.1 ∨ frameSizeInPx.2 ≠ receivedFrameSize.2 then
              (PLUS_FAIL, self2)
            else
              let byteImageData := imageData.drop numberOfBytesToSkip
              match e.GetOrientedImage byteImageData usImageOrientation frameSizeInPx pixelType
                  self2.ImageOrientation newObjectInBuffer.Frame with
              | none => (PLUS_FAIL, self2)
              | some orientedFrame =>
                let item : DataBufferItem K :=
                  { newObjectInBuffer with
                    Frame := { orientedFrame with ImageType := imageType }
                    FilteredTimeStamp := filteredTimestamp
                    UnfilteredTimeStamp := unfilteredTimestamp
                    Index := frameNumber
                    Uid := itemUid }
                let item :=
                  match customFields with
                  | none => item
                  | some fields =>
                    fields.foldl (fun it kv => it.SetCustomFrameField kv.1 kv.2) item
                (PLUS_SUCCESS, self2.WithDataBuffer (self2.DataBuffer.SetBufferItem bufferIndex item))

/-- Embeds `vtkPlusDataBuffer::AddTimeStampedItem` (lines 425-475); `matrix = none` is the NULL
pointer; returns the status and the buffer after the call. -/
def AddTimeStampedItem (e : ExternalAcquisition K) (self : vtkPlusDataBuffer K)
    (matrix : Option (Matrix4x4 K)) (status : ToolStatus) (frameNumber : Int)
    (unfilteredTimestamp filteredTimestamp : K) : PlusStatus × vtkPlusDataBuffer K :=
  match matrix with
  | none => (PLUS_FAIL, self)
  | some matrix =>
    let f := e.CreateFilteredTimeStampForItem self.DataBuffer.FilterWindow frameNumber
      unfilteredTimestamp
    let undefinedFiltered : Bool := decide (filteredTimestamp = e.UNDEFINED_TIMESTAMP)
    let self1 :=
      if undefinedFiltered then
        self.WithDataBuffer { self.DataBuffer with FilterWindow := f.2.2.2 }
      else self
    let filteredTimestamp := if undefinedFiltered then f.2.1 else filteredTimestamp
    if undefinedFiltered ∧ f.1 ≠ PLUS_SUCCESS then (PLUS_FAIL, self1)
    else if undefinedFiltered ∧ f.2.2.1 = false then (PLUS_SUCCESS, self1)
    else
      let prep := self1.DataBuffer.PrepareForNewItem filteredTimestamp
      let itemUid := prep.2.2.1
      let bufferIndex := prep.2.2.2
      if prep.1 ≠ PLUS_SUCCESS then (PLUS_FAIL, self1.WithDataBuffer prep.2.1)
      else
        let self2 := self1.WithDataBuffer prep.2.1
        match self2.DataBuffer.GetBufferItemFromBufferIndex bufferIndex with
        | none => (PLUS_FAIL, self2)
        | some newObjectInBuffer =>
          let item : DataBufferItem K :=
            { newObjectInBuffer with
              Matrix := matrix
              Status := status
              FilteredTimeStamp := filteredTimestamp
              UnfilteredTimeStamp := unfilteredTimestamp
              Index := frameNumber
              Uid := itemUid }
          (PLUS_SUCCESS, self2.WithDataBuffer (self2.DataBuffer.SetBufferItem bufferIndex item))

end vtkPlusDataBuffer

/-! ## Concrete data used to run the model -/

/-- A tracker item for the examples: translation `(x, x, x)`, identity rotation. -/
def exItem (uid : Int) (t : ℚ) (status : ToolStatus) (x : ℚ) : DataBufferItem ℚ :=
  { DataBufferItem.new ℚ with
    Uid := uid
    FilteredTimeStamp := t
    UnfilteredTimeStamp := t + 1 / 10
    Index := uid + 100
    Status := status
    Matrix := fun i j => if i = j then 1 else if j = 3 then x else 0 }

/-- Rational stand-ins for the external numeric routines, used only to run examples: every
rotation block maps to the unit quaternion (1,0,0,0) and every quaternion to the identity
rotation. -/
def exMath : ExternalMath ℚ :=
  { acos := fun _ => 1
    sin := fun x => x
    cos := fun _ => 1
    atan2 := fun y _ => y
    Matrix3x3ToQuaternion := fun _ i => if i = 0 then 1 else 0
    QuaternionToMatrix3x3 := fun _ i j => if i = j then 1 else 0
    Invert := fun a => a
    GetOrientationWXYZ := fun _ _ => 0
    RadiansFromDegrees := fun x => x
    DegreesFromRadians := fun x => x }

/-- The textbook rotation matrix of a unit quaternion (w, x, y, z), used as an example of
a `QuaternionToMatrix3x3` routine. -/
def exQuaternionToMatrix3x3 {F : Type} [Field F] (q : Quaternion F) : Matrix3x3 F :=
  fun i j =>
    match i.val, j.val with
    | 0, 0 => 1 - 2 * (q 2 * q 2 + q 3 * q 3)
    | 0, 1 => 2 * (q 1 * q 2 - q 0 * q 3)
    | 0, _ => 2 * (q 1 * q 3 + q 0 * q 2)
    | 1, 0 => 2 * (q 1 * q 2 + q 0 * q 3)
    | 1, 1 => 1 - 2 * (q 1 * q 1 + q 3 * q 3)
    | 1, _ => 2 * (q 2 * q 3 - q 0 * q 1)
    | _, 0 => 2 * (q 1 * q 3 - q 0 * q 2)
    | _, 1 => 2 * (q 2 * q 3 + q 0 * q 1)
    | _, _ => 1 - 2 * (q 1 * q 1 + q 2 * q 2)

/-- Stand-ins for the acquisition layer, used only to run examples: the filter returns the
raw timestamp and leaves its window alone, reorientation keeps the pixels. -/
def exAcquisition : ExternalAcquisition ℚ :=
  { UNDEFINED_TIMESTAMP := -1
    GetSystemTime := 1000
    CreateFilteredTimeStampForItem := fun w _ t => (PLUS_SUCCESS, t, true, w)
    GetOrientedImage := fun px _ size pixelType orientation _ =>
      some { FrameSize := size, PixelType := pixelType, ImageType := 0,
             ImageOrientation := orientation, Pixels := px } }

/-- A tracker buffer with the given slots and counters, tolerance 0.5 s. -/
def exBuffer (items : List (DataBufferItem ℚ)) (oldestUid newestUid nextUid : Int) :
    vtkPlusDataBuffer ℚ :=
  { FrameSize := (0, 0)
    PixelType := 0
    ImageType := 0
    ImageOrientation := 0
    DataBuffer := { items := items, nextUid := nextUid, oldestUid := oldestUid,
                    newestUid := newestUid, FilterWindow := [] }
    MaxAllowedTimeDifference := 1 / 2 }

/-- Three items at 1.0 s, 1.3 s (both OK) and 1.6 s (out of view) in a ring of capacity 3. -/
def exThree : vtkPlusDataBuffer ℚ :=
  exBuffer [exItem 0 1 TOOL_OK 10, exItem 1 (13 / 10) TOOL_OK 20,
            exItem 2 (16 / 10) TOOL_OUT_OF_VIEW 30] 0 2 3

/-- One out-of-view item at 1.0 s in a ring of capacity 1. -/
def exOutOfView : vtkPlusDataBuffer ℚ :=
  exBuffer [exItem 0 1 TOOL_OUT_OF_VIEW 10] 0 0 1

/-! ## PlusMath::LSQRMinimize (PlusCommon/PlusMath.cxx) -/

namespace PlusMath

/-- Severity of the message an `LSQRMinimize` call logs besides its trace line. -/
inductive LogLevel where
  | LOG_NONE
  | LOG_WARNING
  | LOG_ERROR
  deriving DecidableEq, Repr

/-- A `vnl_sparse_matrix<double>(rows, cols)` together with the entries written into it,
row by row. -/
structure SparseMatrix (K : Type) where
  rows : Nat
  cols : Nat
  entries : List (List K)

/-- What an `LSQRMinimize` overload leaves behind: the returned status, the contents of
`resultVector`, how many times `vnl_lsqr::minimize` ran and the severity logged. -/
structure LSQRResult (K : Type) where
  status : PlusStatus
  resultVector : List K
  solverCalls : Nat
  logged : LogLevel

/-- The `switch (returnCode)` of `PlusMath::LSQRMinimize` (PlusMath.cxx lines 113-148):
status and logged severity for a return code of `vnl_lsqr::minimize`. -/
def StatusOfReturnCode (returnCode : Int) : PlusStatus × LogLevel :=
  if returnCode = 0 then (PLUS_SUCCESS, LogLevel.LOG_NONE)
  else if returnCode = 1 then (PLUS_SUCCESS, LogLevel.LOG_NONE)
  else if returnCode = 2 then (PLUS_SUCCESS, LogLevel.LOG_NONE)
  else if returnCode = 3 then (PLUS_SUCCESS, LogLevel.LOG_WARNING)
  else if returnCode = 4 then (PLUS_SUCCESS, LogLevel.LOG_NONE)
  else if returnCode = 5 then (PLUS_SUCCESS, LogLevel.LOG_NONE)
  else if returnCode = 6 then (PLUS_FAIL, LogLevel.LOG_ERROR)
  else if returnCode = 7 then (PLUS_SUCCESS, LogLevel.LOG_WARNING)
  else (PLUS_FAIL, LogLevel.LOG_ERROR)

/-- The sparse-matrix overload of `PlusMath::LSQRMinimize` (PlusMath.cxx lines 100-149).
`lsqr` stands for `vnl_lsqr::minimize` on the linear system: from the matrix, the right
side and the incoming `resultVector` it yields the return code and the new `resultVector`. -/
def LSQRMinimizeSparse (lsqr : SparseMatrix K → List K → List K → Int × List K)
    (sparseMatrixLeftSide : SparseMatrix K) (vectorRightSide resultVector : List K) :
    LSQRResult K :=
  let r := lsqr sparseMatrixLeftSide vectorRightSide resultVector
  let returnCode := r.1
  { status := (StatusOfReturnCode returnCode).1
    resultVector := r.2
    solverCalls := 1
    logged := (StatusOfReturnCode returnCode).2 }

/-- A sequence of reads, each of which may fall outside its container (`none`): the values
read when all reads are in range, `none` otherwise. -/
def ReadAll {β : Type} : List (Option β) → Option (List β)
  | [] => some []
  | none :: _ => none
  | some a :: rest => (ReadAll rest).map (fun tl => a :: tl)

/-- The entries read by the loops of PlusMath.cxx lines 83-93: `aMatrix[row].get(i)` for
`row < m`, `i < n`; `none` when a read falls outside `aMatrix` or outside a row. -/
def ReadEntries (aMatrix : List (List K)) (m n : Nat) : Option (List (List K)) :=
  ReadAll ((List.range m).map (fun row =>
    ReadAll ((List.range n).map (fun i => (aMatrix.get? row).bind (fun r => r.get? i)))))

/-- The `std::vector<vnl_vector<double>>` overload of `PlusMath::LSQRMinimize` (PlusMath.cxx
lines 59-96).  The result is `none` when the element reads leave the inputs (undefined
behaviour in the source). -/
def LSQRMinimizeVnl (lsqr : SparseMatrix K → List K → List K → Int × List K)
    (aMatrix : List (List K)) (bVector resultVector : List K) : Option (LSQRResult K) :=
  if aMatrix.length = 0 then
    some { status := PLUS_FAIL, resultVector := [], solverCalls := 0, logged := LogLevel.LOG_ERROR }
  else if bVector.length = 0 then
    some { status := PLUS_FAIL, resultVector := [], solverCalls := 0, logged := LogLevel.LOG_ERROR }
  else
    let n := (aMatrix.head?.getD []).length
    let m := bVector.length
    match ReadEntries aMatrix m n with
    | none => none
    | some entries =>
      some (LSQRMinimizeSparse lsqr { rows := m, cols := n, entries := entries } bVector
        resultVector)

/-- The copy loop of PlusMath.cxx lines 46-53: each row of `aMatrix` is written over the
front of the reused buffer `row`, and the buffer is appended; `none` when a row is longer
than the buffer (a write outside it). -/
def CopyRows (row : List K) : List (List K) → Option (List (List K))
  | [] => some []
  | a :: rest =>
    if a.length ≤ row.length then
      (CopyRows (a ++ row.drop a.length) rest).map (fun tl => (a ++ row.drop a.length) :: tl)
    else none

/-- The `std::vector<std::vector<double>>` overload of `PlusMath::LSQRMinimize` (PlusMath.cxx
lines 23-56).  `aMatrixVnl(m)` starts with `m` empty vectors and the copied rows are appended
behind them; `uninitialised` is the value found in the fresh buffer `row(n)`. -/
def LSQRMinimize (lsqr : SparseMatrix K → List K → List K → Int × List K) (uninitialised : K)
    (aMatrix : List (List K)) (bVector resultVector : List K) : Option (LSQRResult K) :=
  if aMatrix.length = 0 then
    some { status := PLUS_FAIL, resultVector := [], solverCalls := 0, logged := LogLevel.LOG_ERROR }
  else if bVector.length = 0 then
    some { status := PLUS_FAIL, resultVector := [], solverCalls := 0, logged := LogLevel.LOG_ERROR }
  else
    let n := (aMatrix.head?.getD []).length
    let m := bVector.length
    match CopyRows (List.replicate n uninitialised) aMatrix with
    | none => none
    | some copied =>
      let aMatrixVnl : List (List K) := List.replicate m [] ++ copied
      LSQRMinimizeVnl lsqr aMatrixVnl bVector resultVector

end PlusMath

/-! ## Buffer size and the remaining AddItem overloads -/

/-- The part of a `vtkImageData` the buffer code reads: the extent
(`x0, x1, y0, y1`), the scalar type and the scalar pointer (`none` is NULL). -/
structure vtkImageData where
  Extent : Int × Int × Int × Int
  ScalarType : Nat
  ScalarPointer : Option (List Nat)
  deriving DecidableEq, Repr

/-- Frame routines of `PlusVideoFrame` and VTK used by `SetBufferSize` and by the
`vtkImageData` and `PlusVideoFrame` overloads of `AddItem`, taken as parameters:
`AllocateFrame` (status and the frame afterwards), `GetBufferPointer` (`none` is NULL),
the image-to-image `GetOrientedImage` (`none` is `PLUS_FAIL`) and `GetITKScalarPixelType`. -/
structure ExternalFrames where
  AllocateFrame : PlusVideoFrame → Int × Int → Nat → PlusStatus × PlusVideoFrame
  GetBufferPointer : PlusVideoFrame → Option (List Nat)
  GetOrientedImage : vtkImageData → Nat → Nat → Option vtkImageData
  GetITKScalarPixelType : Nat → Nat

namespace vtkTimestampedCircularBuffer

/-- Modelled from the spec: `SetBufferSize` of the missing circular buffer (spec section 4.2,
`SetCapacity`): fails for `n < 0`; otherwise the slot array is reallocated with `n` fresh
slots, which clears the storage and invalidates every UID issued before. -/
def SetBufferSize (b : vtkTimestampedCircularBuffer K) (n : Int) :
    PlusStatus × vtkTimestampedCircularBuffer K :=
  if n < 0 then (PLUS_FAIL, b)
  else
    (PLUS_SUCCESS,
     { b with
       items := List.replicate n.toNat (DataBufferItem.new K)
       nextUid := 0
       oldestUid := 0
       newestUid := 0 })

end vtkTimestampedCircularBuffer

namespace vtkPlusDataBuffer

open vtkTimestampedCircularBuffer

/-- Embeds `vtkPlusDataBuffer::AllocateMemoryForFrames` (lines 160-174): every slot frame is
allocated with the buffer frame size and pixel type; the result is `PLUS_FAIL` when some
allocation fails. -/
def AllocateMemoryForFrames (x : ExternalFrames) (self : vtkPlusDataBuffer K) :
    PlusStatus × vtkPlusDataBuffer K :=
  let allocated := self.DataBuffer.items.map (fun item =>
    (x.AllocateFrame item.Frame self.FrameSize self.PixelType, item))
  let result : PlusStatus :=
    if allocated.all (fun r => decide (r.1.1 = PLUS_SUCCESS)) then PLUS_SUCCESS else PLUS_FAIL
  (result,
   self.WithDataBuffer
     { self.DataBuffer with
       items := allocated.map (fun r => { r.2 with Frame := r.1.2 }) })

/-- Embeds `vtkPlusDataBuffer::GetBufferSize` (lines 189-192). -/
def GetBufferSize (self : vtkPlusDataBuffer K) : Int :=
  (self.DataBuffer.GetBufferSize : Int)

/-- Embeds `vtkPlusDataBuffer::SetBufferSize` (lines 195-219). -/
def SetBufferSize (x : ExternalFrames) (self : vtkPlusDataBuffer K) (bufsize : Int) :
    PlusStatus × vtkPlusDataBuffer K :=
  if bufsize < 0 then (PLUS_FAIL, self)
  else if self.GetBufferSize = bufsize then (PLUS_SUCCESS, self)
  else
    let r := self.DataBuffer.SetBufferSize bufsize
    let result : PlusStatus := if r.1 ≠ PLUS_SUCCESS then PLUS_FAIL else PLUS_SUCCESS
    let a := AllocateMemoryForFrames x (self.WithDataBuffer r.2)
    if a.1 ≠ PLUS_SUCCESS then (PLUS_FAIL, a.2)
    else (result, a.2)

/-- The `PlusVideoFrame` overload of `vtkPlusDataBuffer::AddItem` (lines 388-422);
`frame = none` is the NULL pointer. -/
def AddItemFrame (e : ExternalAcquisition K) (x : ExternalFrames) (self : vtkPlusDataBuffer K)
    (frame : Option PlusVideoFrame) (frameNumber : Int)
    (unfilteredTimestamp filteredTimestamp : K)
    (customFields : Option (List (String × String))) : PlusStatus × vtkPlusDataBuffer K :=
  match frame with
  | none => (PLUS_FAIL, self)
  | some frame =>
    let unfilteredTimestamp :=
      if unfilteredTimestamp = e.UNDEFINED_TIMESTAMP then e.GetSystemTime else unfilteredTimestamp
    let f := e.CreateFilteredTimeStampForItem self.DataBuffer.FilterWindow frameNumber
      unfilteredTimestamp
    let undefinedFiltered : Bool := decide (filteredTimestamp = e.UNDEFINED_TIMESTAMP)
    let self1 :=
      if undefinedFiltered then
        self.WithDataBuffer { self.DataBuffer with FilterWindow := f.2.2.2 }
      else self
    let filteredTimestamp := if undefinedFiltered then f.2.1 else filteredTimestamp
    if undefinedFiltered ∧ f.1 ≠ PLUS_SUCCESS then (PLUS_FAIL, self1)
    else if undefinedFiltered ∧ f.2.2.1 = false then (PLUS_SUCCESS, self1)
    else
      self1.AddItem e (x.GetBufferPointer frame) frame.ImageOrientation frame.FrameSize
        frame.PixelType frame.ImageType 0 frameNumber unfilteredTimestamp filteredTimestamp
        customFields

/-- The `vtkImageData` overload of `vtkPlusDataBuffer::AddItem` (lines 345-385);
`frame = none` is the NULL pointer.  The source does not use its `imageType` argument: the
image type of the buffer is passed on. -/
def AddItemImage (e : ExternalAcquisition K) (x : ExternalFrames) (self : vtkPlusDataBuffer K)
    (frame : Option vtkImageData) (usImageOrientation _imageType : Nat) (frameNumber : Int)
    (unfilteredTimestamp filteredTimestamp : K)
    (customFields : Option (List (String × String))) : PlusStatus × vtkPlusDataBuffer K :=
  match frame with
  | none => (PLUS_FAIL, self)
  | some frame =>
    let unfilteredTimestamp :=
      if unfilteredTimestamp = e.UNDEFINED_TIMESTAMP then e.GetSystemTime else unfilteredTimestamp
    let f := e.CreateFilteredTimeStampForItem self.DataBuffer.FilterWindow frameNumber
      unfilteredTimestamp
    let undefinedFiltered : Bool := decide (filteredTimestamp = e.UNDEFINED_TIMESTAMP)
    let self1 :=
      if undefinedFiltered then
        self.WithDataBuffer { self.DataBuffer with FilterWindow := f.2.2.2 }
      else self
    let filteredTimestamp := if undefinedFiltered then f.2.1 else filteredTimestamp
    if undefinedFiltered ∧ f.1 ≠ PLUS_SUCCESS then (PLUS_FAIL, self1)
    else if undefinedFiltered ∧ f.2.2.1 = false then (PLUS_SUCCESS, self1)
    else
      match x.GetOrientedImage frame usImageOrientation self1.ImageOrientation with
      | none => (PLUS_FAIL, self1)
      | some mfOrientedImage =>
        let frameExtent := mfOrientedImage.Extent
        let frameSize : Int × Int :=
          (frameExtent.2.1 - frameExtent.1 + 1, frameExtent.2.2.2 - frameExtent.2.2.1 + 1)
        let pixelType := x.GetITKScalarPixelType frame.ScalarType
        self1.AddItem e mfOrientedImage.ScalarPointer self1.ImageOrientation frameSize pixelType
          self1.ImageType 0 frameNumber unfilteredTimestamp filteredTimestamp customFields

end vtkPlusDataBuffer

namespace vtkPlusDataBuffer

/-- The ring of `after` is the ring of `before`: the same slots with the same contents and
the same oldest, newest and next UID (no slot prepared, no UID issued, no item modified). -/
def SameRing (before after : vtkPlusDataBuffer K) : Prop :=
  after.DataBuffer.items = before.DataBuffer.items
  ∧ after.DataBuffer.nextUid = before.DataBuffer.nextUid
  ∧ after.DataBuffer.oldestUid = before.DataBuffer.oldestUid
  ∧ after.DataBuffer.newestUid = before.DataBuffer.newestUid

end vtkPlusDataBuffer

/-! ## More concrete data -/

/-- An acquisition layer whose timestamp filter reports every computed timestamp as
probably invalid. -/
def exAcquisitionInvalid : ExternalAcquisition ℚ :=
  { exAcquisition with
    CreateFilteredTimeStampForItem := fun w _ t => (PLUS_SUCCESS, t, false, w) }

/-- An acquisition layer whose `GetOrientedImage` fails for the undefined orientation 0
(`US_IMG_ORIENT_XX`) and keeps the pixels otherwise. -/
def exAcquisitionStrict : ExternalAcquisition ℚ :=
  { exAcquisition with
    GetOrientedImage := fun px usImageOrientation size pixelType orientation _ =>
      if usImageOrientation = 0 then none
      else some { FrameSize := size, PixelType := pixelType, ImageType := 0,
                  ImageOrientation := orientation, Pixels := px } }

/-- A video item for the examples: a 1x1 frame with one pixel byte. -/
def exFrameItem (uid : Int) (t : ℚ) (pixel : Nat) : DataBufferItem ℚ :=
  { DataBufferItem.new ℚ with
    Frame := { FrameSize := (1, 1), PixelType := 0, ImageType := 0, ImageOrientation := 1,
               Pixels := [pixel] }
    Uid := uid
    FilteredTimeStamp := t
    UnfilteredTimeStamp := t
    Index := uid }

/-- A full video ring of capacity 2 with 1x1 frames committed at 1.0 s and 2.0 s. -/
def exVideo : vtkPlusDataBuffer ℚ :=
  { FrameSize := (1, 1)
    PixelType := 0
    ImageType := 0
    ImageOrientation := 1
    DataBuffer := { items := [exFrameItem 0 1 7, exFrameItem 1 2 8], nextUid := 2,
                    oldestUid := 0, newestUid := 1, FilterWindow := [] }
    MaxAllowedTimeDifference := 1 / 2 }

/-- Frame routines for the examples: allocation succeeds and sets size and pixel type. -/
def exFrames : ExternalFrames :=
  { AllocateFrame := fun frame size pixelType =>
      (PLUS_SUCCESS, { frame with FrameSize := size, PixelType := pixelType })
    GetBufferPointer := fun frame => some frame.Pixels
    GetOrientedImage := fun image _ _ => some image
    GetITKScalarPixelType := fun scalarType => scalarType }

/-- A solver stand-in for the examples: it reports return code 1 and the solution `[3]`. -/
def exLsqr : PlusMath.SparseMatrix ℚ → List ℚ → List ℚ → Int × List ℚ :=
  fun _ _ _ => (1, [3])

/-! ## Concrete data for the warning and the remaining claims -/

/-- The numeric stand-ins of `exMath` with a `GetOrientationWXYZ` that reports a rotation
of 45 degrees between any two orientations. -/
def exMathTurned : ExternalMath ℚ :=
  { exMath with GetOrientationWXYZ := fun _ i => if i = 0 then 45 else 0 }

namespace PlusMath

/-- The divisor `sinom` of `PlusMath::Slerp` (PlusMath.cxx lines 207-237): the cosine is
adjusted in sign as in lines 212-219, and the result is `some (sin (acos cosom))` when the
coefficients are computed by the trigonometric branch, which divides by it, and `none`
in the linear branch, which does not divide.  `acos` and `sin` are the library functions
the program calls, taken as parameters: the exact real functions and their
double-precision values differ at `acos (-1)`, whose sine is 0 for the former and
1.2246e-16 for the latter. -/
def SlerpDivisor (acos sin : K → K) (from_ to_ : Quaternion K) (adjustSign : Bool) : Option K :=
  let cosom := Dot from_ to_
  let flip : Bool := adjustSign && decide (cosom < 0)
  let cosom1 := if flip then -cosom else cosom
  if (1 : K) - cosom1 > 1 / 10000 then some (sin (acos cosom1)) else none

end PlusMath

/-! ## The buffer lock (PlusLockGuard, PlusCommon.h) -/

/-- The lock of the circular buffer: `Lock` and `Unlock` of `vtkTimestampedCircularBuffer`
act on a lock state `L`; the class is not among the files at hand and the two operations
are taken as parameters. -/
structure ExternalLock (L : Type) where
  Lock : L → L
  Unlock : L → L

/-- A `vtkPlusDataBuffer` together with the state of the lock of its circular buffer. -/
structure LockedBuffer (K L : Type) where
  Buffer : vtkPlusDataBuffer K
  LockState : L

/-- Embeds `PlusLockGuard` (PlusCommon.h lines 99-119): the constructor calls `Lock`, then
the rest of the enclosing scope runs, and the destructor calls `Unlock` when the scope is
left, whichever `return` leaves it. -/
def PlusLockGuard {α L : Type} (k : ExternalLock L) (s : LockedBuffer K L)
    (scope : LockedBuffer K L → α × LockedBuffer K L) : α × LockedBuffer K L :=
  let r := scope { s with LockState := k.Lock s.LockState }
  (r.1, { r.2 with LockState := k.Unlock r.2.LockState })

namespace vtkPlusDataBuffer

open vtkTimestampedCircularBuffer

/-- Lines 287-341 of the raw-pointer `AddItem`: the statements that follow the check of the
frame format, from `PrepareForNewItem` to the final `return`. -/
def AddItemGuarded (e : ExternalAcquisition K) (self1 : vtkPlusDataBuffer K)
    (imageData : List Nat) (usImageOrientation : Nat) (frameSizeInPx : Int × Int)
    (pixelType imageType : Nat) (numberOfBytesToSkip : Nat) (frameNumber : Int)
    (unfilteredTimestamp filteredTimestamp : K)
    (customFields : Option (List (String × String))) : PlusStatus × vtkPlusDataBuffer K :=
  let prep := self1.DataBuffer.PrepareForNewItem filteredTimestamp
  let itemUid := prep.2.2.1
  let bufferIndex := prep.2.2.2
  if prep.1 ≠ PLUS_SUCCESS then (PLUS_FAIL, self1.WithDataBuffer prep.2.1)
  else
    let self2 := self1.WithDataBuffer prep.2.1
    match self2.DataBuffer.GetBufferItemFromBufferIndex bufferIndex with
    | none => (PLUS_FAIL, self2)
    | some newObjectInBuffer =>
      let receivedFrameSize := newObjectInBuffer.Frame.FrameSize
      if frameSizeInPx.1 ≠ receivedFrameSize.1 ∨ frameSizeInPx.2 ≠ receivedFrameSize.2 then
        (PLUS_FAIL, self2)
      else
        let byteImageData := imageData.drop numberOfBytesToSkip
        match e.GetOrientedImage byteImageData usImageOrientation frameSizeInPx pixelType
            self2.ImageOrientation newObjectInBuffer.Frame with
        | none => (PLUS_FAIL, self2)
        | some orientedFrame =>
          let item : DataBufferItem K :=
            { newObjectInBuffer with
              Frame := { orientedFrame with ImageType := imageType }
              FilteredTimeStamp := filteredTimestamp
              UnfilteredTimeStamp := unfilteredTimestamp
              Index := frameNumber
              Uid := itemUid }
          let item :=
            match customFields with
            | none => item
            | some fields =>
              fields.foldl (fun it kv => it.SetCustomFrameField kv.1 kv.2) item
          (PLUS_SUCCESS, self2.WithDataBuffer (self2.DataBuffer.SetBufferItem bufferIndex item))

/-- Lines 448-474 of `AddTimeStampedItem`: the statements that follow the timestamp
filter, from `PrepareForNewItem` to the final `return`. -/
def AddTimeStampedItemGuarded (self1 : vtkPlusDataBuffer K) (matrix : Matrix4x4 K)
    (status : ToolStatus) (frameNumber : Int) (unfilteredTimestamp filteredTimestamp : K) :
    PlusStatus × vtkPlusDataBuffer K :=
  let prep := self1.DataBuffer.PrepareForNewItem filteredTimestamp
  let itemUid := prep.2.2.1
  let bufferIndex := prep.2.2.2
  if prep.1 ≠ PLUS_SUCCESS then (PLUS_FAIL, self1.WithDataBuffer prep.2.1)
  else
    let self2 := self1.WithDataBuffer prep.2.1
    match self2.DataBuffer.GetBufferItemFromBufferIndex bufferIndex with
    | none => (PLUS_FAIL, self2)
    | some newObjectInBuffer =>
      let item : DataBufferItem K :=
        { newObjectInBuffer with
          Matrix := matrix
          Status := status
          FilteredTimeStamp := filteredTimestamp
          UnfilteredTimeStamp := unfilteredTimestamp
          Index := frameNumber
          Uid := itemUid }
      (PLUS_SUCCESS, self2.WithDataBuffer (self2.DataBuffer.SetBufferItem bufferIndex item))

end vtkPlusDataBuffer

namespace LockedBuffer

open vtkTimestampedCircularBuffer

/-- The raw-pointer overload of `vtkPlusDataBuffer::AddItem` (lines 250-342) with the lock
of the circular buffer: the returns of lines 255-285 happen before the guard of line 289
is constructed, the statements of lines 290-341 run inside its scope. -/
def AddItem {L : Type} (k : ExternalLock L) (e : ExternalAcquisition K) (s : LockedBuffer K L)
    (imageDataPtr : Option (List Nat)) (usImageOrientation : Nat) (frameSizeInPx : Int × Int)
    (pixelType imageType : Nat) (numberOfBytesToSkip : Nat) (frameNumber : Int)
    (unfilteredTimestamp filteredTimestamp : K)
    (customFields : Option (List (String × String))) : PlusStatus × LockedBuffer K L :=
  let unfilteredTimestamp :=
    if unfilteredTimestamp = e.UNDEFINED_TIMESTAMP then e.GetSystemTime else unfilteredTimestamp
  let f := e.CreateFilteredTimeStampForItem s.Buffer.DataBuffer.FilterWindow frameNumber
    unfilteredTimestamp
  let undefinedFiltered : Bool := decide (filteredTimestamp = e.UNDEFINED_TIMESTAMP)
  let s1 : LockedBuffer K L :=
    if undefinedFiltered then
      { s with
        Buffer := s.Buffer.WithDataBuffer { s.Buffer.DataBuffer with FilterWindow := f.2.2.2 } }
    else s
  let filteredTimestamp := if undefinedFiltered then f.2.1 else filteredTimestamp
  if undefinedFiltered ∧ f.1 ≠ PLUS_SUCCESS then (PLUS_FAIL, s1)
  else if undefinedFiltered ∧ f.2.2.1 = false then (PLUS_SUCCESS, s1)
  else
    match imageDataPtr with
    | none => (PLUS_FAIL, s1)
    | some imageData =>
      if ¬ s1.Buffer.CheckFrameFormat frameSizeInPx pixelType imageType then (PLUS_FAIL, s1)
      else
        PlusLockGuard k s1 (fun s2 =>
          let r := s2.Buffer.AddItemGuarded e imageData usImageOrientation frameSizeInPx
            pixelType imageType numberOfBytesToSkip frameNumber unfilteredTimestamp
            filteredTimestamp customFields
          (r.1, { s2 with Buffer := r.2 }))

/-- Embeds `vtkPlusDataBuffer::AddTimeStampedItem` (lines 425-475) with the lock of the circular
buffer: the returns of lines 427-446 happen before the guard of line 451 is constructed,
the statements of lines 452-474 run inside its scope. -/
def AddTimeStampedItem {L : Type} (k : ExternalLock L) (e : ExternalAcquisition K)
    (s : LockedBuffer K L) (matrix : Option (Matrix4x4 K)) (status : ToolStatus)
    (frameNumber : Int) (unfilteredTimestamp filteredTimestamp : K) :
    PlusStatus × LockedBuffer K L :=
  match matrix with
  | none => (PLUS_FAIL, s)
  | some matrix =>
    let f := e.CreateFilteredTimeStampForItem s.Buffer.DataBuffer.FilterWindow frameNumber
      unfilteredTimestamp
    let undefinedFiltered : Bool := decide (filteredTimestamp = e.UNDEFINED_TIMESTAMP)
    let s1 : LockedBuffer K L :=
      if undefinedFiltered then
        { s with
          Buffer := s.Buffer.WithDataBuffer { s.Buffer.DataBuffer with FilterWindow := f.2.2.2 } }
      else s
    let filteredTimestamp := if undefinedFiltered then f.2.1 else filteredTimestamp
    if undefinedFiltered ∧ f.1 ≠ PLUS_SUCCESS then (PLUS_FAIL, s1)
    else if undefinedFiltered ∧ f.2.2.1 = false then (PLUS_SUCCESS, s1)
    else
      PlusLockGuard k s1 (fun s2 =>
        let r := s2.Buffer.AddTimeStampedItemGuarded matrix status frameNumber
          unfilteredTimestamp filteredTimestamp
        (r.1, { s2 with Buffer := r.2 }))

/-- Embeds `vtkPlusDataBuffer::GetPrevNextBufferItemFromTime` (lines 876-981) with the lock:
the guard of line 878 is constructed first, every `return` is inside its scope. -/
def GetPrevNextBufferItemFromTime {L : Type} (k : ExternalLock L) (s : LockedBuffer K L)
    (time : K) (itemA itemB : DataBufferItem K) :
    (PlusStatus × DataBufferItem K × DataBufferItem K) × LockedBuffer K L :=
  PlusLockGuard k s (fun s1 => (s1.Buffer.GetPrevNextBufferItemFromTime time itemA itemB, s1))

/-- Embeds `vtkPlusDataBuffer::GetDataBufferItemFromClosestTime` (lines 1028-1048) with the
lock: the guard of line 1030 is constructed first, every `return` is inside its scope. -/
def GetDataBufferItemFromClosestTime {L : Type} (k : ExternalLock L) (s : LockedBuffer K L)
    (time : K) (bufferItem : DataBufferItem K) :
    (ItemStatus × DataBufferItem K) × LockedBuffer K L :=
  PlusLockGuard k s (fun s1 => (s1.Buffer.GetDataBufferItemFromClosestTime time bufferItem, s1))

end LockedBuffer

/-- A counting lock for the examples: the state is the depth, `Lock` adds one and `Unlock`
takes one away. -/
def exLock : ExternalLock Int :=
  { Lock := fun depth => depth + 1
    Unlock := fun depth => depth - 1 }

namespace PlusMath

/-- The matrix `aMatrixVnl` handed to the `vnl_vector` overload by the vector-of-vectors
overload of `LSQRMinimize` (PlusMath.cxx lines 41-53): the vector is constructed with `m`
empty elements and the copied rows are pushed behind them; `none` when a row is copied
past the end of the buffer `row(n)`. -/
def AMatrixVnl (uninitialised : K) (aMatrix : List (List K)) (bVector : List K) :
    Option (List (List K)) :=
  let n := (aMatrix.head?.getD []).length
  let m := bVector.length
  (CopyRows (List.replicate n uninitialised) aMatrix).map
    (fun copied => List.replicate m [] ++ copied)

end PlusMath

/-- A solver stand-in that reports what it was handed: the return code is the number of
columns of the system and the result vector lists the entries of the matrix row by row. -/
def exLsqrShape : PlusMath.SparseMatrix ℚ → List ℚ → List ℚ → Int × List ℚ :=
  fun a _ _ => ((a.cols : Int), a.entries.flatten)

/-- The ring `exVideo` whose slot 0 carries the custom field `Old = 1` of the frame
committed at 1.0 s. -/
def exVideoFields : vtkPlusDataBuffer ℚ :=
  { exVideo with
    DataBuffer :=
      { exVideo.DataBuffer with
        items := [{ exFrameItem 0 1 7 with CustomFrameFields := [("Old", "1")] },
                  exFrameItem 1 2 8] } }

/-! ## Concrete data for the time lookup before the oldest item -/

/-- The ring of spec section 8, Scenario A: capacity 3, items committed at 1.0 s, 2.0 s,
3.0 s and 4.0 s, so that the item at 1.0 s (UID 0) is evicted and the window is `[1, 3]`. -/
def exScenarioA : vtkPlusDataBuffer ℚ :=
  exBuffer [exItem 3 4 TOOL_OK 0, exItem 1 2 TOOL_OK 0, exItem 2 3 TOOL_OK 0] 1 3 4

/-! ## Concrete data for the lookups on a ring with an uncommitted UID -/

/-- The ring of `exVideo` with a tolerance of 2 s, as a raw-pointer `AddItem` call at 3.0 s
leaves it when the reorientation of the frame fails: the call has issued UID 2 and returns
`PLUS_FAIL` before it writes the slot. -/
def exStale : vtkPlusDataBuffer ℚ :=
  (vtkPlusDataBuffer.AddItem exAcquisitionStrict { exVideo with MaxAllowedTimeDifference := 2 }
    (some [9]) 0 (1, 1) 0 0 0 5 3 3 none).2

/-! ## Concrete data for the arc of the interpolated rotation -/

/-- A tracker item for the examples whose rotation block turns by an angle with cosine
-7/25 and sine -24/25 about the x axis; translation `(x, x, x)`. -/
def exItemTurned (uid : Int) (t : ℚ) (x : ℚ) : DataBufferItem ℚ :=
  { DataBufferItem.new ℚ with
    Uid := uid
    FilteredTimeStamp := t
    UnfilteredTimeStamp := t + 1 / 10
    Index := uid + 100
    Status := TOOL_OK
    Matrix := fun i j =>
      match i.val, j.val with
      | 0, 0 => 1
      | 1, 1 => -7 / 25
      | 1, 2 => 24 / 25
      | 2, 1 => -24 / 25
      | 2, 2 => -7 / 25
      | 3, 3 => 1
      | 0, 3 => x
      | 1, 3 => x
      | 2, 3 => x
      | _, _ => 0 }

/-- Two OK items in a ring of capacity 2: the identity rotation at 1.0 s and the turned
rotation at 1.3 s. -/
def exTurn : vtkPlusDataBuffer ℚ :=
  exBuffer [exItem 0 1 TOOL_OK 10, exItemTurned 1 (13 / 10) 20] 0 1 2

/-- The numeric stand-ins of `exMath` with conversions that tell the two rotations of
`exTurn` apart: the identity block maps to the quaternion (1, 0, 0, 0), the turned block
to (-3/5, 4/5, 0, 0), one of the two unit quaternions of that rotation, and a quaternion
maps to its textbook rotation matrix.  The dot product of the two quaternions is -3/5. -/
def exMathArc : ExternalMath ℚ :=
  { exMath with
    Matrix3x3ToQuaternion := fun r =>
      if r 1 1 = 1 then ![1, 0, 0, 0] else ![-3 / 5, 4 / 5, 0, 0]
    QuaternionToMatrix3x3 := exQuaternionToMatrix3x3 }

/-! ## Concrete data for the divisor of Slerp -/

/-- The value of the library `acos` in double precision at the one argument the example
needs: `acos(-1.0)` is 0x400921FB54442D18, the double next to pi, which is
884279719003555 / 2^48 = 3.141592653589793115997963...; other arguments are not used. -/
def exAcosDouble (x : ℚ) : ℚ :=
  if x = -1 then 884279719003555 / 281474976710656 else 0

/-- The value of the library `sin` in double precision at the one argument the example
needs: the sine of the double 884279719003555 / 2^48 is 0x3CA1A62633145C07, which is
4967757600021511 / 2^105 = 1.2246467991473532e-16; other arguments are not used. -/
def exSinDouble (x : ℚ) : ℚ :=
  if x = 884279719003555 / 281474976710656 then
    4967757600021511 / 40564819207303340847894502572032
  else 0

/-! ## Items reached through pointers (DataBufferItem::DeepCopy, lines 71-82) -/

/-- A `DataBufferItem*` as the read calls of `vtkPlusDataBuffer` meet it: NULL, the item of
the caller, or a slot of the ring. -/
inductive ItemPointer where
  | Null
  | Caller
  | Slot (bufferIndex : Nat)
  deriving DecidableEq

/-- The objects a read call can reach: the buffer, the state of its lock and the item that
the caller passed by pointer. -/
structure ItemMemory (K L : Type) where
  Buffer : vtkPlusDataBuffer K
  LockState : L
  Caller : DataBufferItem K

namespace ItemMemory

open vtkTimestampedCircularBuffer

/-- The item a pointer refers to, `none` for NULL and for a slot outside the ring. -/
def Load {L : Type} (mem : ItemMemory K L) : ItemPointer → Option (DataBufferItem K)
  | ItemPointer.Null => none
  | ItemPointer.Caller => some mem.Caller
  | ItemPointer.Slot bufferIndex => mem.Buffer.DataBuffer.GetBufferItemFromBufferIndex bufferIndex

/-- The assignment `(*this) = ...` through a pointer (lines 48-68): it overwrites the item of
the caller or the slot of the ring the pointer refers to. -/
def Store {L : Type} (mem : ItemMemory K L) (target : ItemPointer) (item : DataBufferItem K) :
    ItemMemory K L :=
  match target with
  | ItemPointer.Null => mem
  | ItemPointer.Caller => { mem with Caller := item }
  | ItemPointer.Slot bufferIndex =>
    { mem with
      Buffer := mem.Buffer.WithDataBuffer (mem.Buffer.DataBuffer.SetBufferItem bufferIndex item) }

/-- Embeds `DataBufferItem::DeepCopy` (lines 71-82): `target` is `this`, `source` is the
argument `dataItem`; a NULL source fails, otherwise the source item is assigned to the
target. -/
def DeepCopy {L : Type} (mem : ItemMemory K L) (target source : ItemPointer) :
    PlusStatus × ItemMemory K L :=
  match mem.Load source with
  | none => (PLUS_FAIL, mem)
  | some item => (PLUS_SUCCESS, mem.Store target item)

/-- Modelled from the spec: `GetBufferItemFromUid` of the missing circular buffer as a
pointer into the ring, NULL when the slot index is outside the slot array. -/
def GetBufferItemFromUid {L : Type} (mem : ItemMemory K L) (uid : Int) : ItemPointer :=
  if mem.Buffer.DataBuffer.BufferIndexFromUid uid < mem.Buffer.DataBuffer.items.length then
    ItemPointer.Slot (mem.Buffer.DataBuffer.BufferIndexFromUid uid)
  else ItemPointer.Null

/-- Embeds `vtkPlusDataBuffer::GetDataBufferItem` (lines 538-574) statement by statement on the
memory: the NULL check of the output pointer, `GetFrameStatus`, the pointer `dataItem` into
the ring, `bufferItem->DeepCopy(dataItem)` and the second `GetFrameStatus`; returns the
status and the memory the call leaves. -/
def GetDataBufferItem {L : Type} (mem : ItemMemory K L) (uid : Int) (bufferItem : ItemPointer) :
    ItemStatus × ItemMemory K L :=
  if bufferItem = ItemPointer.Null then (ITEM_UNKNOWN_ERROR, mem)
  else
    let status := mem.Buffer.DataBuffer.GetFrameStatus uid
    if status ≠ ITEM_OK then (status, mem)
    else
      let dataItem := mem.GetBufferItemFromUid uid
      let r := mem.DeepCopy bufferItem dataItem
      if r.1 ≠ PLUS_SUCCESS then (ITEM_UNKNOWN_ERROR, r.2)
      else (r.2.Buffer.DataBuffer.GetFrameStatus uid, r.2)

/-- Embeds `vtkPlusDataBuffer::GetDataBufferItemFromClosestTime` (lines 1028-1048) on the
memory: the guard of line 1030 locks, `GetItemUidFromTime` and `GetDataBufferItem` run in
its scope, and every `return` is followed by the `Unlock` of the guard. -/
def GetDataBufferItemFromClosestTime {L : Type} (k : ExternalLock L) (mem : ItemMemory K L)
    (time : K) (bufferItem : ItemPointer) : ItemStatus × ItemMemory K L :=
  let mem1 : ItemMemory K L := { mem with LockState := k.Lock mem.LockState }
  let ru := mem1.Buffer.DataBuffer.GetItemUidFromTime time
  let r : ItemStatus × ItemMemory K L :=
    if ru.1 ≠ ITEM_OK then (ru.1, mem1)
    else mem1.GetDataBufferItem ru.2 bufferItem
  (r.1, { r.2 with LockState := k.Unlock r.2.LockState })

/-- Embeds `vtkPlusDataBuffer::GetDataBufferItemFromExactTime` (lines 999-1025) on the memory:
the closest-time lookup, then `bufferItem->GetUid()` read through the output pointer,
`GetTimeStamp` of that UID and the comparison with the query time. -/
def GetDataBufferItemFromExactTime {L : Type} (k : ExternalLock L) (mem : ItemMemory K L)
    (time : K) (bufferItem : ItemPointer) : ItemStatus × ItemMemory K L :=
  let r := mem.GetDataBufferItemFromClosestTime k time bufferItem
  if r.1 ≠ ITEM_OK then (r.1, r.2)
  else
    match r.2.Load bufferItem with
    | none => (ITEM_UNKNOWN_ERROR, r.2)
    | some item =>
      let rt := r.2.Buffer.DataBuffer.GetTimeStamp item.Uid
      if rt.1 ≠ ITEM_OK then (rt.1, r.2)
      else if |rt.2 - time| > NEGLIGIBLE_TIME_DIFFERENCE then (ITEM_UNKNOWN_ERROR, r.2)
      else (rt.1, r.2)

end ItemMemory

/-- The buffer `exThree` with the counting lock at depth 0 and a fresh item of the caller. -/
def exMemory : ItemMemory ℚ Int :=
  { Buffer := exThree, LockState := 0, Caller := DataBufferItem.new ℚ }

/-! ## vtkPlusStartStopRecordingCommand (PlusServer/vtkPlusStartStopRecordingCommand.cxx) -/

set_option maxRecDepth 100000

namespace vtkPlusStartStopRecordingCommand

/-- The constant `START_CMD` (line 16). -/
def START_CMD : String := "StartRecording"

/-- The constant `SUSPEND_CMD` (line 17). -/
def SUSPEND_CMD : String := "SuspendRecording"

/-- The constant `RESUME_CMD` (line 18). -/
def RESUME_CMD : String := "ResumeRecording"

/-- The constant `STOP_CMD` (line 19). -/
def STOP_CMD : String := "StopRecording"

/-- The text appended for `StartRecording` (line 58). -/
def StartDescription : String :=
  START_CMD ++ ": Start collecting data into file with a VirtualStreamCapture device. CaptureDeviceId: ID of the capture device, if not specified then the first VirtualStreamCapture device will be started (optional)"

/-- The text appended for `SuspendRecording` (line 63). -/
def SuspendDescription : String :=
  SUSPEND_CMD ++ ": Suspend data collection. Attributes: CaptureDeviceId: (optional)"

/-- The text appended for `ResumeRecording` (line 68). -/
def ResumeDescription : String :=
  RESUME_CMD ++ ": Resume suspended data collection. Attributes: CaptureDeviceId (optional)"

/-- The text appended for `StopRecording` (line 73). -/
def StopDescription : String :=
  STOP_CMD ++ ": Stop collecting data into file with a VirtualStreamCapture device. Attributes: OutputFilename: name of the output file (optional if base file name is specified in config file). CaptureDeviceId (optional)"

/-- Embeds `vtkPlusStartStopRecordingCommand::GetDescription` (lines 52-76).  `commandName = none`
is the NULL pointer.  `STRCASECMP` is the case-insensitive string comparison behind the
macro of that name, taken as a parameter; as a C condition its result counts as true when
it is not 0. -/
def GetDescription (STRCASECMP : String → String → Int) (commandName : Option String) : String :=
  let differs (cmd : String) : Bool :=
    match commandName with
    | none => true
    | some name => decide (STRCASECMP name cmd ≠ 0)
  let desc := ""
  let desc := if differs START_CMD then desc ++ StartDescription else desc
  let desc := if differs SUSPEND_CMD then desc ++ SuspendDescription else desc
  let desc := if differs RESUME_CMD then desc ++ ResumeDescription else desc
  let desc := if differs STOP_CMD then desc ++ StopDescription else desc
  desc

/-- The comparison of `strcasecmp` on character lists: 0 when the two agree up to the case
of their letters, otherwise the difference of the first two lower-cased characters that
differ (0 stands for the end of a string). -/
def exStrcasecmpChars : List Char → List Char → Int
  | [], [] => 0
  | [], b :: _ => -(b.toLower.toNat : Int)
  | a :: _, [] => (a.toLower.toNat : Int)
  | a :: s1, b :: s2 =>
    if a.toLower = b.toLower then exStrcasecmpChars s1 s2
    else (a.toLower.toNat : Int) - (b.toLower.toNat : Int)

/-- The C library function `strcasecmp`, used to run `GetDescription` on examples. -/
def exStrcasecmp (s1 s2 : String) : Int := exStrcasecmpChars s1.data s2.data

end vtkPlusStartStopRecordingCommand

/-! ## Lemmas on the circular buffer -/

namespace vtkTimestampedCircularBuffer

theorem mem_Uids_iff (b : vtkTimestampedCircularBuffer K) (hv : b.CountersValid) (u : Int) :
    u ∈ b.Uids ↔ b.oldestUid ≤ u ∧ u ≤ b.newestUid := by
  obtain ⟨h0, h1, h2, h3⟩ := hv
  have hn : b.nextUid ≠ 0 := by omega
  simp only [Uids, GetNumberOfItems, List.mem_map, List.mem_range]
  rw [if_neg hn]
  constructor
  · rintro ⟨k, hk, rfl⟩
    omega
  · rintro ⟨ha, hb⟩
    refine ⟨(u - b.oldestUid).toNat, ?_, ?_⟩ <;> omega

theorem Uids_ne_nil (b : vtkTimestampedCircularBuffer K) (hv : b.CountersValid) :
    b.Uids ≠ [] := by
  have h : b.oldestUid ∈ b.Uids := (b.mem_Uids_iff hv _).2 ⟨le_refl _, hv.2.1⟩
  intro hnil
  rw [hnil] at h
  simp at h

theorem GetFrameStatus_of_mem (b : vtkTimestampedCircularBuffer K) (hv : b.CountersValid)
    {u : Int} (hu : u ∈ b.Uids) : b.GetFrameStatus u = ITEM_OK := by
  obtain ⟨ha, hb⟩ := (b.mem_Uids_iff hv u).1 hu
  obtain ⟨h0, h1, h2, h3⟩ := hv
  have h4 : ¬ u < b.oldestUid := by omega
  have h5 : ¬ u ≥ b.nextUid := by omega
  simp [GetFrameStatus, h4, h5]

theorem exists_item (b : vtkTimestampedCircularBuffer K) (hv : b.CountersValid) (u : Int) :
    ∃ item, b.GetBufferItemFromUid u = some item := by
  obtain ⟨h0, h1, h2, h3⟩ := hv
  have hlen : (0 : Int) < (b.items.length : Int) := by omega
  have hlt : (u % (b.items.length : Int)).toNat < b.items.length := by
    have := Int.emod_lt_of_pos u hlen
    have := Int.emod_nonneg u (ne_of_gt hlen)
    omega
  exact ⟨b.items.get ⟨_, hlt⟩, by
    simp [GetBufferItemFromUid, GetBufferItemFromBufferIndex, BufferIndexFromUid,
      List.get?_eq_get hlt]⟩

theorem GetTimeStamp_of_mem (b : vtkTimestampedCircularBuffer K) (hv : b.CountersValid)
    {u : Int} (hu : u ∈ b.Uids) {item : DataBufferItem K}
    (hitem : b.GetBufferItemFromUid u = some item) :
    b.GetTimeStamp u = (ITEM_OK, item.FilteredTimeStamp) := by
  simp [GetTimeStamp, b.GetFrameStatus_of_mem hv hu, hitem]

theorem foldl_CloserUid_mem (b : vtkTimestampedCircularBuffer K) (time : K) (l : List Int)
    (a : Int) : l.foldl (b.CloserUid time) a ∈ a :: l := by
  induction l generalizing a with
  | nil => simp
  | cons x xs ih =>
    simp only [List.foldl_cons]
    have h := ih (b.CloserUid time a x)
    rcases List.mem_cons.1 h with h1 | h1
    · rw [h1]
      unfold CloserUid
      split_ifs <;> simp
    · exact List.mem_cons_of_mem _ (List.mem_cons_of_mem _ h1)

theorem foldl_CloserUid_le (b : vtkTimestampedCircularBuffer K) (time : K) (l : List Int)
    (a : Int) :
    ∀ u ∈ a :: l, |(b.GetTimeStamp (l.foldl (b.CloserUid time) a)).2 - time|
      ≤ |(b.GetTimeStamp u).2 - time| := by
  induction l generalizing a with
  | nil => simp
  | cons x xs ih =>
    intro u hu
    simp only [List.foldl_cons]
    have hstep : |(b.GetTimeStamp (b.CloserUid time a x)).2 - time| ≤ |(b.GetTimeStamp a).2 - time|
        ∧ |(b.GetTimeStamp (b.CloserUid time a x)).2 - time| ≤ |(b.GetTimeStamp x).2 - time| := by
      unfold CloserUid
      split_ifs with h
      · exact ⟨le_of_lt h, le_refl _⟩
      · exact ⟨le_refl _, not_lt.1 h⟩
    have hbest := ih (b.CloserUid time a x) (b.CloserUid time a x) (List.mem_cons_self _ _)
    rcases List.mem_cons.1 hu with h1 | h1
    · rw [h1]; exact le_trans hbest hstep.1
    · rcases List.mem_cons.1 h1 with h2 | h2
      · rw [h2]; exact le_trans hbest hstep.2
      · exact ih (b.CloserUid time a x) u (List.mem_cons_of_mem _ h2)

/-- The UID found by the time lookup on a ring whose UIDs are `first :: rest`. -/
theorem GetItemUidFromTime_uid (b : vtkTimestampedCircularBuffer K) {first : Int}
    {rest : List Int} (h : b.Uids = first :: rest) (time : K) :
    (b.GetItemUidFromTime time).2 = rest.foldl (b.CloserUid time) first := by
  unfold GetItemUidFromTime
  rw [h]
  simp only []
  split_ifs <;> rfl

/-- The status of the time lookup on a ring whose UIDs are `first :: rest`. -/
theorem GetItemUidFromTime_status_cons (b : vtkTimestampedCircularBuffer K) {first : Int}
    {rest : List Int} (h : b.Uids = first :: rest) (time : K) :
    (b.GetItemUidFromTime time).1
      = if (b.GetItemUidFromTime time).2 = b.oldestUid
            ∧ time < (b.GetTimeStamp (b.GetItemUidFromTime time).2).2 - NEGLIGIBLE_TIME_DIFFERENCE
        then ITEM_NOT_AVAILABLE_ANYMORE else ITEM_OK := by
  rw [b.GetItemUidFromTime_uid h time]
  unfold GetItemUidFromTime
  rw [h]
  simp only []
  split_ifs <;> rfl

/-- On a ring that holds an item the time lookup fails exactly when the closest item is
the oldest one and the query lies more than 0.00001 s before it. -/
theorem GetItemUidFromTime_status (b : vtkTimestampedCircularBuffer K) (hv : b.CountersValid)
    (time : K) :
    (b.GetItemUidFromTime time).1
      = if (b.GetItemUidFromTime time).2 = b.oldestUid
            ∧ time < (b.GetTimeStamp (b.GetItemUidFromTime time).2).2 - NEGLIGIBLE_TIME_DIFFERENCE
        then ITEM_NOT_AVAILABLE_ANYMORE else ITEM_OK := by
  have hne := b.Uids_ne_nil hv
  cases h : b.Uids with
  | nil => exact absurd h hne
  | cons first rest => exact b.GetItemUidFromTime_status_cons h time

/-- The time lookup succeeds when the query is not more than 0.00001 s before the item it
finds. -/
theorem GetItemUidFromTime_ok (b : vtkTimestampedCircularBuffer K) (hv : b.CountersValid)
    (time : K)
    (h : ¬ time < (b.GetTimeStamp (b.GetItemUidFromTime time).2).2 - NEGLIGIBLE_TIME_DIFFERENCE) :
    (b.GetItemUidFromTime time).1 = ITEM_OK := by
  rw [b.GetItemUidFromTime_status hv time, if_neg (fun hc => h hc.2)]

/-- A failing time lookup on a ring that holds an item: the status is
`ITEM_NOT_AVAILABLE_ANYMORE` and the query lies more than 0.00001 s before the closest
item. -/
theorem GetItemUidFromTime_fail (b : vtkTimestampedCircularBuffer K) (hv : b.CountersValid)
    (time : K) (h : (b.GetItemUidFromTime time).1 ≠ ITEM_OK) :
    (b.GetItemUidFromTime time).1 = ITEM_NOT_AVAILABLE_ANYMORE
    ∧ time < (b.GetTimeStamp (b.GetItemUidFromTime time).2).2 - NEGLIGIBLE_TIME_DIFFERENCE := by
  rw [b.GetItemUidFromTime_status hv time] at h ⊢
  split_ifs at h ⊢ with hc
  · exact ⟨rfl, hc.2⟩
  · exact absurd rfl h

/-- The UID returned by the time lookup is one of the stored UIDs. -/
theorem GetItemUidFromTime_mem (b : vtkTimestampedCircularBuffer K) (hv : b.CountersValid)
    (time : K) : (b.GetItemUidFromTime time).2 ∈ b.Uids := by
  have hne := b.Uids_ne_nil hv
  cases h : b.Uids with
  | nil => exact absurd h hne
  | cons first rest =>
    rw [b.GetItemUidFromTime_uid h time]
    exact b.foldl_CloserUid_mem time rest first

/-- No stored item is closer in time to the query than the one the time lookup returns. -/
theorem GetItemUidFromTime_closest (b : vtkTimestampedCircularBuffer K) (hv : b.CountersValid)
    (time : K) :
    ∀ u ∈ b.Uids, |(b.GetTimeStamp (b.GetItemUidFromTime time).2).2 - time|
      ≤ |(b.GetTimeStamp u).2 - time| := by
  have hne := b.Uids_ne_nil hv
  cases h : b.Uids with
  | nil => exact absurd h hne
  | cons first rest =>
    rw [b.GetItemUidFromTime_uid h time]
    exact b.foldl_CloserUid_le time rest first

end vtkTimestampedCircularBuffer

/-! ## Lemmas on the lookups of vtkPlusDataBuffer -/

namespace vtkPlusDataBuffer

open vtkTimestampedCircularBuffer

theorem GetDataBufferItem_of_mem (self : vtkPlusDataBuffer K) (hv : self.DataBuffer.CountersValid)
    {u : Int} (hu : u ∈ self.DataBuffer.Uids) {item : DataBufferItem K}
    (hitem : self.DataBuffer.GetBufferItemFromUid u = some item) (bufferItem : DataBufferItem K) :
    self.GetDataBufferItem u bufferItem = (ITEM_OK, item) := by
  simp [GetDataBufferItem, self.DataBuffer.GetFrameStatus_of_mem hv hu, hitem]

/-- The time lookup succeeds when the query is not more than 0.00001 s before the stored
closest item `A`. -/
theorem GetItemUidFromTime_ok_of_item (self : vtkPlusDataBuffer K)
    (hv : self.DataBuffer.CountersValid) (time : K) (A : DataBufferItem K)
    (hA : self.DataBuffer.GetBufferItemFromUid (self.DataBuffer.GetItemUidFromTime time).2 = some A)
    (h : ¬ time < A.FilteredTimeStamp - NEGLIGIBLE_TIME_DIFFERENCE) :
    (self.DataBuffer.GetItemUidFromTime time).1 = ITEM_OK := by
  apply self.DataBuffer.GetItemUidFromTime_ok hv time
  rw [self.DataBuffer.GetTimeStamp_of_mem hv (self.DataBuffer.GetItemUidFromTime_mem hv time) hA]
  exact h

/-- A failing time lookup on a ring that holds an item: the query lies more than 0.00001 s
before the stored closest item `A`. -/
theorem GetItemUidFromTime_fail_of_item (self : vtkPlusDataBuffer K)
    (hv : self.DataBuffer.CountersValid) (time : K) (A : DataBufferItem K)
    (hA : self.DataBuffer.GetBufferItemFromUid (self.DataBuffer.GetItemUidFromTime time).2 = some A)
    (h : (self.DataBuffer.GetItemUidFromTime time).1 ≠ ITEM_OK) :
    (self.DataBuffer.GetItemUidFromTime time).1 = ITEM_NOT_AVAILABLE_ANYMORE
    ∧ time < A.FilteredTimeStamp - NEGLIGIBLE_TIME_DIFFERENCE := by
  have hf := self.DataBuffer.GetItemUidFromTime_fail hv time h
  rw [self.DataBuffer.GetTimeStamp_of_mem hv (self.DataBuffer.GetItemUidFromTime_mem hv time) hA]
    at hf
  exact hf

/-- The closest-time lookup returns the stored closest item when the time lookup succeeds. -/
theorem GetDataBufferItemFromClosestTime_eq (self : vtkPlusDataBuffer K)
    (hv : self.DataBuffer.CountersValid) (time : K) (bufferItem A : DataBufferItem K)
    (hA : self.DataBuffer.GetBufferItemFromUid (self.DataBuffer.GetItemUidFromTime time).2 = some A)
    (hlook : (self.DataBuffer.GetItemUidFromTime time).1 = ITEM_OK) :
    self.GetDataBufferItemFromClosestTime time bufferItem = (ITEM_OK, A) := by
  have hmem := self.DataBuffer.GetItemUidFromTime_mem hv time
  simp [GetDataBufferItemFromClosestTime, hlook, self.GetDataBufferItem_of_mem hv hmem hA]

/-- The closest-time lookup hands on the status of a failing time lookup and leaves the
output item as it was (lines 1033-1038). -/
theorem GetDataBufferItemFromClosestTime_fail (self : vtkPlusDataBuffer K) (time : K)
    (bufferItem : DataBufferItem K)
    (hlook : (self.DataBuffer.GetItemUidFromTime time).1 ≠ ITEM_OK) :
    self.GetDataBufferItemFromClosestTime time bufferItem
      = ((self.DataBuffer.GetItemUidFromTime time).1, bufferItem) := by
  simp [GetDataBufferItemFromClosestTime, hlook]

/-- The neighbour lookup fails and leaves both items as they were when the time lookup
fails (lines 889-894). -/
theorem GetPrevNextBufferItemFromTime_fail (self : vtkPlusDataBuffer K) (time : K)
    (x y : DataBufferItem K)
    (hlook : (self.DataBuffer.GetItemUidFromTime time).1 ≠ ITEM_OK) :
    self.GetPrevNextBufferItemFromTime time x y = (PLUS_FAIL, x, y) := by
  simp [GetPrevNextBufferItemFromTime, hlook]

/-- Path-by-path description of `GetPrevNextBufferItemFromTime` on a ring that holds an
item, after a successful time lookup: `A` is the stored closest item, `B` the item in the
slot of the adjacent UID. -/
theorem GetPrevNextBufferItemFromTime_eq (self : vtkPlusDataBuffer K)
    (hv : self.DataBuffer.CountersValid) (time : K) (x y A B : DataBufferItem K)
    (hA : self.DataBuffer.GetBufferItemFromUid (self.DataBuffer.GetItemUidFromTime time).2 = some A)
    (hB : self.DataBuffer.GetBufferItemFromUid
      (NeighbourUid (self.DataBuffer.GetItemUidFromTime time).2 time A.FilteredTimeStamp) = some B)
    (hlook : (self.DataBuffer.GetItemUidFromTime time).1 = ITEM_OK) :
    self.GetPrevNextBufferItemFromTime time x y =
      if A.Status ≠ TOOL_OK then (PLUS_FAIL, A, y)
      else if |A.FilteredTimeStamp - time| < NEGLIGIBLE_TIME_DIFFERENCE then (PLUS_SUCCESS, A, A)
      else if |A.FilteredTimeStamp - time| > self.MaxAllowedTimeDifference then (PLUS_FAIL, A, y)
      else if (NeighbourUid (self.DataBuffer.GetItemUidFromTime time).2 time A.FilteredTimeStamp) < self.DataBuffer.oldestUid
            ∨ (NeighbourUid (self.DataBuffer.GetItemUidFromTime time).2 time A.FilteredTimeStamp) > self.DataBuffer.newestUid
        then (PLUS_FAIL, A, y)
      else if |B.FilteredTimeStamp - time| > self.MaxAllowedTimeDifference then (PLUS_FAIL, A, y)
      else if B.Status ≠ TOOL_OK then (PLUS_FAIL, A, B)
      else (PLUS_SUCCESS, A, B) := by
  have hstat := hlook
  have hmem := self.DataBuffer.GetItemUidFromTime_mem hv time
  have hgetA := self.GetDataBufferItem_of_mem hv hmem hA x
  have htsA := self.DataBuffer.GetTimeStamp_of_mem hv hmem hA
  unfold GetPrevNextBufferItemFromTime
  simp only [hstat, hgetA, htsA, ne_eq, not_true_eq_false, if_false, GetOldestItemUidInBuffer,
    GetLatestItemUidInBuffer, vtkTimestampedCircularBuffer.GetOldestItemUidInBuffer,
    vtkTimestampedCircularBuffer.GetLatestItemUidInBuffer]
  by_cases h1 : A.Status = TOOL_OK
  · by_cases h2 : |A.FilteredTimeStamp - time| < NEGLIGIBLE_TIME_DIFFERENCE
    · simp [h1, h2]
    · by_cases h3 : |A.FilteredTimeStamp - time| > self.MaxAllowedTimeDifference
      · simp [h1, h2, h3]
      · by_cases h4 : (NeighbourUid (self.DataBuffer.GetItemUidFromTime time).2 time A.FilteredTimeStamp) < self.DataBuffer.oldestUid
            ∨ (NeighbourUid (self.DataBuffer.GetItemUidFromTime time).2 time A.FilteredTimeStamp) > self.DataBuffer.newestUid
        · simp only [h1, h2, h3, h4, not_true_eq_false, if_false, if_true]
        · have hmemB : (NeighbourUid (self.DataBuffer.GetItemUidFromTime time).2 time A.FilteredTimeStamp) ∈ self.DataBuffer.Uids := by
            rw [self.DataBuffer.mem_Uids_iff hv]
            push_neg at h4
            exact ⟨h4.1, h4.2⟩
          have hgetB := self.GetDataBufferItem_of_mem hv hmemB hB y
          have htsB := self.DataBuffer.GetTimeStamp_of_mem hv hmemB hB
          simp only [h1, h2, h3, h4, hgetB, htsB, not_true_eq_false, if_false, if_true]
  · simp [h1]

end vtkPlusDataBuffer

/-! ## Lemmas on the interpolated lookup -/

namespace vtkPlusDataBuffer

open vtkTimestampedCircularBuffer

/-- When the time lookup succeeds and the neighbour lookup fails on a ring that holds an
item, the interpolated lookup hands back the stored closest item with its status forced
to `TOOL_MISSING`. -/
theorem GetInterpolated_fallback (m : ExternalMath K) (self : vtkPlusDataBuffer K)
    (hv : self.DataBuffer.CountersValid) (time : K) (bufferItem A : DataBufferItem K)
    (hA : self.DataBuffer.GetBufferItemFromUid (self.DataBuffer.GetItemUidFromTime time).2 = some A)
    (hlook : (self.DataBuffer.GetItemUidFromTime time).1 = ITEM_OK)
    (hfail : (self.GetPrevNextBufferItemFromTime time (DataBufferItem.new K)
      (DataBufferItem.new K)).1 ≠ PLUS_SUCCESS) :
    self.GetInterpolatedDataBufferItemFromTime m time bufferItem
      = (ITEM_OK, { A with Status := TOOL_MISSING }, false) := by
  unfold GetInterpolatedDataBufferItemFromTime
  simp only [hfail, self.GetDataBufferItemFromClosestTime_eq hv time bufferItem A hA hlook, ne_eq,
    not_false_eq_true, if_true, not_true_eq_false, if_false]

/-- When the time lookup fails, the interpolated lookup returns the status of the time
lookup and leaves the output item as it was (lines 1061-1070). -/
theorem GetInterpolated_lookup_fail (m : ExternalMath K) (self : vtkPlusDataBuffer K)
    (time : K) (bufferItem : DataBufferItem K)
    (hlook : (self.DataBuffer.GetItemUidFromTime time).1 ≠ ITEM_OK) :
    self.GetInterpolatedDataBufferItemFromTime m time bufferItem
      = ((self.DataBuffer.GetItemUidFromTime time).1, bufferItem, false) := by
  unfold GetInterpolatedDataBufferItemFromTime
  simp [self.GetPrevNextBufferItemFromTime_fail time _ _ hlook,
    self.GetDataBufferItemFromClosestTime_fail time bufferItem hlook, hlook]

/-- When the neighbour lookup hands back the same item twice, the interpolated lookup
returns that item unchanged. -/
theorem GetInterpolated_exact (m : ExternalMath K) (self : vtkPlusDataBuffer K) (time : K)
    (bufferItem A : DataBufferItem K)
    (h : self.GetPrevNextBufferItemFromTime time (DataBufferItem.new K) (DataBufferItem.new K)
      = (PLUS_SUCCESS, A, A)) :
    self.GetInterpolatedDataBufferItemFromTime m time bufferItem = (ITEM_OK, A, false) := by
  unfold GetInterpolatedDataBufferItemFromTime
  simp [h]

/-- When the neighbour lookup returns two items with distinct UIDs whose timestamps are
available and not negligibly close, the interpolated lookup returns the blended item. -/
theorem GetInterpolated_blend (m : ExternalMath K) (self : vtkPlusDataBuffer K) (time : K)
    (bufferItem A B : DataBufferItem K) (tA tB : K)
    (h : self.GetPrevNextBufferItemFromTime time (DataBufferItem.new K) (DataBufferItem.new K)
      = (PLUS_SUCCESS, A, B))
    (huid : A.Uid ≠ B.Uid)
    (htA : self.DataBuffer.GetTimeStamp A.Uid = (ITEM_OK, tA))
    (htB : self.DataBuffer.GetTimeStamp B.Uid = (ITEM_OK, tB))
    (hgap : ¬ |tA - tB| < NEGLIGIBLE_TIME_DIFFERENCE) :
    self.GetInterpolatedDataBufferItemFromTime m time bufferItem
      = (ITEM_OK, InterpolatedItem m A B time tA tB,
         LargeAngleWarning m (InterpolatedItem m A B time tA tB).Matrix A.Matrix B.Matrix) := by
  unfold GetInterpolatedDataBufferItemFromTime
  simp [h, huid, htA, htB, hgap]

/-- Timestamps of the closest item and of its neighbour on the other side of the query are
at least as far apart as the closest item is from the query. -/
theorem gap_of_closest (tA tB t eps : K) (hclosest : |tA - t| ≤ |tB - t|)
    (hfar : ¬ |tA - t| < eps)
    (hside : (t < tA ∧ tB < tA) ∨ (¬ t < tA ∧ tA < tB)) : ¬ |tA - tB| < eps := by
  intro hlt
  apply hfar
  rcases hside with ⟨h1, h2⟩ | ⟨h1, h2⟩
  · have hAt : |tA - t| = tA - t := abs_of_pos (by linarith)
    have hAB : |tA - tB| = tA - tB := abs_of_pos (by linarith)
    rw [hAt] at hclosest ⊢
    rw [hAB] at hlt
    rcases abs_cases (tB - t) with ⟨h3, _⟩ | ⟨h3, _⟩
    · rw [h3] at hclosest; linarith
    · rw [h3] at hclosest; linarith
  · have h1 : tA ≤ t := not_lt.1 h1
    have hAt : |tA - t| = t - tA := by rw [abs_sub_comm]; exact abs_of_nonneg (by linarith)
    have hAB : |tA - tB| = tB - tA := by rw [abs_sub_comm]; exact abs_of_pos (by linarith)
    rw [hAt] at hclosest ⊢
    rw [hAB] at hlt
    rcases abs_cases (tB - t) with ⟨h3, _⟩ | ⟨h3, _⟩
    · rw [h3] at hclosest; linarith
    · rw [h3] at hclosest; linarith

theorem stored_uid (b : vtkTimestampedCircularBuffer K) (hs : b.UidsStored) {u : Int}
    (hu : u ∈ b.Uids) {item : DataBufferItem K} (hitem : b.GetBufferItemFromUid u = some item) :
    item.Uid = u := by
  have h := hs u hu
  rw [hitem] at h
  simpa using h

end vtkPlusDataBuffer

/-! ## Facts about the example buffers -/

namespace vtkPlusDataBuffer

open vtkTimestampedCircularBuffer

theorem exThree_valid : exThree.DataBuffer.CountersValid := by
  simp [exThree, exBuffer, CountersValid]

theorem exThree_uids : exThree.DataBuffer.Uids = [0, 1, 2] := by
  simp [exThree, exBuffer, Uids, GetNumberOfItems, List.range_succ]

theorem exThree_item0 :
    exThree.DataBuffer.GetBufferItemFromUid 0 = some (exItem 0 1 TOOL_OK 10) := by
  simp [exThree, exBuffer, GetBufferItemFromUid, GetBufferItemFromBufferIndex, BufferIndexFromUid]

theorem exThree_item1 :
    exThree.DataBuffer.GetBufferItemFromUid 1 = some (exItem 1 (13 / 10) TOOL_OK 20) := by
  simp [exThree, exBuffer, GetBufferItemFromUid, GetBufferItemFromBufferIndex, BufferIndexFromUid]

theorem exThree_item2 :
    exThree.DataBuffer.GetBufferItemFromUid 2 = some (exItem 2 (16 / 10) TOOL_OUT_OF_VIEW 30) := by
  simp [exThree, exBuffer, GetBufferItemFromUid, GetBufferItemFromBufferIndex, BufferIndexFromUid]

theorem exThree_ts0 : exThree.DataBuffer.GetTimeStamp 0 = (ITEM_OK, 1) := by
  rw [GetTimeStamp_of_mem _ exThree_valid (by simp [exThree_uids]) exThree_item0]; rfl

theorem exThree_ts1 : exThree.DataBuffer.GetTimeStamp 1 = (ITEM_OK, 13 / 10) := by
  rw [GetTimeStamp_of_mem _ exThree_valid (by simp [exThree_uids]) exThree_item1]; rfl

theorem exThree_ts2 : exThree.DataBuffer.GetTimeStamp 2 = (ITEM_OK, 16 / 10) := by
  rw [GetTimeStamp_of_mem _ exThree_valid (by simp [exThree_uids]) exThree_item2]; rfl

theorem exThree_stored : exThree.DataBuffer.UidsStored := by
  intro uid huid
  rw [exThree_uids] at huid
  simp only [List.mem_cons, List.mem_singleton, List.not_mem_nil, or_false] at huid
  rcases huid with h | h | h <;> subst h
  · rw [exThree_item0]; rfl
  · rw [exThree_item1]; rfl
  · rw [exThree_item2]; rfl

theorem exThree_increasing : exThree.DataBuffer.TimestampsIncreasing := by
  intro uid huid hnext
  rw [exThree_uids] at huid hnext
  simp only [List.mem_cons, List.mem_singleton, List.not_mem_nil, or_false] at huid
  rcases huid with h | h | h <;> subst h
  · norm_num [exThree_ts0, exThree_ts1]
  · norm_num [exThree_ts1, exThree_ts2]
  · norm_num at hnext

/-- The closest item of `exThree` to 1.3 s is the one with UID 1. -/
theorem exThree_closest_1 : exThree.DataBuffer.GetItemUidFromTime (13 / 10) = (ITEM_OK, 1) := by
  have h1 : |(13 : ℚ) / 10 - 13 / 10| < |1 - 13 / 10| := by norm_num [lt_abs]
  have h2 : ¬ |(16 : ℚ) / 10 - 13 / 10| < |13 / 10 - 13 / 10| := by norm_num
  have h3 : ¬ ((1 : Int) = exThree.DataBuffer.oldestUid
      ∧ (13 / 10 : ℚ) < 13 / 10 - NEGLIGIBLE_TIME_DIFFERENCE) := by
    norm_num [exThree, exBuffer]
  simp only [GetItemUidFromTime, exThree_uids, List.foldl, CloserUid, exThree_ts0, exThree_ts1,
    h1, if_true, exThree_ts2, h2, if_false, h3]

/-- The UID found in `exThree` for any query up to 1.15 s is the one of the item at 1.0 s. -/
theorem exThree_closest_0_uid (time : ℚ) (h : time ≤ 23 / 20) :
    (exThree.DataBuffer.GetItemUidFromTime time).2 = 0 := by
  have h1 : ¬ |(13 : ℚ) / 10 - time| < |1 - time| := by
    rw [not_lt]
    rcases abs_cases ((13 : ℚ) / 10 - time) with ⟨e1, _⟩ | ⟨e1, _⟩ <;>
      rcases abs_cases ((1 : ℚ) - time) with ⟨e2, _⟩ | ⟨e2, _⟩ <;> rw [e1, e2] <;> linarith
  have h2 : ¬ |(16 : ℚ) / 10 - time| < |1 - time| := by
    rw [not_lt]
    rcases abs_cases ((16 : ℚ) / 10 - time) with ⟨e1, _⟩ | ⟨e1, _⟩ <;>
      rcases abs_cases ((1 : ℚ) - time) with ⟨e2, _⟩ | ⟨e2, _⟩ <;> rw [e1, e2] <;> linarith
  rw [GetItemUidFromTime_uid _ exThree_uids]
  simp only [List.foldl, CloserUid, exThree_ts0, exThree_ts1, h1, if_false, exThree_ts2, h2]

/-- The closest item of `exThree` to any query from 0.99999 s up to 1.15 s is the one with
UID 0, and the time lookup succeeds. -/
theorem exThree_closest_0 (time : ℚ) (h : time ≤ 23 / 20) (hlo : 99999 / 100000 ≤ time) :
    exThree.DataBuffer.GetItemUidFromTime time = (ITEM_OK, 0) := by
  have huid := exThree_closest_0_uid time h
  have hst := exThree.DataBuffer.GetItemUidFromTime_status exThree_valid time
  rw [huid, exThree_ts0] at hst
  have hno : ¬ ((0 : Int) = exThree.DataBuffer.oldestUid
      ∧ time < (ITEM_OK, (1 : ℚ)).2 - NEGLIGIBLE_TIME_DIFFERENCE) := by
    rintro ⟨_, hlt⟩
    norm_num [NEGLIGIBLE_TIME_DIFFERENCE] at hlt
    linarith
  rw [if_neg hno] at hst
  exact Prod.ext hst huid

/-- The closest item of `exThree` to any query from 1.5 s on is the newest one, UID 2,
however late the query. -/
theorem exThree_closest_2 (time : ℚ) (h : 3 / 2 ≤ time) :
    exThree.DataBuffer.GetItemUidFromTime time = (ITEM_OK, 2) := by
  have h1 : |(13 : ℚ) / 10 - time| < |1 - time| := by
    rw [abs_of_neg (by linarith), abs_of_neg (by linarith)]
    linarith
  have h2 : |(16 : ℚ) / 10 - time| < |13 / 10 - time| := by
    rw [abs_of_neg (by linarith : (13 : ℚ) / 10 - time < 0)]
    rcases abs_cases ((16 : ℚ) / 10 - time) with ⟨e1, _⟩ | ⟨e1, _⟩ <;> rw [e1] <;> linarith
  have h3 : ¬ ((2 : Int) = exThree.DataBuffer.oldestUid
      ∧ time < 16 / 10 - NEGLIGIBLE_TIME_DIFFERENCE) := by
    norm_num [exThree, exBuffer]
  simp only [GetItemUidFromTime, exThree_uids, List.foldl, CloserUid, exThree_ts0, exThree_ts1,
    h1, if_true, exThree_ts2, h2, if_false, h3]

/-- A query more than 0.00001 s before the oldest item of `exThree` makes the time lookup
fail with `ITEM_NOT_AVAILABLE_ANYMORE`. -/
theorem exThree_before_oldest (time : ℚ) (h : time < 99999 / 100000) :
    exThree.DataBuffer.GetItemUidFromTime time = (ITEM_NOT_AVAILABLE_ANYMORE, 0) := by
  have huid := exThree_closest_0_uid time (by linarith)
  have hst := exThree.DataBuffer.GetItemUidFromTime_status exThree_valid time
  rw [huid, exThree_ts0] at hst
  have hyes : (0 : Int) = exThree.DataBuffer.oldestUid
      ∧ time < (ITEM_OK, (1 : ℚ)).2 - NEGLIGIBLE_TIME_DIFFERENCE := by
    refine ⟨rfl, ?_⟩
    norm_num [NEGLIGIBLE_TIME_DIFFERENCE]
    linarith
  rw [if_pos hyes] at hst
  exact Prod.ext hst huid

end vtkPlusDataBuffer

namespace vtkPlusDataBuffer

open vtkTimestampedCircularBuffer

theorem exThree_itemNeg1 :
    exThree.DataBuffer.GetBufferItemFromUid (-1) = some (exItem 2 (16 / 10) TOOL_OUT_OF_VIEW 30) := by
  simp [exThree, exBuffer, GetBufferItemFromUid, GetBufferItemFromBufferIndex, BufferIndexFromUid]

theorem exOutOfView_valid : exOutOfView.DataBuffer.CountersValid := by
  simp [exOutOfView, exBuffer, CountersValid]

theorem exOutOfView_uids : exOutOfView.DataBuffer.Uids = [0] := by
  simp [Uids, GetNumberOfItems, exOutOfView, exBuffer, List.range_succ]

theorem exOutOfView_closest_uid (time : ℚ) :
    (exOutOfView.DataBuffer.GetItemUidFromTime time).2 = 0 := by
  rw [GetItemUidFromTime_uid _ exOutOfView_uids]
  rfl

theorem exOutOfView_closest : exOutOfView.DataBuffer.GetItemUidFromTime 1 = (ITEM_OK, 0) := by
  have huid := exOutOfView_closest_uid 1
  have hst := exOutOfView.DataBuffer.GetItemUidFromTime_status exOutOfView_valid 1
  rw [huid] at hst
  have hts : exOutOfView.DataBuffer.GetTimeStamp 0 = (ITEM_OK, 1) := by
    simp [GetTimeStamp, GetFrameStatus, GetBufferItemFromUid, GetBufferItemFromBufferIndex,
      BufferIndexFromUid, exOutOfView, exBuffer, exItem]
  rw [hts] at hst
  have hno : ¬ ((0 : Int) = exOutOfView.DataBuffer.oldestUid
      ∧ (1 : ℚ) < (ITEM_OK, (1 : ℚ)).2 - NEGLIGIBLE_TIME_DIFFERENCE) := by
    rintro ⟨_, hlt⟩
    norm_num [NEGLIGIBLE_TIME_DIFFERENCE] at hlt
  rw [if_neg hno] at hst
  exact Prod.ext hst huid

theorem exOutOfView_item0 :
    exOutOfView.DataBuffer.GetBufferItemFromUid 0 = some (exItem 0 1 TOOL_OUT_OF_VIEW 10) := by
  simp [exOutOfView, exBuffer, GetBufferItemFromUid, GetBufferItemFromBufferIndex,
    BufferIndexFromUid]

end vtkPlusDataBuffer

namespace vtkPlusDataBuffer

open vtkTimestampedCircularBuffer

/-- In `exThree` the neighbour lookup at 1.1 s returns the items at 1.0 s and 1.3 s. -/
theorem exThree_prevnext (x y : DataBufferItem ℚ) :
    exThree.GetPrevNextBufferItemFromTime (11 / 10) x y
      = (PLUS_SUCCESS, exItem 0 1 TOOL_OK 10, exItem 1 (13 / 10) TOOL_OK 20) := by
  have hc := exThree_closest_0 (11 / 10) (by norm_num) (by norm_num)
  have hA : exThree.DataBuffer.GetBufferItemFromUid
      (exThree.DataBuffer.GetItemUidFromTime (11 / 10)).2 = some (exItem 0 1 TOOL_OK 10) := by
    rw [hc]; exact exThree_item0
  have hN : NeighbourUid (exThree.DataBuffer.GetItemUidFromTime (11 / 10)).2 (11 / 10 : ℚ)
      (exItem 0 1 TOOL_OK 10).FilteredTimeStamp = 1 := by
    rw [hc]; norm_num [NeighbourUid, exItem]
  have hB : exThree.DataBuffer.GetBufferItemFromUid
      (NeighbourUid (exThree.DataBuffer.GetItemUidFromTime (11 / 10)).2 (11 / 10 : ℚ)
        (exItem 0 1 TOOL_OK 10).FilteredTimeStamp) = some (exItem 1 (13 / 10) TOOL_OK 20) := by
    rw [hN]; exact exThree_item1
  rw [GetPrevNextBufferItemFromTime_eq exThree exThree_valid (11 / 10) x y _ _ hA hB
    (by rw [hc]), hN]
  norm_num [exItem, exThree, exBuffer, NEGLIGIBLE_TIME_DIFFERENCE, abs_lt, lt_abs]

theorem exThree_gap : ¬ |(1 : ℚ) - 13 / 10| < NEGLIGIBLE_TIME_DIFFERENCE := by
  norm_num [NEGLIGIBLE_TIME_DIFFERENCE, abs_lt]

end vtkPlusDataBuffer

/-! ## Claims about the interpolated lookup -/

namespace vtkPlusDataBuffer

open vtkTimestampedCircularBuffer

/-- The neighbour lookup succeeds with the pair `(A, B)` when the closest item is not
negligibly close and the interpolation preconditions hold. -/
theorem GetPrevNext_of_preconditions (self : vtkPlusDataBuffer K)
    (hv : self.DataBuffer.CountersValid) (time : K) (x y A B : DataBufferItem K)
    (hA : self.DataBuffer.GetBufferItemFromUid (self.DataBuffer.GetItemUidFromTime time).2 = some A)
    (hB : self.DataBuffer.GetBufferItemFromUid
      (NeighbourUid (self.DataBuffer.GetItemUidFromTime time).2 time A.FilteredTimeStamp) = some B)
    (hlook : (self.DataBuffer.GetItemUidFromTime time).1 = ITEM_OK)
    (hfar : ¬ |A.FilteredTimeStamp - time| < NEGLIGIBLE_TIME_DIFFERENCE)
    (hc : self.InterpolationPreconditions time (self.DataBuffer.GetItemUidFromTime time).2 A B) :
    self.GetPrevNextBufferItemFromTime time x y = (PLUS_SUCCESS, A, B) := by
  obtain ⟨⟨hlo, hhi⟩, hAok, hBok, hAt, hBt⟩ := hc
  simp only [GetOldestItemUidInBuffer, GetLatestItemUidInBuffer,
    vtkTimestampedCircularBuffer.GetOldestItemUidInBuffer,
    vtkTimestampedCircularBuffer.GetLatestItemUidInBuffer] at hlo hhi
  rw [self.GetPrevNextBufferItemFromTime_eq hv time x y A B hA hB hlook]
  have h3 : ¬ |A.FilteredTimeStamp - time| > self.MaxAllowedTimeDifference := not_lt.2 hAt
  have h5 : ¬ |B.FilteredTimeStamp - time| > self.MaxAllowedTimeDifference := not_lt.2 hBt
  have h4 : ¬ (NeighbourUid (self.DataBuffer.GetItemUidFromTime time).2 time A.FilteredTimeStamp
        < self.DataBuffer.oldestUid
      ∨ NeighbourUid (self.DataBuffer.GetItemUidFromTime time).2 time A.FilteredTimeStamp
        > self.DataBuffer.newestUid) := by
    push_neg
    exact ⟨hlo, hhi⟩
  simp only [hAok, hBok, hfar, h3, h4, h5, ne_eq, not_true_eq_false, if_false]

/-- The neighbour lookup fails when the closest item is not negligibly close and some
interpolation precondition does not hold. -/
theorem GetPrevNext_of_not_preconditions (self : vtkPlusDataBuffer K)
    (hv : self.DataBuffer.CountersValid) (time : K) (x y A B : DataBufferItem K)
    (hA : self.DataBuffer.GetBufferItemFromUid (self.DataBuffer.GetItemUidFromTime time).2 = some A)
    (hB : self.DataBuffer.GetBufferItemFromUid
      (NeighbourUid (self.DataBuffer.GetItemUidFromTime time).2 time A.FilteredTimeStamp) = some B)
    (hlook : (self.DataBuffer.GetItemUidFromTime time).1 = ITEM_OK)
    (hfar : ¬ |A.FilteredTimeStamp - time| < NEGLIGIBLE_TIME_DIFFERENCE)
    (hc : ¬ self.InterpolationPreconditions time (self.DataBuffer.GetItemUidFromTime time).2 A B) :
    (self.GetPrevNextBufferItemFromTime time x y).1 ≠ PLUS_SUCCESS := by
  rw [self.GetPrevNextBufferItemFromTime_eq hv time x y A B hA hB hlook]
  split_ifs with h1 h2 h3 h4 h5
  · simp
  · simp
  · simp
  · simp
  · simp
  · exfalso
    apply hc
    push_neg at h3
    exact ⟨⟨h3.1, h3.2⟩, not_not.1 h1, not_not.1 h5, not_lt.1 h2, not_lt.1 h4⟩

/-- The translation column of the item written at lines 1163-1174 is the weighted sum of
the two translations. -/
theorem InterpolatedItem_translation (m : ExternalMath K) (A B : DataBufferItem K)
    (time tA tB : K) (i : Fin 4) (hi : i.val < 3) :
    (InterpolatedItem m A B time tA tB).Matrix i 3
      = (|tB - time| / |tA - tB|) * A.Matrix i 3
        + (1 - |tB - time| / |tA - tB|) * B.Matrix i 3 := by
  simp only [InterpolatedItem, InterpolatedMatrix, ItemAWeight, hi, dif_pos]
  have h3 : ¬ ((3 : Fin 4).val < 3) := by decide
  rw [dif_neg h3]
  ring

/-- The rotation block of the item written at lines 1163-1174 is the matrix of the `Slerp`
quaternion with parameter `wB`. -/
theorem InterpolatedItem_rotation (m : ExternalMath K) (A B : DataBufferItem K)
    (time tA tB : K) :
    RotationPart (InterpolatedItem m A B time tA tB).Matrix
      = m.QuaternionToMatrix3x3
          (PlusMath.Slerp m.acos m.sin (1 - |tB - time| / |tA - tB|)
            (m.Matrix3x3ToQuaternion (RotationPart A.Matrix))
            (m.Matrix3x3ToQuaternion (RotationPart B.Matrix)) true) := by
  funext i j
  have hi : (⟨i.val, by omega⟩ : Fin 4).val < 3 := i.isLt
  have hj : (⟨j.val, by omega⟩ : Fin 4).val < 3 := j.isLt
  simp only [RotationPart, InterpolatedItem, InterpolatedMatrix, ItemAWeight, dif_pos hi,
    dif_pos hj]

/-- C1 (amended): on a ring that holds an item, stores every UID of its window in its slot
and has strictly increasing timestamps, with `A` the stored closest item, not within
0.00001 s of the query, and `B` the item of the adjacent UID.  When the time lookup
succeeds, the item returned by `GetInterpolatedDataBufferItemFromTime` carries the
interpolated pose (filtered timestamp equal to the query, translation
`wA * posA + wB * posB`, rotation block the matrix of `Slerp` with parameter `wB`) exactly
when the adjacent UID is inside `[oldest, latest]`, `A` and `B` are `TOOL_OK` and both
timestamps are within `MaxAllowedTimeDifference`; then it is the interpolated item with
status `TOOL_OK`, and otherwise it is `A` with status `TOOL_MISSING`.  When the time lookup
fails, the call returns the status of the lookup and leaves the output item untouched. -/
theorem interpolates_iff_preconditions (m : ExternalMath K) (self : vtkPlusDataBuffer K)
    (hv : self.DataBuffer.CountersValid) (hs : self.DataBuffer.UidsStored)
    (hi : self.DataBuffer.TimestampsIncreasing) (time : K) (bufferItem A B : DataBufferItem K)
    (hA : self.DataBuffer.GetBufferItemFromUid (self.DataBuffer.GetItemUidFromTime time).2 = some A)
    (hB : self.DataBuffer.GetBufferItemFromUid
      (NeighbourUid (self.DataBuffer.GetItemUidFromTime time).2 time A.FilteredTimeStamp) = some B)
    (hfar : ¬ |A.FilteredTimeStamp - time| < NEGLIGIBLE_TIME_DIFFERENCE) :
    ((self.DataBuffer.GetItemUidFromTime time).1 = ITEM_OK →
      (CarriesInterpolatedPose m
          (self.GetInterpolatedDataBufferItemFromTime m time bufferItem).2.1 A B time
        ↔ self.InterpolationPreconditions time (self.DataBuffer.GetItemUidFromTime time).2 A B)
      ∧ (self.InterpolationPreconditions time (self.DataBuffer.GetItemUidFromTime time).2 A B →
          (self.GetInterpolatedDataBufferItemFromTime m time bufferItem).1 = ITEM_OK
          ∧ (self.GetInterpolatedDataBufferItemFromTime m time bufferItem).2.1
              = InterpolatedItem m A B time A.FilteredTimeStamp B.FilteredTimeStamp
          ∧ (self.GetInterpolatedDataBufferItemFromTime m time bufferItem).2.1.Status = TOOL_OK)
      ∧ (¬ self.InterpolationPreconditions time (self.DataBuffer.GetItemUidFromTime time).2 A B →
          (self.GetInterpolatedDataBufferItemFromTime m time bufferItem).1 = ITEM_OK
          ∧ (self.GetInterpolatedDataBufferItemFromTime m time bufferItem).2.1
              = { A with Status := TOOL_MISSING }))
    ∧ ((self.DataBuffer.GetItemUidFromTime time).1 ≠ ITEM_OK →
        self.GetInterpolatedDataBufferItemFromTime m time bufferItem
          = ((self.DataBuffer.GetItemUidFromTime time).1, bufferItem, false)) := by
  refine ⟨?_, fun hlook => self.GetInterpolated_lookup_fail m time bufferItem hlook⟩
  intro hlook
  have hmemA := self.DataBuffer.GetItemUidFromTime_mem hv time
  have key : self.InterpolationPreconditions time (self.DataBuffer.GetItemUidFromTime time).2 A B →
      self.GetInterpolatedDataBufferItemFromTime m time bufferItem
        = (ITEM_OK, InterpolatedItem m A B time A.FilteredTimeStamp B.FilteredTimeStamp,
           LargeAngleWarning m
             (InterpolatedItem m A B time A.FilteredTimeStamp B.FilteredTimeStamp).Matrix
             A.Matrix B.Matrix) := by
    intro hc
    have hpn := self.GetPrevNext_of_preconditions hv time (DataBufferItem.new K)
      (DataBufferItem.new K) A B hA hB hlook hfar hc
    obtain ⟨⟨hlo, hhi⟩, hAok, hBok, hAt, hBt⟩ := hc
    simp only [GetOldestItemUidInBuffer, GetLatestItemUidInBuffer,
      vtkTimestampedCircularBuffer.GetOldestItemUidInBuffer,
      vtkTimestampedCircularBuffer.GetLatestItemUidInBuffer] at hlo hhi
    have hmemB : NeighbourUid (self.DataBuffer.GetItemUidFromTime time).2 time A.FilteredTimeStamp
        ∈ self.DataBuffer.Uids := (self.DataBuffer.mem_Uids_iff hv _).2 ⟨hlo, hhi⟩
    have hAuid := stored_uid self.DataBuffer hs hmemA hA
    have hBuid := stored_uid self.DataBuffer hs hmemB hB
    have htA := self.DataBuffer.GetTimeStamp_of_mem hv hmemA hA
    have htB := self.DataBuffer.GetTimeStamp_of_mem hv hmemB hB
    have hclosest := self.DataBuffer.GetItemUidFromTime_closest hv time _ hmemB
    rw [htA, htB] at hclosest
    have hside : (time < A.FilteredTimeStamp ∧ B.FilteredTimeStamp < A.FilteredTimeStamp)
        ∨ (¬ time < A.FilteredTimeStamp ∧ A.FilteredTimeStamp < B.FilteredTimeStamp) := by
      by_cases hlt : time < A.FilteredTimeStamp
      · left
        refine ⟨hlt, ?_⟩
        have hN : NeighbourUid (self.DataBuffer.GetItemUidFromTime time).2 time A.FilteredTimeStamp
            = (self.DataBuffer.GetItemUidFromTime time).2 - 1 := by simp [NeighbourUid, hlt]
        rw [hN] at hmemB htB
        have hmemA1 : (self.DataBuffer.GetItemUidFromTime time).2 - 1 + 1 ∈ self.DataBuffer.Uids := by
          simpa using hmemA
        have := hi _ hmemB hmemA1
        rw [htB] at this
        simpa [htA] using this
      · right
        refine ⟨hlt, ?_⟩
        have hN : NeighbourUid (self.DataBuffer.GetItemUidFromTime time).2 time A.FilteredTimeStamp
            = (self.DataBuffer.GetItemUidFromTime time).2 + 1 := by simp [NeighbourUid, hlt]
        rw [hN] at hmemB htB
        have := hi _ hmemA hmemB
        rw [htA, htB] at this
        exact this
    have hgap := gap_of_closest A.FilteredTimeStamp B.FilteredTimeStamp time
      NEGLIGIBLE_TIME_DIFFERENCE hclosest hfar hside
    have huid : A.Uid ≠ B.Uid := by
      rw [hAuid, hBuid]
      unfold NeighbourUid
      split_ifs <;> omega
    exact self.GetInterpolated_blend m time bufferItem A B _ _ hpn huid
      (by rw [hAuid]; exact htA) (by rw [hBuid]; exact htB) hgap
  have key2 : ¬ self.InterpolationPreconditions time (self.DataBuffer.GetItemUidFromTime time).2 A B →
      self.GetInterpolatedDataBufferItemFromTime m time bufferItem
        = (ITEM_OK, { A with Status := TOOL_MISSING }, false) := by
    intro hc
    exact self.GetInterpolated_fallback m hv time bufferItem A hA hlook
      (self.GetPrevNext_of_not_preconditions hv time _ _ A B hA hB hlook hfar hc)
  refine ⟨?_, fun hc => by rw [key hc]; exact ⟨rfl, rfl, hc.2.1⟩,
    fun hc => by rw [key2 hc]; exact ⟨rfl, rfl⟩⟩
  by_cases hc : self.InterpolationPreconditions time (self.DataBuffer.GetItemUidFromTime time).2 A B
  · rw [key hc]
    simp only [hc, iff_true]
    exact ⟨rfl, fun i hi3 => InterpolatedItem_translation m A B time _ _ i hi3,
      InterpolatedItem_rotation m A B time _ _⟩
  · rw [key2 hc]
    simp only [hc, iff_false]
    intro hpose
    apply hfar
    have ht : A.FilteredTimeStamp = time := hpose.1
    rw [ht, sub_self, abs_zero]
    norm_num [NEGLIGIBLE_TIME_DIFFERENCE]

end vtkPlusDataBuffer

namespace vtkPlusDataBuffer

open vtkTimestampedCircularBuffer

/-- Witness for C1 (amended): in `exThree` a query at 1.1 s is interpolated between the
items at 1.0 s and 1.3 s; the result carries the interpolated pose. -/
theorem interpolates_iff_preconditions_witness :
    CarriesInterpolatedPose exMath
      (exThree.GetInterpolatedDataBufferItemFromTime exMath (11 / 10) (DataBufferItem.new ℚ)).2.1
      (exItem 0 1 TOOL_OK 10) (exItem 1 (13 / 10) TOOL_OK 20) (11 / 10) := by
  have hc := exThree_closest_0 (11 / 10) (by norm_num) (by norm_num)
  have hA : exThree.DataBuffer.GetBufferItemFromUid
      (exThree.DataBuffer.GetItemUidFromTime (11 / 10)).2 = some (exItem 0 1 TOOL_OK 10) := by
    rw [hc]; exact exThree_item0
  have hN : NeighbourUid (exThree.DataBuffer.GetItemUidFromTime (11 / 10)).2 (11 / 10 : ℚ)
      (exItem 0 1 TOOL_OK 10).FilteredTimeStamp = 1 := by
    rw [hc]; norm_num [NeighbourUid, exItem]
  have hB : exThree.DataBuffer.GetBufferItemFromUid
      (NeighbourUid (exThree.DataBuffer.GetItemUidFromTime (11 / 10)).2 (11 / 10 : ℚ)
        (exItem 0 1 TOOL_OK 10).FilteredTimeStamp) = some (exItem 1 (13 / 10) TOOL_OK 20) := by
    rw [hN]; exact exThree_item1
  have hfar : ¬ |(exItem 0 1 TOOL_OK 10).FilteredTimeStamp - 11 / 10|
      < (NEGLIGIBLE_TIME_DIFFERENCE : ℚ) := by
    norm_num [exItem, NEGLIGIBLE_TIME_DIFFERENCE, abs_lt]
  have hpre : exThree.InterpolationPreconditions (11 / 10)
      (exThree.DataBuffer.GetItemUidFromTime (11 / 10)).2 (exItem 0 1 TOOL_OK 10)
      (exItem 1 (13 / 10) TOOL_OK 20) := by
    unfold InterpolationPreconditions
    rw [hN]
    norm_num [exItem, exThree, exBuffer, GetOldestItemUidInBuffer, GetLatestItemUidInBuffer,
      vtkTimestampedCircularBuffer.GetOldestItemUidInBuffer,
      vtkTimestampedCircularBuffer.GetLatestItemUidInBuffer, abs_le]
  exact (((interpolates_iff_preconditions exMath exThree exThree_valid exThree_stored
    exThree_increasing (11 / 10) (DataBufferItem.new ℚ) _ _ hA hB hfar).1 (by rw [hc])).1).2 hpre

end vtkPlusDataBuffer

namespace vtkPlusDataBuffer

open vtkTimestampedCircularBuffer

/-- C2 (amended): on a ring that holds an item, with `A` the stored item closest in time to
the query, whenever `GetPrevNextBufferItemFromTime` fails: if the time lookup succeeded,
`GetInterpolatedDataBufferItemFromTime` returns `ITEM_OK` and a copy of `A` with status
`TOOL_MISSING`, every other field unchanged; the time lookup succeeds for every query that
is not more than 0.00001 s before `A`, so there is no bound on how far after `A` the query
may lie.  If the time lookup failed, the query lies more than 0.00001 s before `A` and the
call returns `ITEM_NOT_AVAILABLE_ANYMORE` with the output item untouched. -/
theorem fallback_closest_item_missing (m : ExternalMath K) (self : vtkPlusDataBuffer K)
    (hv : self.DataBuffer.CountersValid) (time : K) (bufferItem A : DataBufferItem K)
    (hA : self.DataBuffer.GetBufferItemFromUid (self.DataBuffer.GetItemUidFromTime time).2 = some A)
    (hfail : (self.GetPrevNextBufferItemFromTime time (DataBufferItem.new K)
      (DataBufferItem.new K)).1 ≠ PLUS_SUCCESS) :
    ((self.DataBuffer.GetItemUidFromTime time).1 = ITEM_OK →
        (self.GetInterpolatedDataBufferItemFromTime m time bufferItem).1 = ITEM_OK
        ∧ (self.GetInterpolatedDataBufferItemFromTime m time bufferItem).2.1
            = { A with Status := TOOL_MISSING })
    ∧ (¬ time < A.FilteredTimeStamp - NEGLIGIBLE_TIME_DIFFERENCE →
        (self.DataBuffer.GetItemUidFromTime time).1 = ITEM_OK)
    ∧ ((self.DataBuffer.GetItemUidFromTime time).1 ≠ ITEM_OK →
        time < A.FilteredTimeStamp - NEGLIGIBLE_TIME_DIFFERENCE
        ∧ self.GetInterpolatedDataBufferItemFromTime m time bufferItem
            = (ITEM_NOT_AVAILABLE_ANYMORE, bufferItem, false))
    ∧ ∀ u ∈ self.DataBuffer.Uids, ∀ X, self.DataBuffer.GetBufferItemFromUid u = some X →
        |A.FilteredTimeStamp - time| ≤ |X.FilteredTimeStamp - time| := by
  refine ⟨?_, self.GetItemUidFromTime_ok_of_item hv time A hA, ?_, ?_⟩
  · intro hlook
    rw [self.GetInterpolated_fallback m hv time bufferItem A hA hlook hfail]
    exact ⟨rfl, rfl⟩
  · intro hlook
    have hf := self.GetItemUidFromTime_fail_of_item hv time A hA hlook
    refine ⟨hf.2, ?_⟩
    rw [self.GetInterpolated_lookup_fail m time bufferItem hlook, hf.1]
  · intro u hu X hX
    have h := self.DataBuffer.GetItemUidFromTime_closest hv time u hu
    rw [self.DataBuffer.GetTimeStamp_of_mem hv (self.DataBuffer.GetItemUidFromTime_mem hv time) hA,
      self.DataBuffer.GetTimeStamp_of_mem hv hu hX] at h
    exact h

/-- Witness for C2 (amended): a query at 1000 s, far after the newest item of `exThree`
(1.6 s, out of view), still returns that item, flagged `TOOL_MISSING`. -/
theorem fallback_closest_item_missing_witness :
    (exThree.GetInterpolatedDataBufferItemFromTime exMath 1000 (DataBufferItem.new ℚ)).1 = ITEM_OK
    ∧ (exThree.GetInterpolatedDataBufferItemFromTime exMath 1000 (DataBufferItem.new ℚ)).2.1
        = { exItem 2 (16 / 10) TOOL_OUT_OF_VIEW 30 with Status := TOOL_MISSING } := by
  have hc := exThree_closest_2 1000 (by norm_num)
  have hA : exThree.DataBuffer.GetBufferItemFromUid
      (exThree.DataBuffer.GetItemUidFromTime 1000).2
        = some (exItem 2 (16 / 10) TOOL_OUT_OF_VIEW 30) := by
    rw [hc]; exact exThree_item2
  have hfail : (exThree.GetPrevNextBufferItemFromTime 1000 (DataBufferItem.new ℚ)
      (DataBufferItem.new ℚ)).1 ≠ PLUS_SUCCESS := by
    obtain ⟨B, hB⟩ := exThree.DataBuffer.exists_item exThree_valid
      (NeighbourUid (exThree.DataBuffer.GetItemUidFromTime 1000).2 (1000 : ℚ)
        (exItem 2 (16 / 10) TOOL_OUT_OF_VIEW 30).FilteredTimeStamp)
    rw [GetPrevNextBufferItemFromTime_eq exThree exThree_valid 1000 _ _ _ B hA hB (by rw [hc])]
    simp [exItem]
  exact (fallback_closest_item_missing exMath exThree exThree_valid 1000 (DataBufferItem.new ℚ)
    _ hA hfail).1 (by rw [hc])

/-- Counterexample to C3 as stated: the only item of `exOutOfView` sits exactly at the query
time 1.0 s with status `TOOL_OUT_OF_VIEW`, yet the interpolated lookup returns it with
status `TOOL_MISSING`, so the result differs from the stored item. -/
theorem exact_match_any_status_counterexample :
    exOutOfView.DataBuffer.GetBufferItemFromUid (exOutOfView.DataBuffer.GetItemUidFromTime 1).2
      = some (exItem 0 1 TOOL_OUT_OF_VIEW 10)
    ∧ |(exItem 0 1 TOOL_OUT_OF_VIEW 10).FilteredTimeStamp - 1| < (NEGLIGIBLE_TIME_DIFFERENCE : ℚ)
    ∧ (exOutOfView.GetInterpolatedDataBufferItemFromTime exMath 1 (DataBufferItem.new ℚ)).2.1.Status
        = TOOL_MISSING
    ∧ (exOutOfView.GetInterpolatedDataBufferItemFromTime exMath 1 (DataBufferItem.new ℚ)).2.1
        ≠ exItem 0 1 TOOL_OUT_OF_VIEW 10 := by
  have hA : exOutOfView.DataBuffer.GetBufferItemFromUid
      (exOutOfView.DataBuffer.GetItemUidFromTime 1).2 = some (exItem 0 1 TOOL_OUT_OF_VIEW 10) := by
    rw [exOutOfView_closest]; exact exOutOfView_item0
  have hB : exOutOfView.DataBuffer.GetBufferItemFromUid
      (NeighbourUid (exOutOfView.DataBuffer.GetItemUidFromTime 1).2 (1 : ℚ)
        (exItem 0 1 TOOL_OUT_OF_VIEW 10).FilteredTimeStamp)
      = some (exItem 0 1 TOOL_OUT_OF_VIEW 10) := by
    rw [exOutOfView_closest]
    simp [exOutOfView, exBuffer, GetBufferItemFromUid, GetBufferItemFromBufferIndex,
      BufferIndexFromUid]
  have hfail : (exOutOfView.GetPrevNextBufferItemFromTime 1 (DataBufferItem.new ℚ)
      (DataBufferItem.new ℚ)).1 ≠ PLUS_SUCCESS := by
    rw [GetPrevNextBufferItemFromTime_eq exOutOfView exOutOfView_valid 1 _ _ _ _ hA hB
      (by rw [exOutOfView_closest])]
    simp [exItem]
  have h := GetInterpolated_fallback exMath exOutOfView exOutOfView_valid 1
    (DataBufferItem.new ℚ) _ hA (by rw [exOutOfView_closest]) hfail
  refine ⟨hA, by norm_num [exItem, NEGLIGIBLE_TIME_DIFFERENCE], by rw [h], ?_⟩
  rw [h]
  intro heq
  have hst := congrArg DataBufferItem.Status heq
  simp [exItem] at hst

/-- C3 (amended): on a ring that holds an item, when the stored closest item `A` has status
`TOOL_OK` and its timestamp differs from the query by less than 0.00001 s,
`GetInterpolatedDataBufferItemFromTime` returns `ITEM_OK` and `A` itself, equal in every
field, and logs no warning. -/
theorem exact_match_returns_stored_item (m : ExternalMath K) (self : vtkPlusDataBuffer K)
    (hv : self.DataBuffer.CountersValid) (time : K) (bufferItem A : DataBufferItem K)
    (hA : self.DataBuffer.GetBufferItemFromUid (self.DataBuffer.GetItemUidFromTime time).2 = some A)
    (hok : A.Status = TOOL_OK)
    (hnear : |A.FilteredTimeStamp - time| < NEGLIGIBLE_TIME_DIFFERENCE) :
    self.GetInterpolatedDataBufferItemFromTime m time bufferItem = (ITEM_OK, A, false) := by
  obtain ⟨B, hB⟩ := self.DataBuffer.exists_item hv
    (NeighbourUid (self.DataBuffer.GetItemUidFromTime time).2 time A.FilteredTimeStamp)
  have hlook := self.GetItemUidFromTime_ok_of_item hv time A hA
    (not_lt.2 (by linarith [(abs_lt.1 hnear).2]))
  apply self.GetInterpolated_exact m time bufferItem A
  rw [self.GetPrevNextBufferItemFromTime_eq hv time _ _ A B hA hB hlook]
  simp [hok, hnear]

/-- Witness for C3 (amended): for the two OK items of `exThree` at 1.0 s and 1.3 s, a query
at 1.0 s returns the first item and a query at 1.3 s the second, both exactly. -/
theorem exact_match_returns_stored_item_witness :
    exThree.GetInterpolatedDataBufferItemFromTime exMath 1 (DataBufferItem.new ℚ)
      = (ITEM_OK, exItem 0 1 TOOL_OK 10, false)
    ∧ exThree.GetInterpolatedDataBufferItemFromTime exMath (13 / 10) (DataBufferItem.new ℚ)
      = (ITEM_OK, exItem 1 (13 / 10) TOOL_OK 20, false) := by
  have hA : exThree.DataBuffer.GetBufferItemFromUid
      (exThree.DataBuffer.GetItemUidFromTime 1).2 = some (exItem 0 1 TOOL_OK 10) := by
    rw [exThree_closest_0 1 (by norm_num) (by norm_num)]; exact exThree_item0
  have hA1 : exThree.DataBuffer.GetBufferItemFromUid
      (exThree.DataBuffer.GetItemUidFromTime (13 / 10)).2
        = some (exItem 1 (13 / 10) TOOL_OK 20) := by
    rw [exThree_closest_1]; exact exThree_item1
  exact ⟨exact_match_returns_stored_item exMath exThree exThree_valid 1 (DataBufferItem.new ℚ) _ hA
      rfl (by norm_num [exItem, NEGLIGIBLE_TIME_DIFFERENCE]),
    exact_match_returns_stored_item exMath exThree exThree_valid (13 / 10) (DataBufferItem.new ℚ)
      _ hA1 rfl (by norm_num [exItem, NEGLIGIBLE_TIME_DIFFERENCE])⟩

end vtkPlusDataBuffer

namespace vtkPlusDataBuffer

open vtkTimestampedCircularBuffer

/-- C4: whenever `GetInterpolatedDataBufferItemFromTime` interpolates between the closest
item `A` (timestamp `tA`) and its neighbour `B` (timestamp `tB`), each of the three
translation components of the returned matrix is `wA * posA[i] + wB * posB[i]` with
`wA = |tB - t| / |tA - tB|` and `wB = 1 - wA`. -/
theorem interpolated_translation (m : ExternalMath K) (self : vtkPlusDataBuffer K) (time : K)
    (bufferItem A B : DataBufferItem K) (tA tB : K)
    (h : self.GetPrevNextBufferItemFromTime time (DataBufferItem.new K) (DataBufferItem.new K)
      = (PLUS_SUCCESS, A, B))
    (huid : A.Uid ≠ B.Uid)
    (htA : self.DataBuffer.GetTimeStamp A.Uid = (ITEM_OK, tA))
    (htB : self.DataBuffer.GetTimeStamp B.Uid = (ITEM_OK, tB))
    (hgap : ¬ |tA - tB| < NEGLIGIBLE_TIME_DIFFERENCE)
    (i : Fin 4) (hi : i.val < 3) :
    (self.GetInterpolatedDataBufferItemFromTime m time bufferItem).2.1.Matrix i 3
      = (|tB - time| / |tA - tB|) * A.Matrix i 3
        + (1 - |tB - time| / |tA - tB|) * B.Matrix i 3 := by
  rw [self.GetInterpolated_blend m time bufferItem A B tA tB h huid htA htB hgap]
  simp only [InterpolatedItem, InterpolatedMatrix, ItemAWeight, hi, dif_pos]
  have h3 : ¬ ((3 : Fin 4).val < 3) := by decide
  rw [dif_neg h3]
  ring

/-- Witness for C4: in `exThree` the query at 1.1 s has weights 2/3 and 1/3, so the first
translation component is `2/3 * 10 + 1/3 * 20 = 40/3`. -/
theorem interpolated_translation_witness :
    (exThree.GetInterpolatedDataBufferItemFromTime exMath (11 / 10)
      (DataBufferItem.new ℚ)).2.1.Matrix 0 3 = 40 / 3 := by
  rw [interpolated_translation exMath exThree (11 / 10) (DataBufferItem.new ℚ)
    (exItem 0 1 TOOL_OK 10) (exItem 1 (13 / 10) TOOL_OK 20) 1 (13 / 10)
    (exThree_prevnext _ _) (by simp [exItem]) exThree_ts0 exThree_ts1 exThree_gap 0 (by decide)]
  have h03 : ¬ ((0 : Fin 4) = 3) := by decide
  norm_num [exItem, abs_of_nonneg, abs_of_neg, h03]

/-- C7: whenever `GetInterpolatedDataBufferItemFromTime` interpolates between `A` and `B`
at query time `t`, the result has filtered timestamp `t`, unfiltered timestamp
`wA * unfilteredA + wB * unfilteredB` with the weights of the position, and the UID,
index, status, custom fields and frame of item `A`; the call returns `ITEM_OK`. -/
theorem interpolated_time_fields (m : ExternalMath K) (self : vtkPlusDataBuffer K) (time : K)
    (bufferItem A B : DataBufferItem K) (tA tB : K)
    (h : self.GetPrevNextBufferItemFromTime time (DataBufferItem.new K) (DataBufferItem.new K)
      = (PLUS_SUCCESS, A, B))
    (huid : A.Uid ≠ B.Uid)
    (htA : self.DataBuffer.GetTimeStamp A.Uid = (ITEM_OK, tA))
    (htB : self.DataBuffer.GetTimeStamp B.Uid = (ITEM_OK, tB))
    (hgap : ¬ |tA - tB| < NEGLIGIBLE_TIME_DIFFERENCE) :
    (self.GetInterpolatedDataBufferItemFromTime m time bufferItem).1 = ITEM_OK
    ∧ (self.GetInterpolatedDataBufferItemFromTime m time bufferItem).2.1.FilteredTimeStamp = time
    ∧ (self.GetInterpolatedDataBufferItemFromTime m time bufferItem).2.1.UnfilteredTimeStamp
        = (|tB - time| / |tA - tB|) * A.UnfilteredTimeStamp
          + (1 - |tB - time| / |tA - tB|) * B.UnfilteredTimeStamp
    ∧ (self.GetInterpolatedDataBufferItemFromTime m time bufferItem).2.1.Uid = A.Uid
    ∧ (self.GetInterpolatedDataBufferItemFromTime m time bufferItem).2.1.Index = A.Index
    ∧ (self.GetInterpolatedDataBufferItemFromTime m time bufferItem).2.1.Status = A.Status
    ∧ (self.GetInterpolatedDataBufferItemFromTime m time bufferItem).2.1.CustomFrameFields
        = A.CustomFrameFields
    ∧ (self.GetInterpolatedDataBufferItemFromTime m time bufferItem).2.1.Frame = A.Frame := by
  rw [self.GetInterpolated_blend m time bufferItem A B tA tB h huid htA htB hgap]
  refine ⟨rfl, rfl, ?_, rfl, rfl, rfl, rfl, rfl⟩
  simp only [InterpolatedItem, ItemAWeight]
  ring

/-- Witness for C7: in `exThree` the query at 1.1 s yields filtered timestamp 1.1 and
unfiltered timestamp `2/3 * 1.1 + 1/3 * 1.4 = 1.2`, with the UID of the item at 1.0 s. -/
theorem interpolated_time_fields_witness :
    (exThree.GetInterpolatedDataBufferItemFromTime exMath (11 / 10)
      (DataBufferItem.new ℚ)).2.1.FilteredTimeStamp = 11 / 10
    ∧ (exThree.GetInterpolatedDataBufferItemFromTime exMath (11 / 10)
      (DataBufferItem.new ℚ)).2.1.UnfilteredTimeStamp = 6 / 5
    ∧ (exThree.GetInterpolatedDataBufferItemFromTime exMath (11 / 10)
      (DataBufferItem.new ℚ)).2.1.Uid = 0 := by
  have h := interpolated_time_fields exMath exThree (11 / 10) (DataBufferItem.new ℚ)
    (exItem 0 1 TOOL_OK 10) (exItem 1 (13 / 10) TOOL_OK 20) 1 (13 / 10)
    (exThree_prevnext _ _) (by simp [exItem]) exThree_ts0 exThree_ts1 exThree_gap
  refine ⟨h.2.1, ?_, h.2.2.2.1⟩
  rw [h.2.2.1]
  norm_num [exItem, abs_of_nonneg, abs_of_neg]

end vtkPlusDataBuffer

/-! ## Claims about Slerp -/

namespace PlusMath

/-- For a cosine in `(-1, 0.9999)` the divisor `sin (acos cosom)` of the trigonometric
branch is not zero. -/
theorem sin_arccos_ne_zero (c : ℝ) (h0 : -1 < c) (h1 : (1 : ℝ) - c > 1 / 10000) :
    Real.sin (Real.arccos c) ≠ 0 := by
  rw [Real.sin_arccos]
  apply ne_of_gt
  apply Real.sqrt_pos.2
  nlinarith

theorem SlerpCoefficients_zero (c : ℝ) (h0 : -1 < c) :
    SlerpCoefficients Real.arccos Real.sin c 0 = (1, 0) := by
  unfold SlerpCoefficients
  split_ifs with h
  · have hs := sin_arccos_ne_zero c h0 h
    simp [div_self hs]
  · simp

theorem SlerpCoefficients_one (c : ℝ) (h0 : -1 < c) :
    SlerpCoefficients Real.arccos Real.sin c 1 = (0, 1) := by
  unfold SlerpCoefficients
  split_ifs with h
  · have hs := sin_arccos_ne_zero c h0 h
    simp [div_self hs]
  · simp

/-- Without sign adjustment, `Slerp` is the blend of `from` and `to` with the coefficients
computed from `dot(from, to)`. -/
theorem Slerp_unadjusted (acos sin : K → K) (t : K) (p q : Quaternion K) (i : Fin 4) :
    Slerp acos sin t p q false i
      = (SlerpCoefficients acos sin (Dot p q) t).1 * p i
        + (SlerpCoefficients acos sin (Dot p q) t).2 * q i := by
  unfold Slerp
  simp

/-- With sign adjustment, `Slerp` is the blend of `from` and the sign-adjusted `to` with
the coefficients computed from `|dot(from, to)|`. -/
theorem Slerp_adjusted (acos sin : K → K) (t : K) (p q : Quaternion K) (i : Fin 4) :
    Slerp acos sin t p q true i
      = (SlerpCoefficients acos sin |Dot p q| t).1 * p i
        + (SlerpCoefficients acos sin |Dot p q| t).2 * (if Dot p q < 0 then -q i else q i) := by
  unfold Slerp
  by_cases h : Dot p q < 0
  · simp [h, abs_of_neg h]
  · simp [h, abs_of_nonneg (not_lt.1 h)]

theorem exQuaternionToMatrix3x3_neg {F : Type} [Field F] (r : Quaternion F) :
    exQuaternionToMatrix3x3 (fun i => -r i) = exQuaternionToMatrix3x3 r := by
  funext i j
  fin_cases i <;> fin_cases j <;> simp [exQuaternionToMatrix3x3]

/-- C5: over the reals, with the libm functions `acos` and `sin` and sign adjustment on,
`Slerp` at `t = 0` returns exactly `from`; at `t = 1` it returns `to` when
`dot(from, to) ≥ 0` and `-to` when `dot(from, to) < 0`.  Hence, for any
quaternion-to-matrix conversion that maps `-q` and `q` to the same rotation, the rotation
obtained at weight 0 is the source rotation and at weight 1 the destination rotation.
Without sign adjustment the endpoints are `from` and `to` as long as
`dot(from, to) > -1`. -/
theorem Slerp_endpoints (p q : Quaternion ℝ) (toMatrix : Quaternion ℝ → Matrix3x3 ℝ)
    (heven : ∀ r : Quaternion ℝ, toMatrix (fun i => -r i) = toMatrix r) :
    Slerp Real.arccos Real.sin 0 p q true = p
    ∧ (0 ≤ Dot p q → Slerp Real.arccos Real.sin 1 p q true = q)
    ∧ (Dot p q < 0 → Slerp Real.arccos Real.sin 1 p q true = fun i => -q i)
    ∧ toMatrix (Slerp Real.arccos Real.sin 0 p q true) = toMatrix p
    ∧ toMatrix (Slerp Real.arccos Real.sin 1 p q true) = toMatrix q
    ∧ (-1 < Dot p q → Slerp Real.arccos Real.sin 0 p q false = p
        ∧ Slerp Real.arccos Real.sin 1 p q false = q) := by
  have habs : (-1 : ℝ) < |Dot p q| := lt_of_lt_of_le (by norm_num) (abs_nonneg _)
  have h0 : Slerp Real.arccos Real.sin 0 p q true = p := by
    funext i
    rw [Slerp_adjusted, SlerpCoefficients_zero _ habs]
    simp
  have h1 : 0 ≤ Dot p q → Slerp Real.arccos Real.sin 1 p q true = q := by
    intro h
    funext i
    rw [Slerp_adjusted, SlerpCoefficients_one _ habs]
    simp [not_lt.2 h]
  have h2 : Dot p q < 0 → Slerp Real.arccos Real.sin 1 p q true = fun i => -q i := by
    intro h
    funext i
    rw [Slerp_adjusted, SlerpCoefficients_one _ habs]
    simp [h]
  refine ⟨h0, h1, h2, by rw [h0], ?_, ?_⟩
  · by_cases h : Dot p q < 0
    · rw [h2 h, heven]
    · rw [h1 (not_lt.1 h)]
  · intro hd
    constructor
    · funext i
      rw [Slerp_unadjusted, SlerpCoefficients_zero _ hd]
      simp
    · funext i
      rw [Slerp_unadjusted, SlerpCoefficients_one _ hd]
      simp

/-- Witness for C5: from (1,0,0,0) to the opposite-hemisphere quaternion (-1,0,0,0), `Slerp`
at `t = 1` returns (1,0,0,0), that is `-to`, which is the same rotation as `to`. -/
theorem Slerp_endpoints_witness :
    Slerp Real.arccos Real.sin 1 (fun i => if i = 0 then (1 : ℝ) else 0)
        (fun i => if i = 0 then (-1 : ℝ) else 0) true
      = (fun i => -(if i = 0 then (-1 : ℝ) else 0))
    ∧ exQuaternionToMatrix3x3 (Slerp Real.arccos Real.sin 1 (fun i => if i = 0 then (1 : ℝ) else 0)
        (fun i => if i = 0 then (-1 : ℝ) else 0) true)
      = exQuaternionToMatrix3x3 (fun i => if i = 0 then (-1 : ℝ) else 0) :=
  ⟨(Slerp_endpoints _ _ exQuaternionToMatrix3x3 exQuaternionToMatrix3x3_neg).2.2.1
      (by simp [Dot]),
   (Slerp_endpoints _ _ exQuaternionToMatrix3x3 exQuaternionToMatrix3x3_neg).2.2.2.2.1⟩

end PlusMath

namespace PlusMath

theorem Dot_neg_right (p q : Quaternion K) : Dot p (fun i => -q i) = -Dot p q := by
  simp only [Dot]
  ring

/-- With sign adjustment, `Slerp` towards `to` is plain `Slerp` towards `-to` when
`dot(from, to) < 0` and towards `to` otherwise. -/
theorem Slerp_adjusted_eq (acos sin : K → K) (t : K) (p q : Quaternion K) :
    Slerp acos sin t p q true
      = Slerp acos sin t p (if Dot p q < 0 then (fun i => -q i) else q) false := by
  by_cases h : Dot p q < 0
  · simp only [h, if_true]
    unfold Slerp
    simp [h, Dot_neg_right]
  · simp only [h, if_false]
    unfold Slerp
    simp [h]

end PlusMath

/-! ## Claims about the exact-time lookup -/

namespace vtkPlusDataBuffer

open vtkTimestampedCircularBuffer

/-- Path-by-path description of `GetDataBufferItemFromExactTime` on a ring that holds an
item and stores its UIDs, after a successful time lookup: the output is the stored closest
item `A`, the status depends on the distance of `A` from the query only. -/
theorem GetDataBufferItemFromExactTime_eq (self : vtkPlusDataBuffer K)
    (hv : self.DataBuffer.CountersValid) (hs : self.DataBuffer.UidsStored) (time : K)
    (bufferItem A : DataBufferItem K)
    (hA : self.DataBuffer.GetBufferItemFromUid (self.DataBuffer.GetItemUidFromTime time).2 = some A)
    (hlook : (self.DataBuffer.GetItemUidFromTime time).1 = ITEM_OK) :
    self.GetDataBufferItemFromExactTime time bufferItem
      = if |A.FilteredTimeStamp - time| > NEGLIGIBLE_TIME_DIFFERENCE then (ITEM_UNKNOWN_ERROR, A)
        else (ITEM_OK, A) := by
  have hmem := self.DataBuffer.GetItemUidFromTime_mem hv time
  have huid := stored_uid self.DataBuffer hs hmem hA
  have hts := self.DataBuffer.GetTimeStamp_of_mem hv hmem hA
  unfold GetDataBufferItemFromExactTime
  simp only [self.GetDataBufferItemFromClosestTime_eq hv time bufferItem A hA hlook, huid, hts,
    ne_eq, not_true_eq_false, if_false]

/-- When the time lookup fails, `GetDataBufferItemFromExactTime` returns the status of the
time lookup and leaves the output item as it was (lines 1001-1006). -/
theorem GetDataBufferItemFromExactTime_fail (self : vtkPlusDataBuffer K) (time : K)
    (bufferItem : DataBufferItem K)
    (hlook : (self.DataBuffer.GetItemUidFromTime time).1 ≠ ITEM_OK) :
    self.GetDataBufferItemFromExactTime time bufferItem
      = ((self.DataBuffer.GetItemUidFromTime time).1, bufferItem) := by
  unfold GetDataBufferItemFromExactTime
  simp [self.GetDataBufferItemFromClosestTime_fail time bufferItem hlook, hlook]

theorem exOutOfView_stored : exOutOfView.DataBuffer.UidsStored := by
  intro uid huid
  have h : uid = 0 := by
    simpa [Uids, GetNumberOfItems, exOutOfView, exBuffer, List.range_succ] using huid
  subst h
  rw [exOutOfView_item0]; rfl

/-- On a ring that holds an item and stores every UID of its window in its slot,
`GetDataBufferItemFromExactTime` returns a status other than `ITEM_OK` exactly when no
stored item has a timestamp within 0.00001 s of the query; when it succeeds the output is
the stored item closest to the query, unmodified. -/
theorem exact_time_fails_iff_no_item_in_window (self : vtkPlusDataBuffer K)
    (hv : self.DataBuffer.CountersValid) (hs : self.DataBuffer.UidsStored) (time : K)
    (bufferItem A : DataBufferItem K)
    (hA : self.DataBuffer.GetBufferItemFromUid (self.DataBuffer.GetItemUidFromTime time).2 = some A) :
    ((self.GetDataBufferItemFromExactTime time bufferItem).1 ≠ ITEM_OK
        ↔ ∀ u ∈ self.DataBuffer.Uids, ∀ X, self.DataBuffer.GetBufferItemFromUid u = some X →
            NEGLIGIBLE_TIME_DIFFERENCE < |X.FilteredTimeStamp - time|)
    ∧ ((self.GetDataBufferItemFromExactTime time bufferItem).1 = ITEM_OK →
        (self.GetDataBufferItemFromExactTime time bufferItem).2 = A)
    ∧ (∀ u ∈ self.DataBuffer.Uids, ∀ X, self.DataBuffer.GetBufferItemFromUid u = some X →
        |A.FilteredTimeStamp - time| ≤ |X.FilteredTimeStamp - time|) := by
  have hmem := self.DataBuffer.GetItemUidFromTime_mem hv time
  have hclosest : ∀ u ∈ self.DataBuffer.Uids, ∀ X, self.DataBuffer.GetBufferItemFromUid u = some X →
      |A.FilteredTimeStamp - time| ≤ |X.FilteredTimeStamp - time| := by
    intro u hu X hX
    have h := self.DataBuffer.GetItemUidFromTime_closest hv time u hu
    rw [self.DataBuffer.GetTimeStamp_of_mem hv hmem hA,
      self.DataBuffer.GetTimeStamp_of_mem hv hu hX] at h
    exact h
  by_cases hlook : (self.DataBuffer.GetItemUidFromTime time).1 = ITEM_OK
  · rw [self.GetDataBufferItemFromExactTime_eq hv hs time bufferItem A hA hlook]
    refine ⟨?_, ?_, hclosest⟩
    · by_cases hgt : |A.FilteredTimeStamp - time| > NEGLIGIBLE_TIME_DIFFERENCE
      · simp only [hgt, if_true, ne_eq, reduceCtorEq, not_false_eq_true, true_iff]
        intro u hu X hX
        exact lt_of_lt_of_le hgt (hclosest u hu X hX)
      · simp only [hgt, if_false, ne_eq, not_true_eq_false, false_iff]
        intro hall
        exact hgt (hall _ hmem A hA)
    · split_ifs <;> simp
  · have hf := self.GetItemUidFromTime_fail_of_item hv time A hA hlook
    rw [self.GetDataBufferItemFromExactTime_fail time bufferItem hlook]
    refine ⟨?_, fun h => absurd h hlook, hclosest⟩
    simp only [ne_eq, hlook, not_false_eq_true, true_iff]
    intro u hu X hX
    have hgt : NEGLIGIBLE_TIME_DIFFERENCE < |A.FilteredTimeStamp - time| :=
      lt_of_lt_of_le (by linarith [hf.2]) (le_abs_self _)
    exact lt_of_lt_of_le hgt (hclosest u hu X hX)

/-- In `exThree` the exact-time lookup at 1.0 s succeeds with the item stored at 1.0 s. -/
theorem exact_time_fails_iff_no_item_in_window_witness :
    (exThree.GetDataBufferItemFromExactTime 1 (DataBufferItem.new ℚ)).2 = exItem 0 1 TOOL_OK 10 := by
  have hc := exThree_closest_0 1 (by norm_num) (by norm_num)
  have hA : exThree.DataBuffer.GetBufferItemFromUid
      (exThree.DataBuffer.GetItemUidFromTime 1).2 = some (exItem 0 1 TOOL_OK 10) := by
    rw [hc]; exact exThree_item0
  apply (exact_time_fails_iff_no_item_in_window exThree exThree_valid exThree_stored 1
    (DataBufferItem.new ℚ) _ hA).2.1
  rw [GetDataBufferItemFromExactTime_eq exThree exThree_valid exThree_stored 1 _ _ hA
    (by rw [hc])]
  norm_num [exItem, NEGLIGIBLE_TIME_DIFFERENCE]

end vtkPlusDataBuffer

/-! ## Claims about adding items -/

namespace vtkPlusDataBuffer

open vtkTimestampedCircularBuffer

/-- A timestamp that is not newer than the newest stored one is rejected by
`PrepareForNewItem`, which leaves the ring as it is. -/
theorem PrepareForNewItem_rejects (b : vtkTimestampedCircularBuffer K)
    (hne : b.GetNumberOfItems ≠ 0) (timestamp : K)
    (hle : timestamp ≤ (b.GetTimeStamp b.newestUid).2) :
    b.PrepareForNewItem timestamp = (PLUS_FAIL, b, 0, 0) := by
  unfold PrepareForNewItem
  rw [if_pos ⟨hne, hle⟩]

/-- The ring of a buffer whose filter window was replaced: items and counters are the same. -/
theorem GetTimeStamp_with_window (b : vtkTimestampedCircularBuffer K) (w : List (Int × K))
    (uid : Int) :
    ({ b with FilterWindow := w } : vtkTimestampedCircularBuffer K).GetTimeStamp uid
      = b.GetTimeStamp uid := rfl

/-- C10: on a buffer that holds an item, an `AddTimeStampedItem` or `AddItem` call whose
filtered timestamp (passed by the caller, or computed and accepted by the timestamp
filter) is equal to or earlier than the filtered timestamp of the newest item returns
`PLUS_FAIL` and leaves the ring unchanged: same slots, same oldest, newest and next UID,
same number of items.  With a caller-supplied timestamp the whole buffer is unchanged. -/
theorem add_rejects_non_increasing_timestamp (e : ExternalAcquisition K)
    (self : vtkPlusDataBuffer K) (hne : self.DataBuffer.GetNumberOfItems ≠ 0)
    (matrix : Option (Matrix4x4 K)) (status : ToolStatus) (frameNumber : Int)
    (unfilteredTimestamp filteredTimestamp : K)
    (imageDataPtr : Option (List Nat)) (usImageOrientation : Nat) (frameSizeInPx : Int × Int)
    (pixelType imageType numberOfBytesToSkip : Nat)
    (customFields : Option (List (String × String))) :
    (filteredTimestamp ≠ e.UNDEFINED_TIMESTAMP →
      filteredTimestamp ≤ (self.DataBuffer.GetTimeStamp self.DataBuffer.newestUid).2 →
        self.AddTimeStampedItem e matrix status frameNumber unfilteredTimestamp filteredTimestamp
          = (PLUS_FAIL, self)
        ∧ self.AddItem e imageDataPtr usImageOrientation frameSizeInPx pixelType imageType
            numberOfBytesToSkip frameNumber unfilteredTimestamp filteredTimestamp customFields
          = (PLUS_FAIL, self))
    ∧ (filteredTimestamp = e.UNDEFINED_TIMESTAMP →
      (e.CreateFilteredTimeStampForItem self.DataBuffer.FilterWindow frameNumber
        unfilteredTimestamp).1 = PLUS_SUCCESS →
      (e.CreateFilteredTimeStampForItem self.DataBuffer.FilterWindow frameNumber
        unfilteredTimestamp).2.2.1 = true →
      (e.CreateFilteredTimeStampForItem self.DataBuffer.FilterWindow frameNumber
        unfilteredTimestamp).2.1 ≤ (self.DataBuffer.GetTimeStamp self.DataBuffer.newestUid).2 →
        (self.AddTimeStampedItem e matrix status frameNumber unfilteredTimestamp
            filteredTimestamp).1 = PLUS_FAIL
        ∧ (self.AddTimeStampedItem e matrix status frameNumber unfilteredTimestamp
            filteredTimestamp).2.DataBuffer.items = self.DataBuffer.items
        ∧ (self.AddTimeStampedItem e matrix status frameNumber unfilteredTimestamp
            filteredTimestamp).2.DataBuffer.newestUid = self.DataBuffer.newestUid
        ∧ (self.AddTimeStampedItem e matrix status frameNumber unfilteredTimestamp
            filteredTimestamp).2.DataBuffer.oldestUid = self.DataBuffer.oldestUid
        ∧ (self.AddTimeStampedItem e matrix status frameNumber unfilteredTimestamp
            filteredTimestamp).2.DataBuffer.nextUid = self.DataBuffer.nextUid
        ∧ (self.AddTimeStampedItem e matrix status frameNumber unfilteredTimestamp
            filteredTimestamp).2.DataBuffer.GetNumberOfItems = self.DataBuffer.GetNumberOfItems)
    ∧ (filteredTimestamp = e.UNDEFINED_TIMESTAMP →
      (e.CreateFilteredTimeStampForItem self.DataBuffer.FilterWindow frameNumber
        (if unfilteredTimestamp = e.UNDEFINED_TIMESTAMP then e.GetSystemTime
         else unfilteredTimestamp)).1 = PLUS_SUCCESS →
      (e.CreateFilteredTimeStampForItem self.DataBuffer.FilterWindow frameNumber
        (if unfilteredTimestamp = e.UNDEFINED_TIMESTAMP then e.GetSystemTime
         else unfilteredTimestamp)).2.2.1 = true →
      (e.CreateFilteredTimeStampForItem self.DataBuffer.FilterWindow frameNumber
        (if unfilteredTimestamp = e.UNDEFINED_TIMESTAMP then e.GetSystemTime
         else unfilteredTimestamp)).2.1
          ≤ (self.DataBuffer.GetTimeStamp self.DataBuffer.newestUid).2 →
        (self.AddItem e imageDataPtr usImageOrientation frameSizeInPx pixelType imageType
            numberOfBytesToSkip frameNumber unfilteredTimestamp filteredTimestamp customFields).1
          = PLUS_FAIL
        ∧ (self.AddItem e imageDataPtr usImageOrientation frameSizeInPx pixelType imageType
            numberOfBytesToSkip frameNumber unfilteredTimestamp filteredTimestamp
            customFields).2.DataBuffer.items = self.DataBuffer.items
        ∧ (self.AddItem e imageDataPtr usImageOrientation frameSizeInPx pixelType imageType
            numberOfBytesToSkip frameNumber unfilteredTimestamp filteredTimestamp
            customFields).2.DataBuffer.newestUid = self.DataBuffer.newestUid
        ∧ (self.AddItem e imageDataPtr usImageOrientation frameSizeInPx pixelType imageType
            numberOfBytesToSkip frameNumber unfilteredTimestamp filteredTimestamp
            customFields).2.DataBuffer.oldestUid = self.DataBuffer.oldestUid
        ∧ (self.AddItem e imageDataPtr usImageOrientation frameSizeInPx pixelType imageType
            numberOfBytesToSkip frameNumber unfilteredTimestamp filteredTimestamp
            customFields).2.DataBuffer.nextUid = self.DataBuffer.nextUid
        ∧ (self.AddItem e imageDataPtr usImageOrientation frameSizeInPx pixelType imageType
            numberOfBytesToSkip frameNumber unfilteredTimestamp filteredTimestamp
            customFields).2.DataBuffer.GetNumberOfItems = self.DataBuffer.GetNumberOfItems) := by
  refine ⟨?_, ?_, ?_⟩
  · intro hdef hle
    have hprep := PrepareForNewItem_rejects self.DataBuffer hne filteredTimestamp hle
    constructor
    · cases matrix with
      | none => rfl
      | some mat =>
        simp only [AddTimeStampedItem, hdef, decide_False, Bool.false_eq_true, if_false,
          false_and, hprep, WithDataBuffer, ne_eq, reduceCtorEq, not_false_eq_true, if_true]
    · cases imageDataPtr with
      | none =>
        simp only [AddItem, hdef, decide_False, Bool.false_eq_true, if_false, false_and]
      | some imageData =>
        simp only [AddItem, hdef, decide_False, Bool.false_eq_true, if_false, false_and, hprep,
          WithDataBuffer, ne_eq, reduceCtorEq, not_false_eq_true, if_true]
        split_ifs <;> rfl
  · intro hundef hok hvalid hle
    have hne1 : ({ self.DataBuffer with FilterWindow :=
        (e.CreateFilteredTimeStampForItem self.DataBuffer.FilterWindow frameNumber
          unfilteredTimestamp).2.2.2 } : vtkTimestampedCircularBuffer K).GetNumberOfItems ≠ 0 := hne
    have hprep := PrepareForNewItem_rejects _ hne1 _ hle
    cases matrix with
    | none => exact ⟨rfl, rfl, rfl, rfl, rfl, rfl⟩
    | some mat =>
      simp only [AddTimeStampedItem, hundef, decide_True, if_true, hok, hvalid, ne_eq,
        not_true_eq_false, and_false, if_false, Bool.true_eq_false, WithDataBuffer, hprep,
        reduceCtorEq, not_false_eq_true]
      refine ⟨?_, ?_, ?_, ?_, ?_, ?_⟩ <;> trivial
  · intro hundef hok hvalid hle
    have hne1 : ({ self.DataBuffer with FilterWindow :=
        (e.CreateFilteredTimeStampForItem self.DataBuffer.FilterWindow frameNumber
          (if unfilteredTimestamp = e.UNDEFINED_TIMESTAMP then e.GetSystemTime
           else unfilteredTimestamp)).2.2.2 } : vtkTimestampedCircularBuffer K).GetNumberOfItems
        ≠ 0 := hne
    have hprep := PrepareForNewItem_rejects _ hne1 _ hle
    cases imageDataPtr with
    | none =>
      simp only [AddItem, hundef, decide_True, if_true, hok, hvalid, ne_eq,
        not_true_eq_false, and_false, if_false, Bool.true_eq_false, WithDataBuffer]
      refine ⟨?_, ?_, ?_, ?_, ?_, ?_⟩ <;> trivial
    | some imageData =>
      simp only [AddItem, hundef, decide_True, if_true, hok, hvalid, ne_eq,
        not_true_eq_false, and_false, if_false, Bool.true_eq_false, WithDataBuffer, hprep,
        reduceCtorEq, not_false_eq_true]
      split_ifs <;> refine ⟨?_, ?_, ?_, ?_, ?_, ?_⟩ <;> trivial

/-- Witness for C10: committing a tracker item at 1.6 s into `exThree`, whose newest item is
at 1.6 s, fails and leaves the buffer as it was. -/
theorem add_rejects_non_increasing_timestamp_witness :
    exThree.AddTimeStampedItem exAcquisition (some (Matrix4x4.Identity ℚ)) TOOL_OK 7 (16 / 10)
        (16 / 10) = (PLUS_FAIL, exThree) := by
  have hne : exThree.DataBuffer.GetNumberOfItems ≠ 0 := by
    simp [GetNumberOfItems, exThree, exBuffer]
  have hnewest : exThree.DataBuffer.newestUid = 2 := rfl
  exact ((add_rejects_non_increasing_timestamp exAcquisition exThree hne
    (some (Matrix4x4.Identity ℚ)) TOOL_OK 7 (16 / 10) (16 / 10) none 0 (0, 0) 0 0 0 none).1
    (by norm_num [exAcquisition]) (by rw [hnewest, exThree_ts2])).1

end vtkPlusDataBuffer

/-! ## Claims about the arc of Slerp -/

namespace PlusMath

theorem Dot_comm (p q : Quaternion K) : Dot p q = Dot q p := by
  simp only [Dot]
  ring

/-- The dot product of a blend `a * p + b * r` with a third quaternion. -/
theorem Dot_blend_left (a b : K) (p r s : Quaternion K) :
    Dot (fun i => a * p i + b * r i) s = a * Dot p s + b * Dot r s := by
  simp only [Dot]
  ring

/-- The squared norm of a blend `a * p + b * r`. -/
theorem Dot_blend_self (a b : K) (p r : Quaternion K) :
    Dot (fun i => a * p i + b * r i) (fun i => a * p i + b * r i)
      = a * a * Dot p p + 2 * a * b * Dot p r + b * b * Dot r r := by
  simp only [Dot]
  ring

/-- The trigonometric branch of the coefficients. -/
theorem SlerpCoefficients_trig (acos sin : K → K) (c t : K) (h : (1 : K) - c > 1 / 10000) :
    SlerpCoefficients acos sin c t
      = (sin (((1 : K) - t) * acos c) / sin (acos c), sin (t * acos c) / sin (acos c)) := by
  unfold SlerpCoefficients
  rw [if_pos h]

/-- The linear branch of the coefficients. -/
theorem SlerpCoefficients_linear (acos sin : K → K) (c t : K) (h : ¬ (1 : K) - c > 1 / 10000) :
    SlerpCoefficients acos sin c t = ((1 : K) - t, t) := by
  unfold SlerpCoefficients
  rw [if_neg h]

/-- With sign adjustment, `Slerp` as a function: the blend with the sign-adjusted `to`. -/
theorem Slerp_adjusted_fun (acos sin : K → K) (t : K) (p q : Quaternion K) :
    Slerp acos sin t p q true
      = fun i => (SlerpCoefficients acos sin |Dot p q| t).1 * p i
          + (SlerpCoefficients acos sin |Dot p q| t).2
            * (fun j => if Dot p q < 0 then -q j else q j) i := by
  funext i
  exact Slerp_adjusted acos sin t p q i

/-- The sign-adjusted `to` has the norm of `to` and its dot product with `from` is
`|dot(from, to)|`. -/
theorem Dot_adjusted (p q : Quaternion K) :
    Dot p (fun j => if Dot p q < 0 then -q j else q j) = |Dot p q|
    ∧ Dot (fun j => if Dot p q < 0 then -q j else q j)
        (fun j => if Dot p q < 0 then -q j else q j) = Dot q q := by
  by_cases h : Dot p q < 0
  · simp only [h, if_true, abs_of_neg h]
    constructor
    · exact Dot_neg_right p q
    · simp only [Dot]
      ring
  · simp only [h, if_false, abs_of_nonneg (not_lt.1 h)]
    exact ⟨trivial, trivial⟩

/-- C19: over the reals, for a unit quaternion `p` and a quaternion `q` with
`0 ≤ dot(p, q) < 0.9999`, the result of `Slerp` satisfies
`dot(Slerp(t, p, q), p) = cos (t * omega)` with `omega = acos (dot(p, q))`, for every `t`;
in particular when the quaternions are 45 degrees apart (orientations 90 degrees apart),
the midpoint `t = 1/2` has dot product `cos (22.5 degrees)` with `p`. -/
theorem Slerp_dot_from (p q : Quaternion ℝ) (hp : Dot p p = 1) (h0 : 0 ≤ Dot p q)
    (h1 : Dot p q < 9999 / 10000) :
    (∀ t : ℝ, Dot (Slerp Real.arccos Real.sin t p q true) p
        = Real.cos (t * Real.arccos (Dot p q)))
    ∧ (Dot p q = Real.cos (Real.pi / 4) →
        Dot (Slerp Real.arccos Real.sin (1 / 2) p q true) p = Real.cos (Real.pi / 8)) := by
  have hgen : ∀ t : ℝ, Dot (Slerp Real.arccos Real.sin t p q true) p
      = Real.cos (t * Real.arccos (Dot p q)) := by
    intro t
    have habs : |Dot p q| = Dot p q := abs_of_nonneg h0
    have hbranch : (1 : ℝ) - Dot p q > 1 / 10000 := by linarith
    have hs : Real.sin (Real.arccos (Dot p q)) ≠ 0 :=
      sin_arccos_ne_zero _ (by linarith) hbranch
    have hc : Real.cos (Real.arccos (Dot p q)) = Dot p q :=
      Real.cos_arccos (by linarith) (by linarith)
    rw [Slerp_adjusted_fun, Dot_blend_left, habs, SlerpCoefficients_trig _ _ _ _ hbranch]
    have hq : Dot (fun j => if Dot p q < 0 then -q j else q j) p = Dot p q := by
      simp only [not_lt.2 h0, if_false]
      exact Dot_comm q p
    rw [hq, hp]
    simp only
    have hsub : Real.sin ((1 - t) * Real.arccos (Dot p q))
        = Real.sin (Real.arccos (Dot p q)) * Real.cos (t * Real.arccos (Dot p q))
          - Real.cos (Real.arccos (Dot p q)) * Real.sin (t * Real.arccos (Dot p q)) := by
      rw [show (1 - t) * Real.arccos (Dot p q)
        = Real.arccos (Dot p q) - t * Real.arccos (Dot p q) by ring, Real.sin_sub]
    rw [hsub, hc]
    field_simp
    ring
  refine ⟨hgen, ?_⟩
  intro h45
  rw [hgen, h45, Real.arccos_cos (by positivity) (by linarith [Real.pi_pos])]
  congr 1
  ring

/-- Witness for C19: from (1,0,0,0) to (0,1,0,0) (dot product 0, `omega` = 90 degrees) the
result of `Slerp` at `t` has dot product `cos (t * acos 0)` with the first quaternion. -/
theorem Slerp_dot_from_witness :
    Dot (Slerp Real.arccos Real.sin (1 / 3) (fun i => if i = 0 then (1 : ℝ) else 0)
        (fun i => if i = 1 then (1 : ℝ) else 0) true) (fun i => if i = 0 then (1 : ℝ) else 0)
      = Real.cos (1 / 3 * Real.arccos (Dot (fun i => if i = 0 then (1 : ℝ) else 0)
          (fun i => if i = 1 then (1 : ℝ) else 0))) :=
  (Slerp_dot_from (fun i => if i = 0 then (1 : ℝ) else 0) (fun i => if i = 1 then (1 : ℝ) else 0)
    (by simp [Dot]) (by simp [Dot])
    (by
      have h : Dot (fun i : Fin 4 => if i = 0 then (1 : ℝ) else 0)
          (fun i : Fin 4 => if i = 1 then (1 : ℝ) else 0) = 0 := by simp [Dot]
      rw [h]
      norm_num)).1 (1 / 3)

end PlusMath

namespace PlusMath

/-- The Cauchy-Schwarz bound for unit quaternions: `|dot(p, q)| ≤ 1`. -/
theorem abs_Dot_le_one (p q : Quaternion ℝ) (hp : Dot p p = 1) (hq : Dot q q = 1) :
    |Dot p q| ≤ 1 := by
  have hsq : Dot p q * Dot p q ≤ 1 := by
    have hL : Dot p p * Dot q q - Dot p q * Dot p q
        = (p 0 * q 1 - p 1 * q 0) ^ 2 + (p 0 * q 2 - p 2 * q 0) ^ 2
          + (p 0 * q 3 - p 3 * q 0) ^ 2 + (p 1 * q 2 - p 2 * q 1) ^ 2
          + (p 1 * q 3 - p 3 * q 1) ^ 2 + (p 2 * q 3 - p 3 * q 2) ^ 2 := by
      simp only [Dot]
      ring
    rw [hp, hq] at hL
    nlinarith [sq_nonneg (p 0 * q 1 - p 1 * q 0), sq_nonneg (p 0 * q 2 - p 2 * q 0),
      sq_nonneg (p 0 * q 3 - p 3 * q 0), sq_nonneg (p 1 * q 2 - p 2 * q 1),
      sq_nonneg (p 1 * q 3 - p 3 * q 1), sq_nonneg (p 2 * q 3 - p 3 * q 2)]
  exact abs_le_one_iff_mul_self_le_one.2 hsq

/-- The squared norm of the result of `Slerp` with sign adjustment, for unit inputs, in
terms of the two coefficients. -/
theorem Slerp_norm_sq (acos sin : K → K) (t : K) (p q : Quaternion K) (hp : Dot p p = 1)
    (hq : Dot q q = 1) :
    Dot (Slerp acos sin t p q true) (Slerp acos sin t p q true)
      = (SlerpCoefficients acos sin |Dot p q| t).1 * (SlerpCoefficients acos sin |Dot p q| t).1
        + 2 * (SlerpCoefficients acos sin |Dot p q| t).1
            * (SlerpCoefficients acos sin |Dot p q| t).2 * |Dot p q|
        + (SlerpCoefficients acos sin |Dot p q| t).2
            * (SlerpCoefficients acos sin |Dot p q| t).2 := by
  rw [Slerp_adjusted_fun, Dot_blend_self, (Dot_adjusted p q).1, (Dot_adjusted p q).2, hp, hq]
  ring

/-- Counterexample to C20 as stated: the unit quaternions (1,0,0,0) and
(39999/40001, 400/40001, 0, 0) have dot product above 0.9999, `Slerp` takes its linear
branch, and the midpoint has squared norm 40000/40001, not 1. -/
theorem Slerp_unit_norm_counterexample :
    Dot (![1, 0, 0, 0] : Quaternion ℝ) ![1, 0, 0, 0] = 1
    ∧ Dot (![39999 / 40001, 400 / 40001, 0, 0] : Quaternion ℝ)
        ![39999 / 40001, 400 / 40001, 0, 0] = 1
    ∧ Dot (Slerp Real.arccos Real.sin (1 / 2) ![1, 0, 0, 0]
          ![39999 / 40001, 400 / 40001, 0, 0] true)
        (Slerp Real.arccos Real.sin (1 / 2) ![1, 0, 0, 0]
          ![39999 / 40001, 400 / 40001, 0, 0] true) = 40000 / 40001
    ∧ Dot (Slerp Real.arccos Real.sin (1 / 2) ![1, 0, 0, 0]
          ![39999 / 40001, 400 / 40001, 0, 0] true)
        (Slerp Real.arccos Real.sin (1 / 2) ![1, 0, 0, 0]
          ![39999 / 40001, 400 / 40001, 0, 0] true) ≠ 1 := by
  have hp : Dot (![1, 0, 0, 0] : Quaternion ℝ) ![1, 0, 0, 0] = 1 := by
    simp [Dot]
  have hq : Dot (![39999 / 40001, 400 / 40001, 0, 0] : Quaternion ℝ)
      ![39999 / 40001, 400 / 40001, 0, 0] = 1 := by
    simp [Dot]
    norm_num
  have hd : Dot (![1, 0, 0, 0] : Quaternion ℝ) ![39999 / 40001, 400 / 40001, 0, 0]
      = 39999 / 40001 := by
    simp [Dot]
  have hn : Dot (Slerp Real.arccos Real.sin (1 / 2) ![1, 0, 0, 0]
        ![39999 / 40001, 400 / 40001, 0, 0] true)
      (Slerp Real.arccos Real.sin (1 / 2) ![1, 0, 0, 0]
        ![39999 / 40001, 400 / 40001, 0, 0] true) = 40000 / 40001 := by
    rw [Slerp_norm_sq _ _ _ _ _ hp hq, hd,
      SlerpCoefficients_linear _ _ _ _ (by rw [abs_of_pos (by norm_num)]; norm_num),
      abs_of_pos (by norm_num)]
    norm_num
  refine ⟨hp, hq, hn, ?_⟩
  rw [hn]
  norm_num

/-- C20 (amended): over the reals, for unit quaternions `from` and `to` and sign adjustment
on: when `|dot(from, to)| < 0.9999` (the trigonometric branch) the result of `Slerp` has unit
norm for every `t`; when `|dot(from, to)| ≥ 0.9999` (the linear branch) its squared norm is
`1 - 2 t (1 - t) (1 - |dot(from, to)|)`, which for `t` in `[0, 1]` lies between 0.99995
and 1. -/
theorem Slerp_norm (p q : Quaternion ℝ) (hp : Dot p p = 1) (hq : Dot q q = 1) (t : ℝ) :
    (|Dot p q| < 9999 / 10000 →
      Dot (Slerp Real.arccos Real.sin t p q true) (Slerp Real.arccos Real.sin t p q true) = 1)
    ∧ (9999 / 10000 ≤ |Dot p q| →
      Dot (Slerp Real.arccos Real.sin t p q true) (Slerp Real.arccos Real.sin t p q true)
        = 1 - 2 * t * (1 - t) * (1 - |Dot p q|))
    ∧ (9999 / 10000 ≤ |Dot p q| → 0 ≤ t → t ≤ 1 →
      99995 / 100000 ≤ Dot (Slerp Real.arccos Real.sin t p q true)
          (Slerp Real.arccos Real.sin t p q true)
      ∧ Dot (Slerp Real.arccos Real.sin t p q true) (Slerp Real.arccos Real.sin t p q true)
          ≤ 1) := by
  have hlin : 9999 / 10000 ≤ |Dot p q| →
      Dot (Slerp Real.arccos Real.sin t p q true) (Slerp Real.arccos Real.sin t p q true)
        = 1 - 2 * t * (1 - t) * (1 - |Dot p q|) := by
    intro h
    rw [Slerp_norm_sq _ _ _ _ _ hp hq, SlerpCoefficients_linear _ _ _ _ (by linarith)]
    ring
  refine ⟨?_, hlin, ?_⟩
  · intro h
    have hbranch : (1 : ℝ) - |Dot p q| > 1 / 10000 := by linarith
    have hnn : 0 ≤ |Dot p q| := abs_nonneg _
    have hs : Real.sin (Real.arccos |Dot p q|) ≠ 0 :=
      sin_arccos_ne_zero _ (by linarith) hbranch
    have hc : Real.cos (Real.arccos |Dot p q|) = |Dot p q| :=
      Real.cos_arccos (by linarith) (by linarith)
    rw [Slerp_norm_sq _ _ _ _ _ hp hq, SlerpCoefficients_trig _ _ _ _ hbranch]
    simp only
    have hsub : Real.sin ((1 - t) * Real.arccos |Dot p q|)
        = Real.sin (Real.arccos |Dot p q|) * Real.cos (t * Real.arccos |Dot p q|)
          - |Dot p q| * Real.sin (t * Real.arccos |Dot p q|) := by
      rw [show (1 - t) * Real.arccos |Dot p q|
        = Real.arccos |Dot p q| - t * Real.arccos |Dot p q| by ring, Real.sin_sub, hc]
    have h1 : Real.sin (Real.arccos |Dot p q|) ^ 2 + |Dot p q| ^ 2 = 1 := by
      have := Real.sin_sq_add_cos_sq (Real.arccos |Dot p q|)
      rw [hc] at this
      exact this
    have h2 := Real.sin_sq_add_cos_sq (t * Real.arccos |Dot p q|)
    rw [hsub]
    field_simp
    linear_combination (-(Real.sin (t * Real.arccos |Dot p q|)) ^ 2) * h1
      + (Real.sin (Real.arccos |Dot p q|)) ^ 2 * h2
  · intro h ht0 ht1
    rw [hlin h]
    have hle := abs_Dot_le_one p q hp hq
    constructor
    · nlinarith [mul_nonneg ht0 (sub_nonneg.2 ht1), sq_nonneg (t - 1 / 2)]
    · nlinarith [mul_nonneg (mul_nonneg ht0 (sub_nonneg.2 ht1)) (sub_nonneg.2 hle)]

/-- Witness for C20 (amended): from (1,0,0,0) to (0,1,0,0) the result of `Slerp` at
`t = 1/3` has unit norm. -/
theorem Slerp_norm_witness :
    Dot (Slerp Real.arccos Real.sin (1 / 3) ![1, 0, 0, 0] ![0, 1, 0, 0] true)
      (Slerp Real.arccos Real.sin (1 / 3) ![1, 0, 0, 0] ![0, 1, 0, 0] true) = 1 :=
  (Slerp_norm ![1, 0, 0, 0] ![0, 1, 0, 0] (by simp [Dot]) (by simp [Dot]) (1 / 3)).1
    (by
      have h : Dot (![1, 0, 0, 0] : Quaternion ℝ) ![0, 1, 0, 0] = 0 := by simp [Dot]
      rw [h]
      norm_num)

end PlusMath

/-! ## Claims about LSQRMinimize -/

namespace PlusMath

theorem ReadAll_map_some {β : Type} (l : List β) : ReadAll (l.map some) = some l := by
  induction l with
  | nil => rfl
  | cons a tl ih => simp [ReadAll, ih]

/-- Reading the first `n` elements of a list of length at least `n` stays in range. -/
theorem range_map_get_eq_take {β : Type} (l : List β) (n : Nat) (hn : n ≤ l.length) :
    (List.range n).map (fun i => l.get? i) = (l.take n).map some := by
  apply List.ext_getElem?
  intro i
  by_cases hi : i < n
  · have hi2 : i < l.length := by omega
    simp [List.getElem?_range, hi, List.getElem?_take, hi2]
  · have hlen1 : ((List.range n).map (fun i => l.get? i)).length ≤ i := by simp; omega
    have hlen2 : ((l.take n).map some).length ≤ i := by simp; omega
    rw [List.getElem?_eq_none hlen1, List.getElem?_eq_none hlen2]

/-- When `aMatrix` has at least `m` rows and each of the first `m` rows has at least `n`
elements, every read of the fill loop stays inside the input. -/
theorem ReadEntries_in_range (aMatrix : List (List K)) (m n : Nat) (hm : m ≤ aMatrix.length)
    (hrows : ∀ r ∈ aMatrix.take m, n ≤ r.length) :
    ReadEntries aMatrix m n = some ((aMatrix.take m).map (fun r => r.take n)) := by
  unfold ReadEntries
  have hrow : (List.range m).map (fun row =>
        ReadAll ((List.range n).map (fun i => (aMatrix.get? row).bind (fun r => r.get? i))))
      = ((aMatrix.take m).map (fun r => r.take n)).map some := by
    apply List.ext_getElem?
    intro i
    by_cases hi : i < m
    · have hi2 : i < aMatrix.length := by omega
      have hmem : aMatrix[i] ∈ aMatrix.take m := by
        rw [List.mem_take_iff_getElem]
        exact ⟨i, by simp [hi, hi2], rfl⟩
      have hlen := hrows _ hmem
      simp only [List.getElem?_map, List.getElem?_range hi, Option.map_some',
        List.get?_eq_getElem?, List.getElem?_eq_getElem hi2, Option.some_bind,
        List.getElem?_take, hi, if_true]
      have h1 := range_map_get_eq_take aMatrix[i] n hlen
      simp only [List.get?_eq_getElem?] at h1
      rw [h1, ReadAll_map_some]
    · have hlen1 : ((List.range m).map (fun row => ReadAll ((List.range n).map
          (fun i => (aMatrix.get? row).bind (fun r => r.get? i))))).length ≤ i := by
        simp; omega
      have hlen2 : (((aMatrix.take m).map (fun r => r.take n)).map some).length ≤ i := by
        simp; omega
      rw [List.getElem?_eq_none hlen1, List.getElem?_eq_none hlen2]
  rw [hrow, ReadAll_map_some]

/-- C16: when the matrix has zero rows or the vector `b` is empty, both container overloads
of `LSQRMinimize` return `PLUS_FAIL` whatever the solver is, without running it, and leave
the result vector empty. -/
theorem LSQRMinimize_empty_input (lsqr : SparseMatrix K → List K → List K → Int × List K)
    (uninitialised : K) (aMatrix : List (List K)) (bVector resultVector : List K)
    (h : aMatrix.length = 0 ∨ bVector.length = 0) :
    LSQRMinimize lsqr uninitialised aMatrix bVector resultVector
      = some { status := PLUS_FAIL, resultVector := [], solverCalls := 0,
               logged := LogLevel.LOG_ERROR }
    ∧ LSQRMinimizeVnl lsqr aMatrix bVector resultVector
      = some { status := PLUS_FAIL, resultVector := [], solverCalls := 0,
               logged := LogLevel.LOG_ERROR } := by
  unfold LSQRMinimize LSQRMinimizeVnl
  rcases h with h | h
  · simp [h]
  · by_cases ha : aMatrix.length = 0
    · simp [ha]
    · simp [ha, h]

/-- Witness for C16: the empty matrix with `b = [6]` is rejected by both overloads, with
the result vector `[1, 2]` cleared. -/
theorem LSQRMinimize_empty_input_witness :
    LSQRMinimize exLsqr 0 [] [6] [1, 2]
      = some { status := PLUS_FAIL, resultVector := [], solverCalls := 0,
               logged := LogLevel.LOG_ERROR }
    ∧ LSQRMinimizeVnl exLsqr [] [6] [1, 2]
      = some { status := PLUS_FAIL, resultVector := [], solverCalls := 0,
               logged := LogLevel.LOG_ERROR } :=
  LSQRMinimize_empty_input exLsqr 0 [] [6] [1, 2] (Or.inl rfl)

/-- C17: the status of `LSQRMinimize` is the image of the LSQR return code: it is
`PLUS_FAIL` exactly when the code is 6 or lies outside 0..7; codes 0, 1, 2, 4 and 5 succeed
silently, codes 3 and 7 succeed with a warning, and the sparse overload returns exactly
this status for the code the solver reports. -/
theorem LSQRMinimize_return_code_mapping :
    (∀ returnCode : Int, (StatusOfReturnCode returnCode).1 = PLUS_FAIL
        ↔ returnCode = 6 ∨ returnCode < 0 ∨ 7 < returnCode)
    ∧ (∀ returnCode : Int, (StatusOfReturnCode returnCode).1 = PLUS_SUCCESS
        ↔ returnCode = 0 ∨ returnCode = 1 ∨ returnCode = 2 ∨ returnCode = 3 ∨ returnCode = 4
          ∨ returnCode = 5 ∨ returnCode = 7)
    ∧ StatusOfReturnCode 3 = (PLUS_SUCCESS, LogLevel.LOG_WARNING)
    ∧ StatusOfReturnCode 7 = (PLUS_SUCCESS, LogLevel.LOG_WARNING)
    ∧ StatusOfReturnCode 0 = (PLUS_SUCCESS, LogLevel.LOG_NONE)
    ∧ StatusOfReturnCode 1 = (PLUS_SUCCESS, LogLevel.LOG_NONE)
    ∧ StatusOfReturnCode 2 = (PLUS_SUCCESS, LogLevel.LOG_NONE)
    ∧ StatusOfReturnCode 4 = (PLUS_SUCCESS, LogLevel.LOG_NONE)
    ∧ StatusOfReturnCode 5 = (PLUS_SUCCESS, LogLevel.LOG_NONE)
    ∧ StatusOfReturnCode 6 = (PLUS_FAIL, LogLevel.LOG_ERROR)
    ∧ (∀ (lsqr : SparseMatrix ℚ → List ℚ → List ℚ → Int × List ℚ) (a : SparseMatrix ℚ)
        (b x : List ℚ),
        (LSQRMinimizeSparse lsqr a b x).status = (StatusOfReturnCode (lsqr a b x).1).1
        ∧ (LSQRMinimizeSparse lsqr a b x).resultVector = (lsqr a b x).2) := by
  refine ⟨?_, ?_, rfl, rfl, rfl, rfl, rfl, rfl, rfl, rfl, fun _ _ _ _ => ⟨rfl, rfl⟩⟩
  · intro returnCode
    unfold StatusOfReturnCode
    split_ifs <;> simp <;> omega
  · intro returnCode
    unfold StatusOfReturnCode
    split_ifs <;> simp <;> omega

end PlusMath

namespace PlusMath

/-- Counterexample to C18 as stated: with two rows in `A` and one entry in `b` the call does
not fail (the second row is ignored and the status is the one of the solver's return
code); with a second row shorter than the first the fill loop reads outside that row
(no result in the model) instead of returning `PLUS_FAIL`. -/
theorem LSQRMinimize_malformed_input_counterexample :
    ([[2], [3]] : List (List ℚ)).length ≠ ([6] : List ℚ).length
    ∧ (LSQRMinimizeVnl exLsqr [[2], [3]] [6] []).map (fun r => r.status) = some PLUS_SUCCESS
    ∧ (LSQRMinimizeVnl exLsqr [[2], [3]] [6] []).map (fun r => r.solverCalls) = some 1
    ∧ (LSQRMinimizeVnl exLsqr [[2, 1], [3]] [6, 9] []).map (fun r => r.status) = none := by
  refine ⟨by decide, ?_, ?_, ?_⟩
  · simp [LSQRMinimizeVnl, ReadEntries, ReadAll, List.range_succ, LSQRMinimizeSparse, exLsqr,
      StatusOfReturnCode]
  · simp [LSQRMinimizeVnl, ReadEntries, ReadAll, List.range_succ, LSQRMinimizeSparse, exLsqr]
  · simp [LSQRMinimizeVnl, ReadEntries, ReadAll, List.range_succ]

/-- C18 (amended): `LSQRMinimize` checks emptiness only.  For non-empty `A` and `b` such that
`A` has at least as many rows as `b` has entries and each of the first `|b|` rows is at
least as long as the first row, the `vnl_vector` overload hands the `|b|` by `|A[0]|`
system made of the leading entries to the solver and returns the status of the solver's
return code; a matrix with more rows than `b` has entries is not rejected. -/
theorem LSQRMinimize_no_dimension_check
    (lsqr : SparseMatrix K → List K → List K → Int × List K)
    (aMatrix : List (List K)) (bVector resultVector : List K)
    (ha : aMatrix.length ≠ 0) (hb : bVector.length ≠ 0)
    (hm : bVector.length ≤ aMatrix.length)
    (hrows : ∀ r ∈ aMatrix.take bVector.length, (aMatrix.head?.getD []).length ≤ r.length) :
    LSQRMinimizeVnl lsqr aMatrix bVector resultVector
      = some (LSQRMinimizeSparse lsqr
          { rows := bVector.length
            cols := (aMatrix.head?.getD []).length
            entries := (aMatrix.take bVector.length).map
              (fun r => r.take (aMatrix.head?.getD []).length) }
          bVector resultVector)
    ∧ (LSQRMinimizeVnl lsqr aMatrix bVector resultVector).map (fun r => r.status)
      = some (StatusOfReturnCode (lsqr
          { rows := bVector.length
            cols := (aMatrix.head?.getD []).length
            entries := (aMatrix.take bVector.length).map
              (fun r => r.take (aMatrix.head?.getD []).length) }
          bVector resultVector).1).1 := by
  have h : LSQRMinimizeVnl lsqr aMatrix bVector resultVector
      = some (LSQRMinimizeSparse lsqr
          { rows := bVector.length
            cols := (aMatrix.head?.getD []).length
            entries := (aMatrix.take bVector.length).map
              (fun r => r.take (aMatrix.head?.getD []).length) }
          bVector resultVector) := by
    unfold LSQRMinimizeVnl
    simp only [ha, hb, if_false, ReadEntries_in_range aMatrix _ _ hm hrows]
  refine ⟨h, ?_⟩
  rw [h]
  rfl

/-- Witness for C18 (amended): with `A = [[2], [3]]` and `b = [6]` the solver is handed
the 1 by 1 system `[2] x = [6]`. -/
theorem LSQRMinimize_no_dimension_check_witness :
    LSQRMinimizeVnl exLsqr [[2], [3]] [6] []
      = some (LSQRMinimizeSparse exLsqr { rows := 1, cols := 1, entries := [[2]] } [6] []) :=
  (LSQRMinimize_no_dimension_check exLsqr [[2], [3]] [6] [] (by decide) (by decide)
    (by decide) (by
      intro r hr
      simp only [List.length_singleton, List.take_succ_cons, List.take_zero,
        List.mem_singleton] at hr
      subst hr
      simp)).1

end PlusMath

/-! ## Claims about skipped and rejected frames -/

namespace vtkPlusDataBuffer

open vtkTimestampedCircularBuffer

/-- C12: when no filtered timestamp is passed and the timestamp filter reports the computed
timestamp as probably invalid, `AddTimeStampedItem` and the three `AddItem` overloads
return `PLUS_SUCCESS` and leave the ring unchanged: the buffer after the call differs from
the buffer before only in the window of the timestamp filter. -/
theorem invalid_timestamp_is_skipped (e : ExternalAcquisition K) (x : ExternalFrames)
    (self : vtkPlusDataBuffer K) (matrix : Matrix4x4 K) (status : ToolStatus) (frameNumber : Int)
    (unfilteredTimestamp filteredTimestamp : K)
    (imageDataPtr : Option (List Nat)) (usImageOrientation : Nat) (frameSizeInPx : Int × Int)
    (pixelType imageType numberOfBytesToSkip : Nat)
    (customFields : Option (List (String × String)))
    (frame : PlusVideoFrame) (image : vtkImageData)
    (hundef : filteredTimestamp = e.UNDEFINED_TIMESTAMP) :
    ((e.CreateFilteredTimeStampForItem self.DataBuffer.FilterWindow frameNumber
        unfilteredTimestamp).1 = PLUS_SUCCESS →
      (e.CreateFilteredTimeStampForItem self.DataBuffer.FilterWindow frameNumber
        unfilteredTimestamp).2.2.1 = false →
      self.AddTimeStampedItem e (some matrix) status frameNumber unfilteredTimestamp
          filteredTimestamp
        = (PLUS_SUCCESS, self.WithDataBuffer { self.DataBuffer with FilterWindow :=
            (e.CreateFilteredTimeStampForItem self.DataBuffer.FilterWindow frameNumber
              unfilteredTimestamp).2.2.2 })
      ∧ SameRing self (self.AddTimeStampedItem e (some matrix) status frameNumber
          unfilteredTimestamp filteredTimestamp).2)
    ∧ ((e.CreateFilteredTimeStampForItem self.DataBuffer.FilterWindow frameNumber
        (if unfilteredTimestamp = e.UNDEFINED_TIMESTAMP then e.GetSystemTime
         else unfilteredTimestamp)).1 = PLUS_SUCCESS →
      (e.CreateFilteredTimeStampForItem self.DataBuffer.FilterWindow frameNumber
        (if unfilteredTimestamp = e.UNDEFINED_TIMESTAMP then e.GetSystemTime
         else unfilteredTimestamp)).2.2.1 = false →
      ((self.AddItem e imageDataPtr usImageOrientation frameSizeInPx pixelType imageType
          numberOfBytesToSkip frameNumber unfilteredTimestamp filteredTimestamp customFields).1
          = PLUS_SUCCESS
        ∧ SameRing self (self.AddItem e imageDataPtr usImageOrientation frameSizeInPx pixelType
            imageType numberOfBytesToSkip frameNumber unfilteredTimestamp filteredTimestamp
            customFields).2)
      ∧ ((self.AddItemFrame e x (some frame) frameNumber unfilteredTimestamp filteredTimestamp
          customFields).1 = PLUS_SUCCESS
        ∧ SameRing self (self.AddItemFrame e x (some frame) frameNumber unfilteredTimestamp
            filteredTimestamp customFields).2)
      ∧ ((self.AddItemImage e x (some image) usImageOrientation imageType frameNumber
          unfilteredTimestamp filteredTimestamp customFields).1 = PLUS_SUCCESS
        ∧ SameRing self (self.AddItemImage e x (some image) usImageOrientation imageType
            frameNumber unfilteredTimestamp filteredTimestamp customFields).2)) := by
  constructor
  · intro hok hinvalid
    have h : self.AddTimeStampedItem e (some matrix) status frameNumber unfilteredTimestamp
        filteredTimestamp
        = (PLUS_SUCCESS, self.WithDataBuffer { self.DataBuffer with FilterWindow :=
            (e.CreateFilteredTimeStampForItem self.DataBuffer.FilterWindow frameNumber
              unfilteredTimestamp).2.2.2 }) := by
      simp only [AddTimeStampedItem, hundef, decide_True, if_true, hok, hinvalid, ne_eq,
        not_true_eq_false, and_false, if_false, and_self]
    rw [h]
    exact ⟨rfl, rfl, rfl, rfl, rfl⟩
  · intro hok hinvalid
    refine ⟨?_, ?_, ?_⟩
    · simp only [AddItem, hundef, decide_True, if_true, hok, hinvalid, ne_eq,
        not_true_eq_false, and_false, if_false, and_self]
      exact ⟨trivial, rfl, rfl, rfl, rfl⟩
    · simp only [AddItemFrame, hundef, decide_True, if_true, hok, hinvalid, ne_eq,
        not_true_eq_false, and_false, if_false, and_self]
      exact ⟨trivial, rfl, rfl, rfl, rfl⟩
    · simp only [AddItemImage, hundef, decide_True, if_true, hok, hinvalid, ne_eq,
        not_true_eq_false, and_false, if_false, and_self]
      exact ⟨trivial, rfl, rfl, rfl, rfl⟩

/-- Witness for C12: with a filter that calls every timestamp invalid, adding a tracker item
without filtered timestamp to `exThree` succeeds and leaves `exThree` as it was. -/
theorem invalid_timestamp_is_skipped_witness :
    exThree.AddTimeStampedItem exAcquisitionInvalid (some (Matrix4x4.Identity ℚ)) TOOL_OK 7 5 (-1)
      = (PLUS_SUCCESS, exThree) :=
  ((invalid_timestamp_is_skipped exAcquisitionInvalid exFrames exThree (Matrix4x4.Identity ℚ)
    TOOL_OK 7 5 (-1) none 0 (0, 0) 0 0 0 none (exFrameItem 0 0 0).Frame
    { Extent := (0, 0, 0, 0), ScalarType := 0, ScalarPointer := none } rfl).1 rfl rfl).1

end vtkPlusDataBuffer

namespace vtkPlusDataBuffer

open vtkTimestampedCircularBuffer

/-- Counterexample to C13 as stated: with a NULL image pointer, no filtered timestamp and a
filter that reports the computed timestamp as probably invalid, the raw-pointer `AddItem`
returns `PLUS_SUCCESS`, not `PLUS_FAIL`. -/
theorem null_frame_returns_fail_counterexample :
    (exVideo.AddItem exAcquisitionInvalid none 1 (1, 1) 0 0 0 5 3 (-1) none).1 = PLUS_SUCCESS := by
  simp [AddItem, exAcquisitionInvalid, exAcquisition]

/-- C13 (amended): for every call of the raw-pointer `AddItem` whose image pointer is NULL
or whose frame size, pixel type or image type differs from the buffer, the frame is not
added: the ring is unchanged.  The call returns `PLUS_FAIL` unless no filtered timestamp
was passed and the timestamp filter succeeded and reported the computed timestamp as
probably invalid. -/
theorem malformed_frame_not_added (e : ExternalAcquisition K) (self : vtkPlusDataBuffer K)
    (imageDataPtr : Option (List Nat)) (usImageOrientation : Nat) (frameSizeInPx : Int × Int)
    (pixelType imageType numberOfBytesToSkip : Nat) (frameNumber : Int)
    (unfilteredTimestamp filteredTimestamp : K)
    (customFields : Option (List (String × String)))
    (hbad : imageDataPtr = none
      ∨ self.CheckFrameFormat frameSizeInPx pixelType imageType = false) :
    SameRing self (self.AddItem e imageDataPtr usImageOrientation frameSizeInPx pixelType
        imageType numberOfBytesToSkip frameNumber unfilteredTimestamp filteredTimestamp
        customFields).2
    ∧ (¬ (filteredTimestamp = e.UNDEFINED_TIMESTAMP
          ∧ (e.CreateFilteredTimeStampForItem self.DataBuffer.FilterWindow frameNumber
              (if unfilteredTimestamp = e.UNDEFINED_TIMESTAMP then e.GetSystemTime
               else unfilteredTimestamp)).1 = PLUS_SUCCESS
          ∧ (e.CreateFilteredTimeStampForItem self.DataBuffer.FilterWindow frameNumber
              (if unfilteredTimestamp = e.UNDEFINED_TIMESTAMP then e.GetSystemTime
               else unfilteredTimestamp)).2.2.1 = false) →
        (self.AddItem e imageDataPtr usImageOrientation frameSizeInPx pixelType imageType
          numberOfBytesToSkip frameNumber unfilteredTimestamp filteredTimestamp
          customFields).1 = PLUS_FAIL) := by
  have hfmt : ∀ w : List (Int × K),
      (self.WithDataBuffer { self.DataBuffer with FilterWindow := w }).CheckFrameFormat
        frameSizeInPx pixelType imageType
      = self.CheckFrameFormat frameSizeInPx pixelType imageType := fun _ => rfl
  unfold AddItem
  generalize (if unfilteredTimestamp = e.UNDEFINED_TIMESTAMP then e.GetSystemTime
    else unfilteredTimestamp) = u
  by_cases hundef : filteredTimestamp = e.UNDEFINED_TIMESTAMP
  · by_cases hok : (e.CreateFilteredTimeStampForItem self.DataBuffer.FilterWindow frameNumber
        u).1 = PLUS_SUCCESS
    · cases hinv : (e.CreateFilteredTimeStampForItem self.DataBuffer.FilterWindow
          frameNumber u).2.2.1 with
      | false =>
        simp only [hundef, decide_True, if_true, hok, hinv, ne_eq, not_true_eq_false,
          and_false, if_false, and_self, not_false_eq_true, true_and]
        refine ⟨⟨rfl, rfl, rfl, rfl⟩, fun hn => ?_⟩
        exact hn.elim
      | true =>
        simp only [hundef, decide_True, if_true, hok, hinv, ne_eq, not_true_eq_false,
          and_false, if_false, Bool.true_eq_false]
        rcases hbad with hnull | hformat
        · subst hnull
          refine ⟨⟨rfl, rfl, rfl, rfl⟩, ?_⟩
          first | trivial | (intro _; trivial)
        · cases imageDataPtr with
          | none =>
            refine ⟨⟨rfl, rfl, rfl, rfl⟩, ?_⟩
            first | trivial | (intro _; trivial)
          | some imageData =>
            simp only [hfmt, hformat, Bool.false_eq_true, not_false_eq_true, if_true]
            refine ⟨⟨rfl, rfl, rfl, rfl⟩, ?_⟩
            trivial
    · simp only [hundef, decide_True, if_true, hok, ne_eq, not_false_eq_true, and_self]
      refine ⟨⟨rfl, rfl, rfl, rfl⟩, ?_⟩
      first | trivial | (intro _; trivial)
  · simp only [hundef, decide_False, Bool.false_eq_true, if_false, false_and]
    rcases hbad with hnull | hformat
    · subst hnull
      refine ⟨⟨rfl, rfl, rfl, rfl⟩, ?_⟩
      first | trivial | (intro _; trivial)
    · cases imageDataPtr with
      | none =>
        refine ⟨⟨rfl, rfl, rfl, rfl⟩, ?_⟩
        first | trivial | (intro _; trivial)
      | some imageData =>
        simp only [hformat, Bool.false_eq_true, not_false_eq_true, if_true]
        refine ⟨⟨rfl, rfl, rfl, rfl⟩, ?_⟩
        trivial

/-- Witness for C13 (amended): a 2x2 frame offered to the 1x1 buffer `exVideo` with the
explicit timestamp 3.0 s is refused with `PLUS_FAIL`. -/
theorem malformed_frame_not_added_witness :
    (exVideo.AddItem exAcquisition (some [1, 2, 3, 4]) 1 (2, 2) 0 0 0 5 3 3 none).1 = PLUS_FAIL :=
  (malformed_frame_not_added exAcquisition exVideo (some [1, 2, 3, 4]) 1 (2, 2) 0 0 0 5 3 3 none
    (Or.inr (by simp [CheckFrameFormat, exVideo]))).2
    (by
      intro h
      have := h.1
      norm_num [exAcquisition] at this)

/-- C14: `GetDataBufferItem` returns `ITEM_NOT_AVAILABLE_ANYMORE` for a UID older than the
oldest one and, when the next UID to issue follows the newest one, `ITEM_NOT_AVAILABLE_YET`
for a UID newer than the newest one, leaving the output item as it was in both cases; for a
UID inside the window of a ring that holds an item it returns `ITEM_OK` and the item stored
for that UID. -/
theorem GetDataBufferItem_by_uid (self : vtkPlusDataBuffer K) (uid : Int)
    (bufferItem : DataBufferItem K)
    (hold : self.DataBuffer.oldestUid ≤ self.DataBuffer.newestUid + 1)
    (hnext : self.DataBuffer.nextUid ≤ self.DataBuffer.newestUid + 1) :
    (self.GetLatestItemUidInBuffer < uid →
      self.GetDataBufferItem uid bufferItem = (ITEM_NOT_AVAILABLE_YET, bufferItem))
    ∧ (uid < self.GetOldestItemUidInBuffer →
      self.GetDataBufferItem uid bufferItem = (ITEM_NOT_AVAILABLE_ANYMORE, bufferItem))
    ∧ (self.DataBuffer.CountersValid → self.GetOldestItemUidInBuffer ≤ uid →
        uid ≤ self.GetLatestItemUidInBuffer →
      ∃ item, self.DataBuffer.GetBufferItemFromUid uid = some item
        ∧ self.GetDataBufferItem uid bufferItem = (ITEM_OK, item)
        ∧ (self.DataBuffer.UidsStored → item.Uid = uid)) := by
  simp only [GetOldestItemUidInBuffer, GetLatestItemUidInBuffer,
    vtkTimestampedCircularBuffer.GetOldestItemUidInBuffer,
    vtkTimestampedCircularBuffer.GetLatestItemUidInBuffer]
  refine ⟨?_, ?_, ?_⟩
  · intro h
    have h1 : ¬ uid < self.DataBuffer.oldestUid := by omega
    have h2 : uid ≥ self.DataBuffer.nextUid := by omega
    simp [GetDataBufferItem, GetFrameStatus, h1, h2]
  · intro h
    simp [GetDataBufferItem, GetFrameStatus, h]
  · intro hv hlo hhi
    have hmem : uid ∈ self.DataBuffer.Uids := (self.DataBuffer.mem_Uids_iff hv uid).2 ⟨hlo, hhi⟩
    obtain ⟨item, hitem⟩ := self.DataBuffer.exists_item hv uid
    exact ⟨item, hitem, self.GetDataBufferItem_of_mem hv hmem hitem bufferItem,
      fun hs => stored_uid self.DataBuffer hs hmem hitem⟩

/-- Witness for C14: in `exThree` (UIDs 0..2) UID 3 is not available yet and UID 1 is
returned as stored. -/
theorem GetDataBufferItem_by_uid_witness :
    exThree.GetDataBufferItem 3 (DataBufferItem.new ℚ)
      = (ITEM_NOT_AVAILABLE_YET, DataBufferItem.new ℚ)
    ∧ exThree.GetDataBufferItem (-1) (DataBufferItem.new ℚ)
      = (ITEM_NOT_AVAILABLE_ANYMORE, DataBufferItem.new ℚ) :=
  ⟨(GetDataBufferItem_by_uid exThree 3 (DataBufferItem.new ℚ) (by decide) (by decide)).1
      (by decide),
   (GetDataBufferItem_by_uid exThree (-1) (DataBufferItem.new ℚ) (by decide) (by decide)).2.1
      (by decide)⟩

/-- C15: `SetBufferSize` with a negative size returns `PLUS_FAIL` and leaves the buffer,
its capacity and its stored items included, unchanged; size 0 is not rejected: the call
returns `PLUS_SUCCESS` and the capacity is 0 afterwards. -/
theorem SetBufferSize_negative (x : ExternalFrames) (self : vtkPlusDataBuffer K) (bufsize : Int)
    (hneg : bufsize < 0) :
    self.SetBufferSize x bufsize = (PLUS_FAIL, self)
    ∧ (self.SetBufferSize x 0).1 = PLUS_SUCCESS
    ∧ (self.SetBufferSize x 0).2.GetBufferSize = 0 := by
  have h0 : ¬ (0 : Int) < 0 := lt_irrefl 0
  refine ⟨?_, ?_, ?_⟩
  · unfold SetBufferSize
    rw [if_pos hneg]
  · unfold SetBufferSize
    rw [if_neg h0]
    by_cases h : self.GetBufferSize = 0
    · rw [if_pos h]
    · rw [if_neg h]
      simp [vtkTimestampedCircularBuffer.SetBufferSize, AllocateMemoryForFrames, WithDataBuffer]
  · unfold SetBufferSize
    rw [if_neg h0]
    by_cases h : self.GetBufferSize = 0
    · rw [if_pos h]
      exact h
    · rw [if_neg h]
      simp [vtkTimestampedCircularBuffer.SetBufferSize, AllocateMemoryForFrames, WithDataBuffer,
        GetBufferSize, vtkTimestampedCircularBuffer.GetBufferSize]

/-- Witness for C15: asking `exThree` for capacity -3 fails and changes nothing. -/
theorem SetBufferSize_negative_witness :
    exThree.SetBufferSize exFrames (-3) = (PLUS_FAIL, exThree) :=
  (SetBufferSize_negative exFrames exThree (-3) (by decide)).1

end vtkPlusDataBuffer

/-! ## Monotonic timestamps -/

namespace vtkPlusDataBuffer

open vtkTimestampedCircularBuffer

theorem exVideo_valid : exVideo.DataBuffer.CountersValid := by
  simp [exVideo, CountersValid]

theorem exVideo_uids : exVideo.DataBuffer.Uids = [0, 1] := by
  simp [exVideo, Uids, GetNumberOfItems, List.range_succ]

theorem exVideo_item0 : exVideo.DataBuffer.GetBufferItemFromUid 0 = some (exFrameItem 0 1 7) := by
  simp [exVideo, GetBufferItemFromUid, GetBufferItemFromBufferIndex, BufferIndexFromUid]

theorem exVideo_item1 : exVideo.DataBuffer.GetBufferItemFromUid 1 = some (exFrameItem 1 2 8) := by
  simp [exVideo, GetBufferItemFromUid, GetBufferItemFromBufferIndex, BufferIndexFromUid]

theorem exVideo_ts0 : exVideo.DataBuffer.GetTimeStamp 0 = (ITEM_OK, 1) := by
  rw [GetTimeStamp_of_mem _ exVideo_valid (by simp [exVideo_uids]) exVideo_item0]; rfl

theorem exVideo_ts1 : exVideo.DataBuffer.GetTimeStamp 1 = (ITEM_OK, 2) := by
  rw [GetTimeStamp_of_mem _ exVideo_valid (by simp [exVideo_uids]) exVideo_item1]; rfl

theorem exVideo_increasing : exVideo.DataBuffer.TimestampsIncreasing := by
  intro uid huid hnext
  rw [exVideo_uids] at huid hnext
  simp only [List.mem_cons, List.mem_singleton, List.not_mem_nil, or_false] at huid
  rcases huid with h | h <;> subst h
  · norm_num [exVideo_ts0, exVideo_ts1]
  · norm_num at hnext

/-- The buffer `exVideo` after a UID was issued for a frame that was never written: the
counters moved on to the window `[1, 2]`, the slots are the old ones. -/
theorem exVideo_failed_add :
    exVideo.AddItem exAcquisitionStrict (some [9]) 0 (1, 1) 0 0 0 5 3 3 none
      = (PLUS_FAIL,
         { exVideo with
           DataBuffer := { exVideo.DataBuffer with nextUid := 3, oldestUid := 1, newestUid := 2 } })
      := by
  have hnewest : exVideo.DataBuffer.newestUid = 1 := rfl
  have hcount : exVideo.DataBuffer.GetNumberOfItems = 2 := by
    simp [GetNumberOfItems, exVideo]
  have hprep : exVideo.DataBuffer.PrepareForNewItem (3 : ℚ)
      = (PLUS_SUCCESS,
         { exVideo.DataBuffer with nextUid := 3, oldestUid := 1, newestUid := 2 }, 2, 0) := by
    unfold PrepareForNewItem
    rw [hnewest, exVideo_ts1, hcount]
    norm_num [exVideo, vtkTimestampedCircularBuffer.GetBufferSize, BufferIndexFromUid]
  have hundef : ¬ ((3 : ℚ) = exAcquisitionStrict.UNDEFINED_TIMESTAMP) := by
    norm_num [exAcquisitionStrict, exAcquisition]
  unfold AddItem
  simp only [hundef, if_false, decide_False, Bool.false_eq_true, false_and, hprep]
  simp [CheckFrameFormat, exVideo, WithDataBuffer, GetBufferItemFromBufferIndex, exFrameItem,
    exAcquisitionStrict]

/-- C11 (evaluation at the failing input): `exVideo` is a full ring of capacity 2 with
strictly increasing timestamps 1.0 s and 2.0 s.  An `AddItem` call at 3.0 s whose
reorientation fails returns `PLUS_FAIL` after its UID was issued; the window is then
`[1, 2]`, UID 2 points at the slot that still holds the item of 1.0 s, and the timestamps
2.0 s, 1.0 s in UID order are no longer increasing. -/
theorem failed_add_breaks_monotonicity :
    exVideo.DataBuffer.TimestampsIncreasing
    ∧ (exVideo.AddItem exAcquisitionStrict (some [9]) 0 (1, 1) 0 0 0 5 3 3 none).1 = PLUS_FAIL
    ∧ (exVideo.AddItem exAcquisitionStrict (some [9]) 0 (1, 1) 0 0 0 5 3 3
        none).2.DataBuffer.Uids = [1, 2]
    ∧ ((exVideo.AddItem exAcquisitionStrict (some [9]) 0 (1, 1) 0 0 0 5 3 3
        none).2.DataBuffer.GetTimeStamp 1).2 = 2
    ∧ ((exVideo.AddItem exAcquisitionStrict (some [9]) 0 (1, 1) 0 0 0 5 3 3
        none).2.DataBuffer.GetTimeStamp 2).2 = 1
    ∧ ¬ (exVideo.AddItem exAcquisitionStrict (some [9]) 0 (1, 1) 0 0 0 5 3 3
        none).2.DataBuffer.TimestampsIncreasing := by
  rw [exVideo_failed_add]
  have huids : ({ exVideo.DataBuffer with nextUid := 3, oldestUid := 1, newestUid := 2 } :
      vtkTimestampedCircularBuffer ℚ).Uids = [1, 2] := by
    simp [Uids, GetNumberOfItems, List.range_succ]
  have ht1 : (({ exVideo.DataBuffer with nextUid := 3, oldestUid := 1, newestUid := 2 } :
      vtkTimestampedCircularBuffer ℚ).GetTimeStamp 1).2 = 2 := by
    simp [GetTimeStamp, GetFrameStatus, GetBufferItemFromUid, GetBufferItemFromBufferIndex,
      BufferIndexFromUid, exVideo, exFrameItem]
  have ht2 : (({ exVideo.DataBuffer with nextUid := 3, oldestUid := 1, newestUid := 2 } :
      vtkTimestampedCircularBuffer ℚ).GetTimeStamp 2).2 = 1 := by
    simp [GetTimeStamp, GetFrameStatus, GetBufferItemFromUid, GetBufferItemFromBufferIndex,
      BufferIndexFromUid, exVideo, exFrameItem]
  refine ⟨exVideo_increasing, rfl, huids, ht1, ht2, ?_⟩
  intro hinc
  have h := hinc 1 (by rw [huids]; simp) (by rw [huids]; simp)
  rw [ht1] at h
  have h2 : (({ exVideo.DataBuffer with nextUid := 3, oldestUid := 1, newestUid := 2 } :
      vtkTimestampedCircularBuffer ℚ).GetTimeStamp (1 + 1)).2 = 1 := ht2
  rw [h2] at h
  norm_num at h

end vtkPlusDataBuffer

/-! ## The large-rotation warning -/

namespace vtkPlusDataBuffer

open vtkTimestampedCircularBuffer

/-- The interpolated item depends on the numeric routines through `acos`, `sin` and the two
quaternion conversions only. -/
theorem InterpolatedItem_congr (m m2 : ExternalMath K) (A B : DataBufferItem K)
    (time tA tB : K) (hacos : m2.acos = m.acos) (hsin : m2.sin = m.sin)
    (hq : m2.Matrix3x3ToQuaternion = m.Matrix3x3ToQuaternion)
    (hr : m2.QuaternionToMatrix3x3 = m.QuaternionToMatrix3x3) :
    InterpolatedItem m2 A B time tA tB = InterpolatedItem m A B time tA tB := by
  simp only [InterpolatedItem, InterpolatedMatrix, hacos, hsin, hq, hr]

/-- C21: whenever `GetInterpolatedDataBufferItemFromTime` interpolates between `A` and `B`,
the large-rotation warning is logged exactly when the absolute orientation difference of
the interpolated matrix to the matrix of `A` and the one to the matrix of `B` both exceed
10 degrees.  The status is `ITEM_OK` and the item is the interpolated item in either case:
a second set of numeric routines `m2` that agrees with `m` on the routines of the
interpolation, whatever orientation differences it reports, yields the same status and
the same item. -/
theorem large_rotation_warning_iff (m m2 : ExternalMath K) (self : vtkPlusDataBuffer K)
    (time : K) (bufferItem A B : DataBufferItem K) (tA tB : K)
    (h : self.GetPrevNextBufferItemFromTime time (DataBufferItem.new K) (DataBufferItem.new K)
      = (PLUS_SUCCESS, A, B))
    (huid : A.Uid ≠ B.Uid)
    (htA : self.DataBuffer.GetTimeStamp A.Uid = (ITEM_OK, tA))
    (htB : self.DataBuffer.GetTimeStamp B.Uid = (ITEM_OK, tB))
    (hgap : ¬ |tA - tB| < NEGLIGIBLE_TIME_DIFFERENCE)
    (hacos : m2.acos = m.acos) (hsin : m2.sin = m.sin)
    (hq : m2.Matrix3x3ToQuaternion = m.Matrix3x3ToQuaternion)
    (hr : m2.QuaternionToMatrix3x3 = m.QuaternionToMatrix3x3) :
    ((self.GetInterpolatedDataBufferItemFromTime m time bufferItem).2.2 = true
      ↔ |PlusMath.GetOrientationDifference m
            (self.GetInterpolatedDataBufferItemFromTime m time bufferItem).2.1.Matrix A.Matrix| > 10
        ∧ |PlusMath.GetOrientationDifference m
            (self.GetInterpolatedDataBufferItemFromTime m time bufferItem).2.1.Matrix B.Matrix| > 10)
    ∧ (self.GetInterpolatedDataBufferItemFromTime m time bufferItem).1 = ITEM_OK
    ∧ (self.GetInterpolatedDataBufferItemFromTime m time bufferItem).2.1
        = InterpolatedItem m A B time tA tB
    ∧ (self.GetInterpolatedDataBufferItemFromTime m2 time bufferItem).1 = ITEM_OK
    ∧ (self.GetInterpolatedDataBufferItemFromTime m2 time bufferItem).2.1
        = (self.GetInterpolatedDataBufferItemFromTime m time bufferItem).2.1 := by
  rw [self.GetInterpolated_blend m time bufferItem A B tA tB h huid htA htB hgap,
    self.GetInterpolated_blend m2 time bufferItem A B tA tB h huid htA htB hgap]
  refine ⟨?_, rfl, rfl, rfl, InterpolatedItem_congr m m2 A B time tA tB hacos hsin hq hr⟩
  simp [LargeAngleWarning, ANGLE_INTERPOLATION_WARNING_THRESHOLD_DEG]

/-- Witness for C21: in `exThree` the query at 1.1 s is interpolated; with routines that
report no orientation difference no warning is logged, with routines that report 45
degrees the warning is logged, and the returned item is the same. -/
theorem large_rotation_warning_iff_witness :
    (exThree.GetInterpolatedDataBufferItemFromTime exMath (11 / 10) (DataBufferItem.new ℚ)).2.2
      = false
    ∧ (exThree.GetInterpolatedDataBufferItemFromTime exMathTurned (11 / 10)
        (DataBufferItem.new ℚ)).2.2 = true
    ∧ (exThree.GetInterpolatedDataBufferItemFromTime exMathTurned (11 / 10)
        (DataBufferItem.new ℚ)).2.1
      = (exThree.GetInterpolatedDataBufferItemFromTime exMath (11 / 10)
        (DataBufferItem.new ℚ)).2.1 := by
  have h1 := large_rotation_warning_iff exMath exMathTurned exThree (11 / 10)
    (DataBufferItem.new ℚ) (exItem 0 1 TOOL_OK 10) (exItem 1 (13 / 10) TOOL_OK 20) 1 (13 / 10)
    (exThree_prevnext _ _) (by simp [exItem]) exThree_ts0 exThree_ts1 exThree_gap rfl rfl rfl rfl
  have h2 := large_rotation_warning_iff exMathTurned exMath exThree (11 / 10)
    (DataBufferItem.new ℚ) (exItem 0 1 TOOL_OK 10) (exItem 1 (13 / 10) TOOL_OK 20) 1 (13 / 10)
    (exThree_prevnext _ _) (by simp [exItem]) exThree_ts0 exThree_ts1 exThree_gap rfl rfl rfl rfl
  refine ⟨?_, ?_, h1.2.2.2.2⟩
  · have hno : ¬ (|PlusMath.GetOrientationDifference exMath
        (exThree.GetInterpolatedDataBufferItemFromTime exMath (11 / 10)
          (DataBufferItem.new ℚ)).2.1.Matrix (exItem 0 1 TOOL_OK 10).Matrix| > 10
        ∧ |PlusMath.GetOrientationDifference exMath
        (exThree.GetInterpolatedDataBufferItemFromTime exMath (11 / 10)
          (DataBufferItem.new ℚ)).2.1.Matrix (exItem 1 (13 / 10) TOOL_OK 20).Matrix| > 10) := by
      norm_num [PlusMath.GetOrientationDifference, exMath]
    cases hw : (exThree.GetInterpolatedDataBufferItemFromTime exMath (11 / 10)
        (DataBufferItem.new ℚ)).2.2 with
    | false => rfl
    | true => exact absurd (h1.1.1 hw) hno
  · apply h2.1.2
    norm_num [PlusMath.GetOrientationDifference, exMathTurned, exMath]

end vtkPlusDataBuffer

/-! ## The interpolation weights -/

namespace vtkPlusDataBuffer

open vtkTimestampedCircularBuffer

/-- When the timestamps of the two neighbours are negligibly close, the interpolated lookup
returns item `A` without computing weights (lines 1098-1103). -/
theorem GetInterpolated_same_time (m : ExternalMath K) (self : vtkPlusDataBuffer K) (time : K)
    (bufferItem A B : DataBufferItem K) (tA tB : K)
    (h : self.GetPrevNextBufferItemFromTime time (DataBufferItem.new K) (DataBufferItem.new K)
      = (PLUS_SUCCESS, A, B))
    (huid : A.Uid ≠ B.Uid)
    (htA : self.DataBuffer.GetTimeStamp A.Uid = (ITEM_OK, tA))
    (htB : self.DataBuffer.GetTimeStamp B.Uid = (ITEM_OK, tB))
    (hgap : |tA - tB| < NEGLIGIBLE_TIME_DIFFERENCE) :
    self.GetInterpolatedDataBufferItemFromTime m time bufferItem = (ITEM_OK, A, false) := by
  unfold GetInterpolatedDataBufferItemFromTime
  simp [h, huid, htA, htB, hgap]

/-- Bounds of the weight of item `A` when the query lies between the two timestamps and
item `A` is at least as close to the query as item `B`. -/
theorem ItemAWeight_bounds (time tA tB : K) (hne : 0 < |tA - tB|)
    (hbetween : (tA ≤ time ∧ time ≤ tB) ∨ (tB ≤ time ∧ time ≤ tA))
    (hclose : |tA - time| ≤ |tB - time|) :
    1 / 2 ≤ ItemAWeight time tA tB ∧ ItemAWeight time tA tB ≤ 1 := by
  have hsum : |tA - tB| = |tA - time| + |tB - time| := by
    rcases hbetween with ⟨h1, h2⟩ | ⟨h1, h2⟩
    · rw [abs_of_nonpos (by linarith : tA - tB ≤ 0), abs_of_nonpos (by linarith : tA - time ≤ 0),
        abs_of_nonneg (by linarith : 0 ≤ tB - time)]
      ring
    · rw [abs_of_nonneg (by linarith : 0 ≤ tA - tB), abs_of_nonneg (by linarith : 0 ≤ tA - time),
        abs_of_nonpos (by linarith : tB - time ≤ 0)]
      ring
  have hA0 : 0 ≤ |tA - time| := abs_nonneg _
  unfold ItemAWeight
  constructor
  · rw [le_div_iff₀ hne]
    linarith
  · rw [div_le_one hne]
    linarith

/-- C27: when `GetInterpolatedDataBufferItemFromTime` has its two neighbours `A` and `B`
with timestamps `tA` and `tB`, it either returns `A` because the timestamps are less than
0.00001 s apart, or it reaches the weight computation with `|tA - tB| ≥ 0.00001`, a
non-zero divisor.  In the second case the translation is `wA * posA + wB * posB`, and if
the query lies between `tA` and `tB` with `A` at least as close as `B`, then
`wA + wB = 1`, `1/2 ≤ wA ≤ 1` and `0 ≤ wB ≤ 1/2`. -/
theorem weights_defined_and_convex (m : ExternalMath K) (self : vtkPlusDataBuffer K) (time : K)
    (bufferItem A B : DataBufferItem K) (tA tB : K)
    (h : self.GetPrevNextBufferItemFromTime time (DataBufferItem.new K) (DataBufferItem.new K)
      = (PLUS_SUCCESS, A, B))
    (huid : A.Uid ≠ B.Uid)
    (htA : self.DataBuffer.GetTimeStamp A.Uid = (ITEM_OK, tA))
    (htB : self.DataBuffer.GetTimeStamp B.Uid = (ITEM_OK, tB)) :
    (|tA - tB| < 1 / 100000 →
      self.GetInterpolatedDataBufferItemFromTime m time bufferItem = (ITEM_OK, A, false))
    ∧ (¬ |tA - tB| < 1 / 100000 →
      1 / 100000 ≤ |tA - tB| ∧ |tA - tB| ≠ 0
      ∧ (∀ i : Fin 4, i.val < 3 →
          (self.GetInterpolatedDataBufferItemFromTime m time bufferItem).2.1.Matrix i 3
            = ItemAWeight time tA tB * A.Matrix i 3
              + (1 - ItemAWeight time tA tB) * B.Matrix i 3)
      ∧ (((tA ≤ time ∧ time ≤ tB) ∨ (tB ≤ time ∧ time ≤ tA)) → |tA - time| ≤ |tB - time| →
          ItemAWeight time tA tB + (1 - ItemAWeight time tA tB) = 1
          ∧ 1 / 2 ≤ ItemAWeight time tA tB ∧ ItemAWeight time tA tB ≤ 1
          ∧ 0 ≤ 1 - ItemAWeight time tA tB ∧ 1 - ItemAWeight time tA tB ≤ 1 / 2)) := by
  constructor
  · intro hlt
    exact self.GetInterpolated_same_time m time bufferItem A B tA tB h huid htA htB
      (by simpa [NEGLIGIBLE_TIME_DIFFERENCE] using hlt)
  · intro hgap
    have hge : (1 : K) / 100000 ≤ |tA - tB| := not_lt.1 hgap
    have hpos : 0 < |tA - tB| := lt_of_lt_of_le (by norm_num) hge
    refine ⟨hge, ne_of_gt hpos, ?_, ?_⟩
    · intro i hi
      rw [self.GetInterpolated_blend m time bufferItem A B tA tB h huid htA htB
        (by simpa [NEGLIGIBLE_TIME_DIFFERENCE] using hgap)]
      simp only [InterpolatedItem, InterpolatedMatrix, hi, dif_pos]
      have h3 : ¬ ((3 : Fin 4).val < 3) := by decide
      rw [dif_neg h3]
      ring
    · intro hbetween hclose
      have hb := ItemAWeight_bounds time tA tB hpos hbetween hclose
      refine ⟨by ring, hb.1, hb.2, by linarith [hb.2], by linarith [hb.1]⟩

/-- Witness for C27: in `exThree` the query at 1.1 s lies between 1.0 s and 1.3 s, the
divisor is 0.3 and the weight of the closest item is 2/3. -/
theorem weights_defined_and_convex_witness :
    (1 : ℚ) / 100000 ≤ |1 - 13 / 10|
    ∧ ItemAWeight (11 / 10 : ℚ) 1 (13 / 10) = 2 / 3
    ∧ (1 : ℚ) / 2 ≤ ItemAWeight (11 / 10 : ℚ) 1 (13 / 10)
    ∧ ItemAWeight (11 / 10 : ℚ) 1 (13 / 10) ≤ 1 := by
  have hgap : ¬ |(1 : ℚ) - 13 / 10| < 1 / 100000 := by norm_num [abs_lt]
  have h := (weights_defined_and_convex exMath exThree (11 / 10) (DataBufferItem.new ℚ)
    (exItem 0 1 TOOL_OK 10) (exItem 1 (13 / 10) TOOL_OK 20) 1 (13 / 10)
    (exThree_prevnext _ _) (by simp [exItem]) exThree_ts0 exThree_ts1).2 hgap
  have hb := h.2.2.2 (Or.inl (by norm_num)) (by norm_num [abs_le, le_abs])
  refine ⟨h.1, ?_, hb.2.1, hb.2.2.1⟩
  norm_num [ItemAWeight, abs_of_nonneg, abs_of_neg]

end vtkPlusDataBuffer

/-! ## The buffer calls with their lock -/

namespace vtkPlusDataBuffer

/-- The frame format check reads the frame size, pixel type and image type of the buffer,
not its circular buffer. -/
theorem CheckFrameFormat_WithDataBuffer (self : vtkPlusDataBuffer K)
    (b : vtkTimestampedCircularBuffer K) (frameSizeInPx : Int × Int) (pixelType imgType : Nat) :
    (self.WithDataBuffer b).CheckFrameFormat frameSizeInPx pixelType imgType
      = self.CheckFrameFormat frameSizeInPx pixelType imgType := rfl

end vtkPlusDataBuffer

namespace LockedBuffer

open vtkTimestampedCircularBuffer vtkPlusDataBuffer

/-- The raw-pointer `AddItem` with the lock computes the status and the buffer of `AddItem`. -/
theorem AddItem_result {L : Type} (k : ExternalLock L) (e : ExternalAcquisition K)
    (s : LockedBuffer K L)
    (imageDataPtr : Option (List Nat)) (usImageOrientation : Nat) (frameSizeInPx : Int × Int)
    (pixelType imageType : Nat) (numberOfBytesToSkip : Nat) (frameNumber : Int)
    (unfilteredTimestamp filteredTimestamp : K)
    (customFields : Option (List (String × String))) :
    (s.AddItem k e imageDataPtr usImageOrientation frameSizeInPx pixelType imageType
        numberOfBytesToSkip frameNumber unfilteredTimestamp filteredTimestamp customFields).1
      = (s.Buffer.AddItem e imageDataPtr usImageOrientation frameSizeInPx pixelType imageType
        numberOfBytesToSkip frameNumber unfilteredTimestamp filteredTimestamp customFields).1
    ∧ (s.AddItem k e imageDataPtr usImageOrientation frameSizeInPx pixelType imageType
        numberOfBytesToSkip frameNumber unfilteredTimestamp filteredTimestamp customFields).2.Buffer
      = (s.Buffer.AddItem e imageDataPtr usImageOrientation frameSizeInPx pixelType imageType
        numberOfBytesToSkip frameNumber unfilteredTimestamp filteredTimestamp customFields).2 := by
  unfold LockedBuffer.AddItem vtkPlusDataBuffer.AddItem
  generalize (if unfilteredTimestamp = e.UNDEFINED_TIMESTAMP then e.GetSystemTime
    else unfilteredTimestamp) = u
  by_cases hundef : filteredTimestamp = e.UNDEFINED_TIMESTAMP
  · by_cases hok : (e.CreateFilteredTimeStampForItem s.Buffer.DataBuffer.FilterWindow
        frameNumber u).1 = PLUS_SUCCESS
    · cases hinv : (e.CreateFilteredTimeStampForItem s.Buffer.DataBuffer.FilterWindow
          frameNumber u).2.2.1 with
      | false => simp [hundef, hok, hinv]
      | true =>
        cases imageDataPtr with
        | none => simp [hundef, hok, hinv]
        | some imageData =>
          simp only [hundef, hok, hinv, decide_True, if_true, true_and, not_true_eq_false,
            if_false, ne_eq, Bool.true_eq_false, CheckFrameFormat_WithDataBuffer]
          by_cases hfmt : s.Buffer.CheckFrameFormat frameSizeInPx pixelType imageType = true
          · simp only [hfmt, not_true_eq_false, if_false]
            exact ⟨rfl, rfl⟩
          · simp [hfmt]
    · simp [hundef, hok]
  · cases imageDataPtr with
    | none => simp [hundef]
    | some imageData =>
      simp only [hundef, decide_False, Bool.false_eq_true, if_false, false_and]
      by_cases hfmt : s.Buffer.CheckFrameFormat frameSizeInPx pixelType imageType = true
      · simp only [hfmt, not_true_eq_false, if_false]
        exact ⟨rfl, rfl⟩
      · simp [hfmt]

end LockedBuffer

namespace LockedBuffer

open vtkTimestampedCircularBuffer vtkPlusDataBuffer

/-- `AddTimeStampedItem` with the lock computes the status and the buffer of
`AddTimeStampedItem`. -/
theorem AddTimeStampedItem_result {L : Type} (k : ExternalLock L) (e : ExternalAcquisition K)
    (s : LockedBuffer K L) (matrix : Option (Matrix4x4 K)) (status : ToolStatus)
    (frameNumber : Int) (unfilteredTimestamp filteredTimestamp : K) :
    (s.AddTimeStampedItem k e matrix status frameNumber unfilteredTimestamp filteredTimestamp).1
      = (s.Buffer.AddTimeStampedItem e matrix status frameNumber unfilteredTimestamp
          filteredTimestamp).1
    ∧ (s.AddTimeStampedItem k e matrix status frameNumber unfilteredTimestamp
          filteredTimestamp).2.Buffer
      = (s.Buffer.AddTimeStampedItem e matrix status frameNumber unfilteredTimestamp
          filteredTimestamp).2 := by
  unfold LockedBuffer.AddTimeStampedItem vtkPlusDataBuffer.AddTimeStampedItem
  cases matrix with
  | none => exact ⟨rfl, rfl⟩
  | some matrix =>
    by_cases hundef : filteredTimestamp = e.UNDEFINED_TIMESTAMP
    · by_cases hok : (e.CreateFilteredTimeStampForItem s.Buffer.DataBuffer.FilterWindow
          frameNumber unfilteredTimestamp).1 = PLUS_SUCCESS
      · cases hinv : (e.CreateFilteredTimeStampForItem s.Buffer.DataBuffer.FilterWindow
            frameNumber unfilteredTimestamp).2.2.1 with
        | false => simp [hundef, hok, hinv]
        | true =>
          simp only [hundef, hok, hinv, decide_True, if_true, true_and, not_true_eq_false,
            if_false, ne_eq, Bool.true_eq_false]
          exact ⟨rfl, rfl⟩
      · simp [hundef, hok]
    · simp only [hundef, decide_False, Bool.false_eq_true, if_false, false_and]
      exact ⟨rfl, rfl⟩

/-- The lock state after a guarded scope that does not touch the lock itself. -/
theorem PlusLockGuard_LockState {α L : Type} (k : ExternalLock L) (s : LockedBuffer K L)
    (scope : LockedBuffer K L → α × LockedBuffer K L)
    (hscope : ∀ s1, (scope s1).2.LockState = s1.LockState) :
    (PlusLockGuard k s scope).2.LockState = k.Unlock (k.Lock s.LockState) := by
  simp [PlusLockGuard, hscope]

/-- The raw-pointer `AddItem` leaves the lock as it found it (the returns before the guard)
or locked and unlocked once (the returns inside the scope of the guard). -/
theorem AddItem_LockState {L : Type} (k : ExternalLock L) (e : ExternalAcquisition K)
    (s : LockedBuffer K L)
    (imageDataPtr : Option (List Nat)) (usImageOrientation : Nat) (frameSizeInPx : Int × Int)
    (pixelType imageType : Nat) (numberOfBytesToSkip : Nat) (frameNumber : Int)
    (unfilteredTimestamp filteredTimestamp : K)
    (customFields : Option (List (String × String))) :
    (s.AddItem k e imageDataPtr usImageOrientation frameSizeInPx pixelType imageType
        numberOfBytesToSkip frameNumber unfilteredTimestamp filteredTimestamp
        customFields).2.LockState = s.LockState
    ∨ (s.AddItem k e imageDataPtr usImageOrientation frameSizeInPx pixelType imageType
        numberOfBytesToSkip frameNumber unfilteredTimestamp filteredTimestamp
        customFields).2.LockState = k.Unlock (k.Lock s.LockState) := by
  unfold LockedBuffer.AddItem
  generalize (if unfilteredTimestamp = e.UNDEFINED_TIMESTAMP then e.GetSystemTime
    else unfilteredTimestamp) = u
  by_cases hundef : filteredTimestamp = e.UNDEFINED_TIMESTAMP
  · by_cases hok : (e.CreateFilteredTimeStampForItem s.Buffer.DataBuffer.FilterWindow
        frameNumber u).1 = PLUS_SUCCESS
    · cases hinv : (e.CreateFilteredTimeStampForItem s.Buffer.DataBuffer.FilterWindow
          frameNumber u).2.2.1 with
      | false => simp [hundef, hok, hinv]
      | true =>
        cases imageDataPtr with
        | none => simp [hundef, hok, hinv]
        | some imageData =>
          simp only [hundef, hok, hinv, decide_True, if_true, true_and, not_true_eq_false,
            if_false, ne_eq, Bool.true_eq_false, CheckFrameFormat_WithDataBuffer]
          by_cases hfmt : s.Buffer.CheckFrameFormat frameSizeInPx pixelType imageType = true
          · simp only [hfmt, not_true_eq_false, if_false]
            right
            exact PlusLockGuard_LockState k _ _ (fun _ => rfl)
          · simp [hfmt]
    · simp [hundef, hok]
  · cases imageDataPtr with
    | none => simp [hundef]
    | some imageData =>
      simp only [hundef, decide_False, Bool.false_eq_true, if_false, false_and]
      by_cases hfmt : s.Buffer.CheckFrameFormat frameSizeInPx pixelType imageType = true
      · simp only [hfmt, not_true_eq_false, if_false]
        right
        exact PlusLockGuard_LockState k _ _ (fun _ => rfl)
      · simp [hfmt]

/-- `AddTimeStampedItem` leaves the lock as it found it (the returns before the guard) or
locked and unlocked once (the returns inside the scope of the guard). -/
theorem AddTimeStampedItem_LockState {L : Type} (k : ExternalLock L)
    (e : ExternalAcquisition K) (s : LockedBuffer K L) (matrix : Option (Matrix4x4 K))
    (status : ToolStatus) (frameNumber : Int) (unfilteredTimestamp filteredTimestamp : K) :
    (s.AddTimeStampedItem k e matrix status frameNumber unfilteredTimestamp
        filteredTimestamp).2.LockState = s.LockState
    ∨ (s.AddTimeStampedItem k e matrix status frameNumber unfilteredTimestamp
        filteredTimestamp).2.LockState = k.Unlock (k.Lock s.LockState) := by
  unfold LockedBuffer.AddTimeStampedItem
  cases matrix with
  | none => exact Or.inl rfl
  | some matrix =>
    by_cases hundef : filteredTimestamp = e.UNDEFINED_TIMESTAMP
    · by_cases hok : (e.CreateFilteredTimeStampForItem s.Buffer.DataBuffer.FilterWindow
          frameNumber unfilteredTimestamp).1 = PLUS_SUCCESS
      · cases hinv : (e.CreateFilteredTimeStampForItem s.Buffer.DataBuffer.FilterWindow
            frameNumber unfilteredTimestamp).2.2.1 with
        | false => simp [hundef, hok, hinv]
        | true =>
          simp only [hundef, hok, hinv, decide_True, if_true, true_and, not_true_eq_false,
            if_false, ne_eq, Bool.true_eq_false]
          right
          exact PlusLockGuard_LockState k _ _ (fun _ => rfl)
      · simp [hundef, hok]
    · simp only [hundef, decide_False, Bool.false_eq_true, if_false, false_and]
      right
      exact PlusLockGuard_LockState k _ _ (fun _ => rfl)

/-- C23: for a lock whose `Lock` raises the depth by one and whose `Unlock` lowers it by
one, the raw-pointer `AddItem`, `AddTimeStampedItem`, `GetPrevNextBufferItemFromTime` and
`GetDataBufferItemFromClosestTime` return with the lock depth they were entered with, for
every input and so on every exit path: the returns before the guard leave the lock
untouched, the returns inside its scope are followed by the `Unlock` of the guard. -/
theorem lock_released_on_every_exit {L : Type} (k : ExternalLock L) (depth : L → Int)
    (hLock : ∀ l, depth (k.Lock l) = depth l + 1)
    (hUnlock : ∀ l, depth (k.Unlock l) = depth l - 1)
    (e : ExternalAcquisition K) (s : LockedBuffer K L)
    (imageDataPtr : Option (List Nat)) (usImageOrientation : Nat) (frameSizeInPx : Int × Int)
    (pixelType imageType : Nat) (numberOfBytesToSkip : Nat) (frameNumber : Int)
    (unfilteredTimestamp filteredTimestamp : K)
    (customFields : Option (List (String × String)))
    (matrix : Option (Matrix4x4 K)) (status : ToolStatus)
    (time : K) (itemA itemB bufferItem : DataBufferItem K) :
    depth (s.AddItem k e imageDataPtr usImageOrientation frameSizeInPx pixelType imageType
        numberOfBytesToSkip frameNumber unfilteredTimestamp filteredTimestamp
        customFields).2.LockState = depth s.LockState
    ∧ depth (s.AddTimeStampedItem k e matrix status frameNumber unfilteredTimestamp
        filteredTimestamp).2.LockState = depth s.LockState
    ∧ depth (s.GetPrevNextBufferItemFromTime k time itemA itemB).2.LockState = depth s.LockState
    ∧ depth (s.GetDataBufferItemFromClosestTime k time bufferItem).2.LockState
        = depth s.LockState := by
  have hbal : ∀ l, depth (k.Unlock (k.Lock l)) = depth l := by
    intro l
    rw [hUnlock, hLock]
    ring
  refine ⟨?_, ?_, ?_, ?_⟩
  · rcases AddItem_LockState k e s imageDataPtr usImageOrientation frameSizeInPx pixelType
      imageType numberOfBytesToSkip frameNumber unfilteredTimestamp filteredTimestamp
      customFields with h | h
    · rw [h]
    · rw [h]
      exact hbal _
  · rcases AddTimeStampedItem_LockState k e s matrix status frameNumber unfilteredTimestamp
      filteredTimestamp with h | h
    · rw [h]
    · rw [h]
      exact hbal _
  · unfold LockedBuffer.GetPrevNextBufferItemFromTime
    rw [PlusLockGuard_LockState k _ _ (fun _ => rfl)]
    exact hbal _
  · unfold LockedBuffer.GetDataBufferItemFromClosestTime
    rw [PlusLockGuard_LockState k _ _ (fun _ => rfl)]
    exact hbal _

end LockedBuffer

/-! ## Repeated reads -/

namespace vtkPlusDataBuffer

open vtkTimestampedCircularBuffer

/-- Calling `GetDataBufferItem` again with the output of the first call returns the same
status and item. -/
theorem GetDataBufferItem_again (self : vtkPlusDataBuffer K) (uid : Int)
    (bufferItem : DataBufferItem K) :
    self.GetDataBufferItem uid (self.GetDataBufferItem uid bufferItem).2
      = self.GetDataBufferItem uid bufferItem := by
  unfold GetDataBufferItem
  by_cases hst : self.DataBuffer.GetFrameStatus uid = ITEM_OK
  · cases hitem : self.DataBuffer.GetBufferItemFromUid uid with
    | none => simp [hst]
    | some dataItem => simp [hst]
  · simp [hst]

/-- Calling `GetDataBufferItemFromClosestTime` again with the output of the first call
returns the same status and item. -/
theorem GetDataBufferItemFromClosestTime_again (self : vtkPlusDataBuffer K) (time : K)
    (bufferItem : DataBufferItem K) :
    self.GetDataBufferItemFromClosestTime time
        (self.GetDataBufferItemFromClosestTime time bufferItem).2
      = self.GetDataBufferItemFromClosestTime time bufferItem := by
  unfold GetDataBufferItemFromClosestTime
  by_cases hst : (self.DataBuffer.GetItemUidFromTime time).1 = ITEM_OK
  · simp only [hst, ne_eq, not_true_eq_false, if_false]
    exact self.GetDataBufferItem_again _ bufferItem
  · simp [hst]

/-- The item left in the output by the exact-time lookup is the one left by the
closest-time lookup. -/
theorem GetDataBufferItemFromExactTime_output (self : vtkPlusDataBuffer K) (time : K)
    (bufferItem : DataBufferItem K) :
    (self.GetDataBufferItemFromExactTime time bufferItem).2
      = (self.GetDataBufferItemFromClosestTime time bufferItem).2 := by
  unfold GetDataBufferItemFromExactTime
  simp only []
  split_ifs <;> rfl

/-- Calling `GetDataBufferItemFromExactTime` again with the output of the first call returns
the same status and item. -/
theorem GetDataBufferItemFromExactTime_again (self : vtkPlusDataBuffer K) (time : K)
    (bufferItem : DataBufferItem K) :
    self.GetDataBufferItemFromExactTime time
        (self.GetDataBufferItemFromExactTime time bufferItem).2
      = self.GetDataBufferItemFromExactTime time bufferItem := by
  rw [GetDataBufferItemFromExactTime_output]
  unfold GetDataBufferItemFromExactTime
  rw [GetDataBufferItemFromClosestTime_again]

end vtkPlusDataBuffer

namespace LockedBuffer

open vtkTimestampedCircularBuffer vtkPlusDataBuffer

/-- The lock depth of the counting lock is restored by a failed `AddItem` as well: witness
for C23 on the full ring `exVideo`, where the reorientation fails after the guard was
constructed, and on a closest-time lookup. -/
theorem lock_released_on_every_exit_witness :
    (LockedBuffer.AddItem exLock exAcquisitionStrict { Buffer := exVideo, LockState := 0 }
        (some [9]) 0 (1, 1) 0 0 0 5 3 3 none).1 = PLUS_FAIL
    ∧ (LockedBuffer.AddItem exLock exAcquisitionStrict { Buffer := exVideo, LockState := 0 }
        (some [9]) 0 (1, 1) 0 0 0 5 3 3 none).2.LockState = 0
    ∧ (LockedBuffer.GetDataBufferItemFromClosestTime exLock
        { Buffer := exVideo, LockState := 0 } 1 (DataBufferItem.new ℚ)).2.LockState = 0 := by
  have h := lock_released_on_every_exit exLock id (fun _ => rfl) (fun _ => rfl)
    exAcquisitionStrict { Buffer := exVideo, LockState := 0 } (some [9]) 0 (1, 1) 0 0 0 5 3 3
    none none TOOL_OK 1 (DataBufferItem.new ℚ) (DataBufferItem.new ℚ) (DataBufferItem.new ℚ)
  refine ⟨?_, h.1, h.2.2.2⟩
  rw [(AddItem_result exLock exAcquisitionStrict { Buffer := exVideo, LockState := 0 }
    (some [9]) 0 (1, 1) 0 0 0 5 3 3 none).1, exVideo_failed_add]

end LockedBuffer

/-! ## The two container overloads of LSQRMinimize -/

namespace PlusMath

/-- Rows that fill the buffer `row(n)` exactly are copied unchanged. -/
theorem CopyRows_same_length (row : List K) (rows : List (List K))
    (h : ∀ a ∈ rows, a.length = row.length) : CopyRows row rows = some rows := by
  induction rows generalizing row with
  | nil => rfl
  | cons a rest ih =>
    have ha : a.length = row.length := h a (List.mem_cons_self _ _)
    have hdrop : a ++ row.drop a.length = a := by
      rw [ha, List.drop_length, List.append_nil]
    have hrest : ∀ b ∈ rest, b.length = a.length := fun b hb =>
      (h b (List.mem_cons_of_mem _ hb)).trans ha.symm
    simp only [CopyRows, ha, le_refl, if_true]
    rw [← ha, hdrop, ih a hrest]
    rfl

/-- The vector-of-vectors overload runs the `vnl_vector` overload on `aMatrixVnl`. -/
theorem LSQRMinimize_eq_bind (lsqr : SparseMatrix K → List K → List K → Int × List K)
    (uninitialised : K) (aMatrix : List (List K)) (bVector resultVector : List K)
    (ha : aMatrix.length ≠ 0) (hb : bVector.length ≠ 0) :
    LSQRMinimize lsqr uninitialised aMatrix bVector resultVector
      = (AMatrixVnl uninitialised aMatrix bVector).bind
          (fun aMatrixVnl => LSQRMinimizeVnl lsqr aMatrixVnl bVector resultVector) := by
  unfold LSQRMinimize AMatrixVnl
  simp only [ha, hb, if_false]
  cases CopyRows (List.replicate (aMatrix.head?.getD []).length uninitialised) aMatrix with
  | none => rfl
  | some copied => rfl

/-- For a non-empty matrix whose rows all have the length of the first row and a non-empty
`b`, the vector-of-vectors overload hands `|b|` empty rows followed by the rows of `A` to
the `vnl_vector` overload, and the solver receives a system with `|b|` rows and no column. -/
theorem LSQRMinimize_solves_system_without_columns
    (lsqr : SparseMatrix K → List K → List K → Int × List K)
    (uninitialised : K) (aMatrix : List (List K)) (bVector resultVector : List K)
    (ha : aMatrix.length ≠ 0) (hb : bVector.length ≠ 0)
    (hrows : ∀ r ∈ aMatrix, r.length = (aMatrix.head?.getD []).length) :
    AMatrixVnl uninitialised aMatrix bVector
      = some (List.replicate bVector.length [] ++ aMatrix)
    ∧ LSQRMinimize lsqr uninitialised aMatrix bVector resultVector
      = some (LSQRMinimizeSparse lsqr
          { rows := bVector.length, cols := 0, entries := List.replicate bVector.length [] }
          bVector resultVector) := by
  have hcopy : CopyRows (List.replicate (aMatrix.head?.getD []).length uninitialised) aMatrix
      = some aMatrix :=
    CopyRows_same_length _ _ (fun a hmem => by rw [hrows a hmem, List.length_replicate])
  have hvnl : AMatrixVnl uninitialised aMatrix bVector
      = some (List.replicate bVector.length [] ++ aMatrix) := by
    simp only [AMatrixVnl, hcopy, Option.map_some']
  refine ⟨hvnl, ?_⟩
  rw [LSQRMinimize_eq_bind lsqr uninitialised aMatrix bVector resultVector ha hb, hvnl]
  obtain ⟨m, hm⟩ : ∃ m, bVector.length = m + 1 := ⟨bVector.length - 1, by omega⟩
  have hhead : ((List.replicate bVector.length ([] : List K) ++ aMatrix).head?.getD []).length
      = 0 := by
    rw [hm]
    simp [List.replicate_succ]
  have hlen : (List.replicate bVector.length ([] : List K) ++ aMatrix).length ≠ 0 := by
    rw [List.length_append, List.length_replicate]
    omega
  have hread : ReadEntries (List.replicate bVector.length ([] : List K) ++ aMatrix)
      bVector.length 0 = some (List.replicate bVector.length []) := by
    rw [ReadEntries_in_range _ _ _ (by simp) (fun r _ => Nat.zero_le _)]
    simp
  simp only [Option.some_bind]
  unfold LSQRMinimizeVnl
  simp only [hlen, hb, if_false, hhead, hread]

/-- C24 (evaluation at the failing input): for `A = [[2], [3]]` and `b = [6, 9]` the
vector-of-vectors overload hands the four rows `[], [], [2], [3]` to the `vnl_vector`
overload, which reads the column count 0 from the first of them and gives the solver a
2 by 0 system without entries; the `vnl_vector` overload called with the rows `[2], [3]`
gives the solver the 2 by 1 system with the entries 2 and 3.  With a solver that reports
its input the two overloads return different result vectors. -/
theorem LSQRMinimize_overloads_disagree :
    AMatrixVnl (0 : ℚ) [[2], [3]] [6, 9] = some [[], [], [2], [3]]
    ∧ LSQRMinimize exLsqrShape 0 [[2], [3]] [6, 9] []
      = some (LSQRMinimizeSparse exLsqrShape { rows := 2, cols := 0, entries := [[], []] }
          [6, 9] [])
    ∧ LSQRMinimizeVnl exLsqrShape [[2], [3]] [6, 9] []
      = some (LSQRMinimizeSparse exLsqrShape { rows := 2, cols := 1, entries := [[2], [3]] }
          [6, 9] [])
    ∧ (LSQRMinimize exLsqrShape 0 [[2], [3]] [6, 9] []).map (fun r => r.resultVector)
      = some []
    ∧ (LSQRMinimizeVnl exLsqrShape [[2], [3]] [6, 9] []).map (fun r => r.resultVector)
      = some [2, 3] := by
  have hrows : ∀ r ∈ ([[2], [3]] : List (List ℚ)),
      r.length = (([[2], [3]] : List (List ℚ)).head?.getD []).length := by
    intro r hr
    simp only [List.mem_cons, List.mem_singleton, List.not_mem_nil, or_false] at hr
    rcases hr with h | h <;> subst h <;> rfl
  have h := LSQRMinimize_solves_system_without_columns exLsqrShape 0 [[2], [3]] [6, 9] []
    (by decide) (by decide) hrows
  have hv : LSQRMinimizeVnl exLsqrShape [[2], [3]] [6, 9] []
      = some (LSQRMinimizeSparse exLsqrShape { rows := 2, cols := 1, entries := [[2], [3]] }
          [6, 9] []) := by
    simp [LSQRMinimizeVnl, ReadEntries, ReadAll, List.range_succ]
  refine ⟨h.1, h.2, hv, ?_, ?_⟩
  · rw [h.2]
    simp [LSQRMinimizeSparse, exLsqrShape]
  · rw [hv]
    simp [LSQRMinimizeSparse, exLsqrShape]

end PlusMath

/-! ## UIDs issued without a commit -/

namespace vtkTimestampedCircularBuffer

/-- The slot computed for a UID lies inside a slot array that is not empty. -/
theorem BufferIndexFromUid_lt (b : vtkTimestampedCircularBuffer K) (uid : Int)
    (hcap : b.items.length ≠ 0) : b.BufferIndexFromUid uid < b.items.length := by
  have hlen : (0 : Int) < (b.items.length : Int) := by omega
  have h1 := Int.emod_lt_of_pos uid hlen
  have h2 := Int.emod_nonneg uid (ne_of_gt hlen)
  unfold BufferIndexFromUid
  omega

end vtkTimestampedCircularBuffer

namespace vtkPlusDataBuffer

open vtkTimestampedCircularBuffer

/-- The guarded part of `AddTimeStampedItem` on a ring with at least one slot: when it
returns `PLUS_FAIL` the ring is the one it was entered with (the slot of the issued UID
always exists, so the only failure is the rejection by `PrepareForNewItem`). -/
theorem AddTimeStampedItemGuarded_fail_keeps_ring (self1 : vtkPlusDataBuffer K)
    (matrix : Matrix4x4 K) (status : ToolStatus) (frameNumber : Int)
    (unfilteredTimestamp filteredTimestamp : K)
    (hcap : self1.DataBuffer.items.length ≠ 0)
    (hfail : (self1.AddTimeStampedItemGuarded matrix status frameNumber unfilteredTimestamp
      filteredTimestamp).1 = PLUS_FAIL) :
    SameRing self1 (self1.AddTimeStampedItemGuarded matrix status frameNumber
      unfilteredTimestamp filteredTimestamp).2 := by
  unfold AddTimeStampedItemGuarded at hfail ⊢
  by_cases hrej : self1.DataBuffer.GetNumberOfItems ≠ 0
      ∧ filteredTimestamp ≤ (self1.DataBuffer.GetTimeStamp self1.DataBuffer.newestUid).2
  · simp only [PrepareForNewItem, hrej, and_self, if_true, ne_eq, reduceCtorEq,
      not_false_eq_true]
    exact ⟨rfl, rfl, rfl, rfl⟩
  · exfalso
    have hidx := self1.DataBuffer.BufferIndexFromUid_lt self1.DataBuffer.nextUid hcap
    simp only [PrepareForNewItem, hrej, if_false, ne_eq, not_true_eq_false, WithDataBuffer,
      GetBufferItemFromBufferIndex, List.get?_eq_getElem?, List.getElem?_eq_getElem hidx]
      at hfail
    exact absurd hfail (by simp)

/-- C25 (evaluation at the failing input): on the full ring `exVideo`, `PrepareForNewItem`
accepts the timestamp 3.0 s and issues UID 2, then the reorientation of the frame fails and
`AddItem` returns `PLUS_FAIL`.  The slots are the ones of before the call (nothing was
written), the counters have moved from the window `[0, 1]` to `[1, 2]`, and reading the
issued UID 2 returns `ITEM_OK` with the item committed at 1.0 s, whose own UID is 0. -/
theorem failed_add_issues_uid :
    (exVideo.DataBuffer.PrepareForNewItem (3 : ℚ)).1 = PLUS_SUCCESS
    ∧ (exVideo.DataBuffer.PrepareForNewItem (3 : ℚ)).2.2.1 = 2
    ∧ (exVideo.AddItem exAcquisitionStrict (some [9]) 0 (1, 1) 0 0 0 5 3 3 none).1 = PLUS_FAIL
    ∧ (exVideo.AddItem exAcquisitionStrict (some [9]) 0 (1, 1) 0 0 0 5 3 3
        none).2.DataBuffer.items = exVideo.DataBuffer.items
    ∧ (exVideo.DataBuffer.oldestUid = 0 ∧ exVideo.DataBuffer.newestUid = 1
        ∧ exVideo.DataBuffer.nextUid = 2)
    ∧ ((exVideo.AddItem exAcquisitionStrict (some [9]) 0 (1, 1) 0 0 0 5 3 3
          none).2.DataBuffer.oldestUid = 1
        ∧ (exVideo.AddItem exAcquisitionStrict (some [9]) 0 (1, 1) 0 0 0 5 3 3
          none).2.DataBuffer.newestUid = 2
        ∧ (exVideo.AddItem exAcquisitionStrict (some [9]) 0 (1, 1) 0 0 0 5 3 3
          none).2.DataBuffer.nextUid = 3)
    ∧ ¬ SameRing exVideo
        (exVideo.AddItem exAcquisitionStrict (some [9]) 0 (1, 1) 0 0 0 5 3 3 none).2
    ∧ (exVideo.AddItem exAcquisitionStrict (some [9]) 0 (1, 1) 0 0 0 5 3 3
        none).2.GetDataBufferItem 2 (DataBufferItem.new ℚ) = (ITEM_OK, exFrameItem 0 1 7)
    ∧ (exFrameItem 0 1 7).Uid = 0 := by
  have hprep : exVideo.DataBuffer.PrepareForNewItem (3 : ℚ)
      = (PLUS_SUCCESS,
         { exVideo.DataBuffer with nextUid := 3, oldestUid := 1, newestUid := 2 }, 2, 0) := by
    have hnewest : exVideo.DataBuffer.newestUid = 1 := rfl
    have hcount : exVideo.DataBuffer.GetNumberOfItems = 2 := by
      simp [GetNumberOfItems, exVideo]
    unfold PrepareForNewItem
    rw [hnewest, exVideo_ts1, hcount]
    norm_num [exVideo, vtkTimestampedCircularBuffer.GetBufferSize, BufferIndexFromUid]
  rw [exVideo_failed_add, hprep]
  refine ⟨rfl, rfl, rfl, rfl, ⟨rfl, rfl, rfl⟩, ⟨rfl, rfl, rfl⟩, ?_, ?_, rfl⟩
  · intro h
    have h2 := h.2.1
    simp [exVideo] at h2
  · simp [GetDataBufferItem, GetFrameStatus, GetBufferItemFromUid, GetBufferItemFromBufferIndex,
      BufferIndexFromUid, exVideo]

end vtkPlusDataBuffer

namespace vtkPlusDataBuffer

open vtkTimestampedCircularBuffer

/-- On a ring with at least one slot, every `AddTimeStampedItem` call that returns
`PLUS_FAIL` leaves the ring unchanged: this overload issues no UID without a commit. -/
theorem AddTimeStampedItem_fail_keeps_ring (e : ExternalAcquisition K)
    (self : vtkPlusDataBuffer K) (matrix : Option (Matrix4x4 K)) (status : ToolStatus)
    (frameNumber : Int) (unfilteredTimestamp filteredTimestamp : K)
    (hcap : self.DataBuffer.items.length ≠ 0)
    (hfail : (self.AddTimeStampedItem e matrix status frameNumber unfilteredTimestamp
      filteredTimestamp).1 = PLUS_FAIL) :
    SameRing self (self.AddTimeStampedItem e matrix status frameNumber unfilteredTimestamp
      filteredTimestamp).2 := by
  unfold AddTimeStampedItem at hfail ⊢
  cases matrix with
  | none => exact ⟨rfl, rfl, rfl, rfl⟩
  | some matrix =>
    by_cases hundef : filteredTimestamp = e.UNDEFINED_TIMESTAMP
    · by_cases hok : (e.CreateFilteredTimeStampForItem self.DataBuffer.FilterWindow
          frameNumber unfilteredTimestamp).1 = PLUS_SUCCESS
      · cases hinv : (e.CreateFilteredTimeStampForItem self.DataBuffer.FilterWindow
            frameNumber unfilteredTimestamp).2.2.1 with
        | false =>
          simp only [hundef, hok, hinv, decide_True, if_true, true_and, not_true_eq_false,
            if_false, ne_eq]
          exact ⟨rfl, rfl, rfl, rfl⟩
        | true =>
          simp only [hundef, hok, hinv, decide_True, if_true, true_and, not_true_eq_false,
            if_false, ne_eq, Bool.true_eq_false] at hfail ⊢
          exact AddTimeStampedItemGuarded_fail_keeps_ring
            (self.WithDataBuffer { self.DataBuffer with FilterWindow :=
              (e.CreateFilteredTimeStampForItem self.DataBuffer.FilterWindow frameNumber
                unfilteredTimestamp).2.2.2 })
            matrix status frameNumber unfilteredTimestamp _ hcap hfail
      · simp only [hundef, hok, decide_True, if_true, true_and, not_false_eq_true, ne_eq]
        exact ⟨rfl, rfl, rfl, rfl⟩
    · simp only [hundef, decide_False, Bool.false_eq_true, if_false, false_and] at hfail ⊢
      exact AddTimeStampedItemGuarded_fail_keeps_ring self matrix status frameNumber
        unfilteredTimestamp filteredTimestamp hcap hfail

end vtkPlusDataBuffer

/-! ## Custom fields of a reused slot -/

namespace vtkPlusDataBuffer

open vtkTimestampedCircularBuffer

/-- The loop of lines 333-339 keeps every custom field of the slot whose key is not among
the keys passed in. -/
theorem SetCustomFrameField_loop_keeps (fields : List (String × String))
    (item : DataBufferItem K) (kv : String × String) (hmem : kv ∈ item.CustomFrameFields)
    (hkey : ∀ f ∈ fields, f.1 ≠ kv.1) :
    kv ∈ (fields.foldl (fun it f => it.SetCustomFrameField f.1 f.2) item).CustomFrameFields := by
  induction fields generalizing item with
  | nil => exact hmem
  | cons f rest ih =>
    simp only [List.foldl_cons]
    apply ih
    · simp only [DataBufferItem.SetCustomFrameField, List.mem_cons, List.mem_filter]
      right
      refine ⟨hmem, ?_⟩
      have hne := hkey f (List.mem_cons_self _ _)
      simpa using fun h => hne h.symm
    · exact fun g hg => hkey g (List.mem_cons_of_mem _ hg)

theorem exVideoFields_prepare :
    exVideoFields.DataBuffer.PrepareForNewItem (3 : ℚ)
      = (PLUS_SUCCESS,
         { exVideoFields.DataBuffer with nextUid := 3, oldestUid := 1, newestUid := 2 }, 2, 0) := by
  have hts : exVideoFields.DataBuffer.GetTimeStamp 1 = (ITEM_OK, 2) := by
    simp [GetTimeStamp, GetFrameStatus, GetBufferItemFromUid, GetBufferItemFromBufferIndex,
      BufferIndexFromUid, exVideoFields, exVideo, exFrameItem]
  have hnewest : exVideoFields.DataBuffer.newestUid = 1 := rfl
  have hcount : exVideoFields.DataBuffer.GetNumberOfItems = 2 := by
    simp [GetNumberOfItems, exVideoFields, exVideo]
  unfold PrepareForNewItem
  rw [hnewest, hts, hcount]
  norm_num [exVideoFields, exVideo, vtkTimestampedCircularBuffer.GetBufferSize,
    BufferIndexFromUid]

/-- C26 (evaluation at the failing input): in `exVideoFields` the slot of the frame
committed at 1.0 s carries the custom field `Old = 1`.  A successful `AddItem` at 3.0 s
with the custom field `New = 2` reuses that slot for UID 2; the committed item has the new
timestamp, index and UID and the custom fields `New = 2` and `Old = 1`.  With no custom
fields passed (NULL) the committed item keeps `Old = 1`. -/
theorem reused_slot_keeps_custom_fields :
    (exVideoFields.AddItem exAcquisition (some [9]) 1 (1, 1) 0 0 0 5 3 3
        (some [("New", "2")])).1 = PLUS_SUCCESS
    ∧ ((exVideoFields.AddItem exAcquisition (some [9]) 1 (1, 1) 0 0 0 5 3 3
        (some [("New", "2")])).2.GetDataBufferItem 2 (DataBufferItem.new ℚ)).1 = ITEM_OK
    ∧ ((exVideoFields.AddItem exAcquisition (some [9]) 1 (1, 1) 0 0 0 5 3 3
        (some [("New", "2")])).2.GetDataBufferItem 2 (DataBufferItem.new ℚ)).2.Uid = 2
    ∧ ((exVideoFields.AddItem exAcquisition (some [9]) 1 (1, 1) 0 0 0 5 3 3
        (some [("New", "2")])).2.GetDataBufferItem 2
          (DataBufferItem.new ℚ)).2.FilteredTimeStamp = 3
    ∧ ((exVideoFields.AddItem exAcquisition (some [9]) 1 (1, 1) 0 0 0 5 3 3
        (some [("New", "2")])).2.GetDataBufferItem 2
          (DataBufferItem.new ℚ)).2.CustomFrameFields = [("New", "2"), ("Old", "1")]
    ∧ (exVideoFields.AddItem exAcquisition (some [9]) 1 (1, 1) 0 0 0 5 3 3 none).1
        = PLUS_SUCCESS
    ∧ ((exVideoFields.AddItem exAcquisition (some [9]) 1 (1, 1) 0 0 0 5 3 3
        none).2.GetDataBufferItem 2 (DataBufferItem.new ℚ)).2.CustomFrameFields
        = [("Old", "1")] := by
  have hundef : ¬ ((3 : ℚ) = exAcquisition.UNDEFINED_TIMESTAMP) := by
    norm_num [exAcquisition]
  refine ⟨?_, ?_, ?_, ?_, ?_, ?_, ?_⟩ <;>
  · unfold AddItem
    simp only [hundef, if_false, decide_False, Bool.false_eq_true, false_and,
      exVideoFields_prepare]
    simp [CheckFrameFormat, exVideoFields, exVideo, WithDataBuffer, GetBufferItemFromBufferIndex,
      exFrameItem, exAcquisition, SetBufferItem, GetDataBufferItem, GetFrameStatus,
      GetBufferItemFromUid, BufferIndexFromUid, DataBufferItem.SetCustomFrameField]

end vtkPlusDataBuffer

/-! ## The descriptions of the recording commands -/

namespace vtkPlusStartStopRecordingCommand

/-- Whatever comparison stands behind `STRCASECMP`, a name it reports equal to `START_CMD`
(result 0) and different from the other three command names gets the descriptions of the
other three commands. -/
theorem GetDescription_of_start (STRCASECMP : String → String → Int) (name : String)
    (h1 : STRCASECMP name START_CMD = 0) (h2 : STRCASECMP name SUSPEND_CMD ≠ 0)
    (h3 : STRCASECMP name RESUME_CMD ≠ 0) (h4 : STRCASECMP name STOP_CMD ≠ 0) :
    GetDescription STRCASECMP (some name)
      = "" ++ SuspendDescription ++ ResumeDescription ++ StopDescription := by
  simp [GetDescription, h1, h2, h3, h4]

/-- C30 (evaluation at the failing input): `GetDescription("StartRecording")` returns the
descriptions of `SuspendRecording`, `ResumeRecording` and `StopRecording`, one after the
other, and not the description of `StartRecording`; likewise `GetDescription("StopRecording")`
returns the other three descriptions.  `GetDescription(NULL)` returns the four descriptions
in the order Start, Suspend, Resume, Stop. -/
theorem GetDescription_of_name_omits_that_command :
    exStrcasecmp START_CMD START_CMD = 0
    ∧ GetDescription exStrcasecmp (some START_CMD)
      = SuspendDescription ++ ResumeDescription ++ StopDescription
    ∧ GetDescription exStrcasecmp (some START_CMD) ≠ StartDescription
    ∧ GetDescription exStrcasecmp (some STOP_CMD)
      = StartDescription ++ SuspendDescription ++ ResumeDescription
    ∧ GetDescription exStrcasecmp none
      = StartDescription ++ SuspendDescription ++ ResumeDescription ++ StopDescription := by
  decide

end vtkPlusStartStopRecordingCommand

/-! ## The time lookup before the oldest item -/

namespace vtkPlusDataBuffer

open vtkTimestampedCircularBuffer

/-- Scenario A of spec section 8 in the model: after the item at 1.0 s is evicted, the time
lookup at 1.5 s fails with `ITEM_NOT_AVAILABLE_ANYMORE`, and the lookup at 2.0 s, the
timestamp of the oldest retained item, succeeds. -/
theorem exScenarioA_lookup :
    exScenarioA.DataBuffer.GetItemUidFromTime (3 / 2) = (ITEM_NOT_AVAILABLE_ANYMORE, 1)
    ∧ exScenarioA.DataBuffer.GetItemUidFromTime 2 = (ITEM_OK, 1) := by
  have huids : exScenarioA.DataBuffer.Uids = [1, 2, 3] := by
    simp [exScenarioA, exBuffer, Uids, GetNumberOfItems, List.range_succ]
  have ht1 : exScenarioA.DataBuffer.GetTimeStamp 1 = (ITEM_OK, 2) := by
    simp [GetTimeStamp, GetFrameStatus, GetBufferItemFromUid, GetBufferItemFromBufferIndex,
      BufferIndexFromUid, exScenarioA, exBuffer, exItem]
  have ht2 : exScenarioA.DataBuffer.GetTimeStamp 2 = (ITEM_OK, 3) := by
    simp [GetTimeStamp, GetFrameStatus, GetBufferItemFromUid, GetBufferItemFromBufferIndex,
      BufferIndexFromUid, exScenarioA, exBuffer, exItem]
  have ht3 : exScenarioA.DataBuffer.GetTimeStamp 3 = (ITEM_OK, 4) := by
    simp [GetTimeStamp, GetFrameStatus, GetBufferItemFromUid, GetBufferItemFromBufferIndex,
      BufferIndexFromUid, exScenarioA, exBuffer, exItem]
  have hold : exScenarioA.DataBuffer.oldestUid = 1 := rfl
  constructor
  · have h1 : ¬ |(3 : ℚ) - 3 / 2| < |2 - 3 / 2| := by norm_num [abs_lt, lt_abs]
    have h2 : ¬ |(4 : ℚ) - 3 / 2| < |2 - 3 / 2| := by norm_num [abs_lt, lt_abs]
    have h3 : (3 / 2 : ℚ) < 2 - NEGLIGIBLE_TIME_DIFFERENCE := by
      norm_num [NEGLIGIBLE_TIME_DIFFERENCE]
    simp only [GetItemUidFromTime, huids, List.foldl, CloserUid, ht1, ht2, ht3, h1, h2,
      if_false, hold, h3, and_self, if_true]
  · have h1 : ¬ |(3 : ℚ) - 2| < |2 - 2| := by norm_num
    have h2 : ¬ |(4 : ℚ) - 2| < |2 - 2| := by norm_num
    have h3 : ¬ ((2 : ℚ) < 2 - NEGLIGIBLE_TIME_DIFFERENCE) := by
      norm_num [NEGLIGIBLE_TIME_DIFFERENCE]
    simp only [GetItemUidFromTime, huids, List.foldl, CloserUid, ht1, ht2, ht3, h1, h2,
      if_false, hold, h3, and_false]

end vtkPlusDataBuffer

/-! ## Lookups on a ring with an uncommitted UID -/

namespace vtkPlusDataBuffer

open vtkTimestampedCircularBuffer

/-- The ring `exStale`: the window is `[1, 2]`, the slots are the ones of `exVideo`. -/
theorem exStale_eq :
    exStale = { exVideo with
      MaxAllowedTimeDifference := 2
      DataBuffer := { exVideo.DataBuffer with nextUid := 3, oldestUid := 1, newestUid := 2 } } := by
  have hnewest : exVideo.DataBuffer.newestUid = 1 := rfl
  have hcount : exVideo.DataBuffer.GetNumberOfItems = 2 := by
    simp [GetNumberOfItems, exVideo]
  have hprep : exVideo.DataBuffer.PrepareForNewItem (3 : ℚ)
      = (PLUS_SUCCESS,
         { exVideo.DataBuffer with nextUid := 3, oldestUid := 1, newestUid := 2 }, 2, 0) := by
    unfold PrepareForNewItem
    rw [hnewest, exVideo_ts1, hcount]
    norm_num [exVideo, vtkTimestampedCircularBuffer.GetBufferSize, BufferIndexFromUid]
  have hundef : ¬ ((3 : ℚ) = exAcquisitionStrict.UNDEFINED_TIMESTAMP) := by
    norm_num [exAcquisitionStrict, exAcquisition]
  unfold exStale AddItem
  simp only [hundef, if_false, decide_False, Bool.false_eq_true, false_and, hprep]
  simp [CheckFrameFormat, exVideo, WithDataBuffer, GetBufferItemFromBufferIndex, exFrameItem,
    exAcquisitionStrict]

theorem exStale_valid : exStale.DataBuffer.CountersValid := by
  rw [exStale_eq]
  simp [exVideo, CountersValid]

theorem exStale_uids : exStale.DataBuffer.Uids = [1, 2] := by
  rw [exStale_eq]
  simp [Uids, GetNumberOfItems, List.range_succ]

/-- UID 1 of `exStale` holds the frame committed at 2.0 s. -/
theorem exStale_item1 : exStale.DataBuffer.GetBufferItemFromUid 1 = some (exFrameItem 1 2 8) := by
  rw [exStale_eq]
  simp [exVideo, GetBufferItemFromUid, GetBufferItemFromBufferIndex, BufferIndexFromUid]

/-- UID 2 of `exStale` reads the slot that still holds the frame committed at 1.0 s under
UID 0. -/
theorem exStale_item2 : exStale.DataBuffer.GetBufferItemFromUid 2 = some (exFrameItem 0 1 7) := by
  rw [exStale_eq]
  simp [exVideo, GetBufferItemFromUid, GetBufferItemFromBufferIndex, BufferIndexFromUid]

theorem exStale_ts1 : exStale.DataBuffer.GetTimeStamp 1 = (ITEM_OK, 2) := by
  rw [GetTimeStamp_of_mem _ exStale_valid (by simp [exStale_uids]) exStale_item1]; rfl

theorem exStale_ts2 : exStale.DataBuffer.GetTimeStamp 2 = (ITEM_OK, 1) := by
  rw [GetTimeStamp_of_mem _ exStale_valid (by simp [exStale_uids]) exStale_item2]; rfl

/-- UID 0, the UID written in the stale item, is no longer in the window of `exStale`. -/
theorem exStale_ts0 : exStale.DataBuffer.GetTimeStamp 0 = (ITEM_NOT_AVAILABLE_ANYMORE, 0) := by
  rw [exStale_eq]
  simp [GetTimeStamp, GetFrameStatus]

/-- The time lookup in `exStale` finds UID 2 for every query before 1.5 s. -/
theorem exStale_closest (time : ℚ) (h : time < 3 / 2) :
    exStale.DataBuffer.GetItemUidFromTime time = (ITEM_OK, 2) := by
  have h1 : |(1 : ℚ) - time| < |2 - time| := by
    rw [abs_of_pos (by linarith : (0 : ℚ) < 2 - time)]
    rcases abs_cases ((1 : ℚ) - time) with ⟨e1, _⟩ | ⟨e1, _⟩ <;> rw [e1] <;> linarith
  have h3 : ¬ ((2 : Int) = exStale.DataBuffer.oldestUid
      ∧ time < 1 - NEGLIGIBLE_TIME_DIFFERENCE) := by
    rw [exStale_eq]
    norm_num
  simp only [GetItemUidFromTime, exStale_uids, List.foldl, CloserUid, exStale_ts1, exStale_ts2,
    h1, if_true, h3, if_false]

end vtkPlusDataBuffer

namespace vtkPlusDataBuffer

open vtkTimestampedCircularBuffer

/-- When the neighbour lookup succeeds with two items of distinct UIDs and the timestamp of
the UID written in item A cannot be read, the interpolated lookup returns
`ITEM_UNKNOWN_ERROR` and leaves the output item as it was (lines 1085-1090). -/
theorem GetInterpolated_timestamp_fail (m : ExternalMath K) (self : vtkPlusDataBuffer K)
    (time : K) (bufferItem A B : DataBufferItem K)
    (h : self.GetPrevNextBufferItemFromTime time (DataBufferItem.new K) (DataBufferItem.new K)
      = (PLUS_SUCCESS, A, B))
    (huid : A.Uid ≠ B.Uid)
    (htA : (self.DataBuffer.GetTimeStamp A.Uid).1 ≠ ITEM_OK) :
    self.GetInterpolatedDataBufferItemFromTime m time bufferItem
      = (ITEM_UNKNOWN_ERROR, bufferItem, false) := by
  unfold GetInterpolatedDataBufferItemFromTime
  simp [h, huid, htA]

/-- When the closest-time lookup succeeds with the stored item `A` and the timestamp of the
UID written in `A` cannot be read, `GetDataBufferItemFromExactTime` returns the status of
that read with `A` in the output (lines 1008-1015). -/
theorem GetDataBufferItemFromExactTime_uid_fail (self : vtkPlusDataBuffer K)
    (hv : self.DataBuffer.CountersValid) (time : K) (bufferItem A : DataBufferItem K)
    (hA : self.DataBuffer.GetBufferItemFromUid (self.DataBuffer.GetItemUidFromTime time).2 = some A)
    (hlook : (self.DataBuffer.GetItemUidFromTime time).1 = ITEM_OK)
    (hts : (self.DataBuffer.GetTimeStamp A.Uid).1 ≠ ITEM_OK) :
    self.GetDataBufferItemFromExactTime time bufferItem
      = ((self.DataBuffer.GetTimeStamp A.Uid).1, A) := by
  unfold GetDataBufferItemFromExactTime
  simp [self.GetDataBufferItemFromClosestTime_eq hv time bufferItem A hA hlook, hts]

/-- The interpolated lookup in `exThree` at 0 s, a second before the oldest item: the time
lookup fails and the output item is left as it was. -/
theorem exThree_interpolated_before_oldest (bufferItem : DataBufferItem ℚ) :
    exThree.GetInterpolatedDataBufferItemFromTime exMath 0 bufferItem
      = (ITEM_NOT_AVAILABLE_ANYMORE, bufferItem, false) := by
  have hc := exThree_before_oldest 0 (by norm_num)
  rw [GetInterpolated_lookup_fail exMath exThree 0 bufferItem (by rw [hc]; simp), hc]

/-- In `exStale` the exact-time lookup before 1.5 s copies the stale item of UID 2 and then
fails to read the timestamp of UID 0, the UID written in that item. -/
theorem exStale_exact (time : ℚ) (h : time < 3 / 2) (bufferItem : DataBufferItem ℚ) :
    exStale.GetDataBufferItemFromExactTime time bufferItem
      = (ITEM_NOT_AVAILABLE_ANYMORE, exFrameItem 0 1 7) := by
  have hc := exStale_closest time h
  have hA : exStale.DataBuffer.GetBufferItemFromUid
      (exStale.DataBuffer.GetItemUidFromTime time).2 = some (exFrameItem 0 1 7) := by
    rw [hc]; exact exStale_item2
  have hts : exStale.DataBuffer.GetTimeStamp (exFrameItem 0 1 7).Uid
      = (ITEM_NOT_AVAILABLE_ANYMORE, 0) := exStale_ts0
  rw [GetDataBufferItemFromExactTime_uid_fail exStale exStale_valid time bufferItem _ hA
    (by rw [hc]) (by rw [hts]; simp), hts]

/-- In `exStale` the neighbour lookup at 1.0 s takes the stale item of UID 2 as an exact
match. -/
theorem exStale_prevnext_exact (x y : DataBufferItem ℚ) :
    exStale.GetPrevNextBufferItemFromTime 1 x y
      = (PLUS_SUCCESS, exFrameItem 0 1 7, exFrameItem 0 1 7) := by
  have hc := exStale_closest 1 (by norm_num)
  have hA : exStale.DataBuffer.GetBufferItemFromUid
      (exStale.DataBuffer.GetItemUidFromTime 1).2 = some (exFrameItem 0 1 7) := by
    rw [hc]; exact exStale_item2
  obtain ⟨B, hB⟩ := exStale.DataBuffer.exists_item exStale_valid
    (NeighbourUid (exStale.DataBuffer.GetItemUidFromTime 1).2 (1 : ℚ)
      (exFrameItem 0 1 7).FilteredTimeStamp)
  rw [GetPrevNextBufferItemFromTime_eq exStale exStale_valid 1 x y _ B hA hB (by rw [hc])]
  norm_num [exFrameItem, DataBufferItem.new, NEGLIGIBLE_TIME_DIFFERENCE]

/-- In `exStale` the neighbour lookup at 0.9 s returns the stale item of UID 2 and the item
of UID 1. -/
theorem exStale_prevnext (x y : DataBufferItem ℚ) :
    exStale.GetPrevNextBufferItemFromTime (9 / 10) x y
      = (PLUS_SUCCESS, exFrameItem 0 1 7, exFrameItem 1 2 8) := by
  have hc := exStale_closest (9 / 10) (by norm_num)
  have hA : exStale.DataBuffer.GetBufferItemFromUid
      (exStale.DataBuffer.GetItemUidFromTime (9 / 10)).2 = some (exFrameItem 0 1 7) := by
    rw [hc]; exact exStale_item2
  have hN : NeighbourUid (exStale.DataBuffer.GetItemUidFromTime (9 / 10)).2 (9 / 10 : ℚ)
      (exFrameItem 0 1 7).FilteredTimeStamp = 1 := by
    rw [hc]; norm_num [NeighbourUid, exFrameItem]
  have hB : exStale.DataBuffer.GetBufferItemFromUid
      (NeighbourUid (exStale.DataBuffer.GetItemUidFromTime (9 / 10)).2 (9 / 10 : ℚ)
        (exFrameItem 0 1 7).FilteredTimeStamp) = some (exFrameItem 1 2 8) := by
    rw [hN]; exact exStale_item1
  rw [GetPrevNextBufferItemFromTime_eq exStale exStale_valid (9 / 10) x y _ _ hA hB
    (by rw [hc]), hN]
  rw [exStale_eq]
  norm_num [exFrameItem, DataBufferItem.new, exVideo, NEGLIGIBLE_TIME_DIFFERENCE, abs_lt, lt_abs]

end vtkPlusDataBuffer

namespace vtkPlusDataBuffer

open vtkTimestampedCircularBuffer

/-- The three stored items of `exThree` are more than 0.00001 s away from a query at 0 s. -/
theorem exThree_none_near_zero :
    ∀ u ∈ exThree.DataBuffer.Uids, ∀ X, exThree.DataBuffer.GetBufferItemFromUid u = some X →
      (NEGLIGIBLE_TIME_DIFFERENCE : ℚ) < |X.FilteredTimeStamp - 0| := by
  intro u hu X hX
  rw [exThree_uids] at hu
  simp only [List.mem_cons, List.mem_singleton, List.not_mem_nil, or_false] at hu
  rcases hu with h | h | h <;> subst h
  · rw [exThree_item0] at hX
    cases hX
    norm_num [exItem, NEGLIGIBLE_TIME_DIFFERENCE, lt_abs]
  · rw [exThree_item1] at hX
    cases hX
    norm_num [exItem, NEGLIGIBLE_TIME_DIFFERENCE, lt_abs]
  · rw [exThree_item2] at hX
    cases hX
    norm_num [exItem, NEGLIGIBLE_TIME_DIFFERENCE, lt_abs]

/-- Counterexample to C1 as stated.  In `exThree` the item closest to a query at 0 s is the
one at 1.0 s, not within 0.00001 s of the query, and the adjacent UID -1 is outside
`[oldest, latest]`; the claim promises that item with status `TOOL_MISSING`, but the time
lookup fails before the oldest item and the call returns `ITEM_NOT_AVAILABLE_ANYMORE` with
the output item untouched.  In `exStale`, the ring left by a failed `AddItem`, the
conditions of the claim all hold for a query at 0.9 s, yet the call returns
`ITEM_UNKNOWN_ERROR` with the output item untouched, so no interpolated pose is returned. -/
theorem interpolation_lookup_failure_counterexample :
    ((exThree.DataBuffer.GetItemUidFromTime 0).2 = 0
      ∧ exThree.DataBuffer.GetBufferItemFromUid 0 = some (exItem 0 1 TOOL_OK 10)
      ∧ ¬ |(exItem 0 1 TOOL_OK 10).FilteredTimeStamp - 0| < (NEGLIGIBLE_TIME_DIFFERENCE : ℚ)
      ∧ ¬ exThree.InterpolationPreconditions 0 0 (exItem 0 1 TOOL_OK 10)
            (exItem 2 (16 / 10) TOOL_OUT_OF_VIEW 30)
      ∧ exThree.GetInterpolatedDataBufferItemFromTime exMath 0 (DataBufferItem.new ℚ)
          = (ITEM_NOT_AVAILABLE_ANYMORE, DataBufferItem.new ℚ, false)
      ∧ (exThree.GetInterpolatedDataBufferItemFromTime exMath 0 (DataBufferItem.new ℚ)).2.1
          ≠ { exItem 0 1 TOOL_OK 10 with Status := TOOL_MISSING })
    ∧ ((exStale.DataBuffer.GetItemUidFromTime (9 / 10)).2 = 2
      ∧ exStale.DataBuffer.GetBufferItemFromUid 2 = some (exFrameItem 0 1 7)
      ∧ exStale.DataBuffer.GetBufferItemFromUid 1 = some (exFrameItem 1 2 8)
      ∧ ¬ |(exFrameItem 0 1 7).FilteredTimeStamp - 9 / 10| < (NEGLIGIBLE_TIME_DIFFERENCE : ℚ)
      ∧ exStale.InterpolationPreconditions (9 / 10) 2 (exFrameItem 0 1 7) (exFrameItem 1 2 8)
      ∧ exStale.GetInterpolatedDataBufferItemFromTime exMath (9 / 10) (DataBufferItem.new ℚ)
          = (ITEM_UNKNOWN_ERROR, DataBufferItem.new ℚ, false)
      ∧ ¬ CarriesInterpolatedPose exMath
          (exStale.GetInterpolatedDataBufferItemFromTime exMath (9 / 10)
            (DataBufferItem.new ℚ)).2.1 (exFrameItem 0 1 7) (exFrameItem 1 2 8) (9 / 10)) := by
  refine ⟨⟨exThree_closest_0_uid 0 (by norm_num), exThree_item0, ?_, ?_,
    exThree_interpolated_before_oldest _, ?_⟩, ?_⟩
  · norm_num [exItem, NEGLIGIBLE_TIME_DIFFERENCE, abs_lt]
  · intro hpre
    have hlo := hpre.1.1
    norm_num [GetOldestItemUidInBuffer, vtkTimestampedCircularBuffer.GetOldestItemUidInBuffer,
      NeighbourUid, exItem, exThree, exBuffer] at hlo
  · rw [exThree_interpolated_before_oldest]
    intro heq
    have hts := congrArg DataBufferItem.FilteredTimeStamp heq
    simp [exItem, DataBufferItem.new] at hts
  · have hc := exStale_closest (9 / 10) (by norm_num)
    have hts : exStale.DataBuffer.GetTimeStamp (exFrameItem 0 1 7).Uid
        = (ITEM_NOT_AVAILABLE_ANYMORE, 0) := exStale_ts0
    have hres := GetInterpolated_timestamp_fail exMath exStale (9 / 10) (DataBufferItem.new ℚ)
      _ _ (exStale_prevnext _ _) (by simp [exFrameItem]) (by rw [hts]; simp)
    refine ⟨by rw [hc], exStale_item2, exStale_item1, ?_, ?_, hres, ?_⟩
    · norm_num [exFrameItem, NEGLIGIBLE_TIME_DIFFERENCE, abs_lt]
    · unfold InterpolationPreconditions
      rw [exStale_eq]
      norm_num [exFrameItem, DataBufferItem.new, exVideo, NeighbourUid, GetOldestItemUidInBuffer,
        GetLatestItemUidInBuffer, vtkTimestampedCircularBuffer.GetOldestItemUidInBuffer,
        vtkTimestampedCircularBuffer.GetLatestItemUidInBuffer, abs_le]
    · rw [hres]
      intro hpose
      have ht := hpose.1
      norm_num [DataBufferItem.new] at ht

/-- Counterexample to C2 as stated: `exThree` holds three items and
`GetPrevNextBufferItemFromTime` fails for a query at 0 s, yet
`GetInterpolatedDataBufferItemFromTime` does not return `ITEM_OK` with the closest item
flagged `TOOL_MISSING`: the time lookup fails a second before the oldest item and the call
returns `ITEM_NOT_AVAILABLE_ANYMORE` with the output item untouched. -/
theorem fallback_before_oldest_counterexample :
    exThree.DataBuffer.Uids = [0, 1, 2]
    ∧ (exThree.GetPrevNextBufferItemFromTime 0 (DataBufferItem.new ℚ)
        (DataBufferItem.new ℚ)).1 ≠ PLUS_SUCCESS
    ∧ (∀ u ∈ exThree.DataBuffer.Uids, ∀ X, exThree.DataBuffer.GetBufferItemFromUid u = some X →
        |(exItem 0 1 TOOL_OK 10).FilteredTimeStamp - 0| ≤ |X.FilteredTimeStamp - 0|)
    ∧ (exThree.GetInterpolatedDataBufferItemFromTime exMath 0 (DataBufferItem.new ℚ)).1 ≠ ITEM_OK
    ∧ (exThree.GetInterpolatedDataBufferItemFromTime exMath 0 (DataBufferItem.new ℚ)).2.1
        = DataBufferItem.new ℚ
    ∧ (exThree.GetInterpolatedDataBufferItemFromTime exMath 0 (DataBufferItem.new ℚ)).2.1
        ≠ { exItem 0 1 TOOL_OK 10 with Status := TOOL_MISSING } := by
  have hc := exThree_before_oldest 0 (by norm_num)
  refine ⟨exThree_uids, ?_, ?_, ?_, ?_, ?_⟩
  · rw [GetPrevNextBufferItemFromTime_fail exThree 0 _ _ (by rw [hc]; simp)]
    simp
  · intro u hu X hX
    rw [exThree_uids] at hu
    simp only [List.mem_cons, List.mem_singleton, List.not_mem_nil, or_false] at hu
    rcases hu with h | h | h <;> subst h
    · rw [exThree_item0] at hX
      cases hX
      norm_num [exItem]
    · rw [exThree_item1] at hX
      cases hX
      norm_num [exItem, abs_of_nonneg]
    · rw [exThree_item2] at hX
      cases hX
      norm_num [exItem, abs_of_nonneg]
  · rw [exThree_interpolated_before_oldest]
    simp
  · rw [exThree_interpolated_before_oldest]
  · rw [exThree_interpolated_before_oldest]
    intro heq
    have hts := congrArg DataBufferItem.FilteredTimeStamp heq
    simp [exItem, DataBufferItem.new] at hts

/-- C8 (evaluation at the failing input): `exStale` is the full ring of capacity 2 with
frames at 1.0 s and 2.0 s after a raw-pointer `AddItem` call at 3.0 s returned `PLUS_FAIL`
with its UID already issued.  UID 2 of the window reads the frame stored at 1.0 s, exactly
the query time, so a stored item lies within 0.00001 s of the query; yet
`GetDataBufferItemFromExactTime` at 1.0 s fails with `ITEM_NOT_AVAILABLE_ANYMORE`, because
it reads the timestamp again under UID 0, the UID written in the copied item, which has
left the window. -/
theorem exact_time_fails_on_uncommitted_uid :
    (vtkPlusDataBuffer.AddItem exAcquisitionStrict
        { exVideo with MaxAllowedTimeDifference := 2 } (some [9]) 0 (1, 1) 0 0 0 5 3 3 none).1
      = PLUS_FAIL
    ∧ exStale.DataBuffer.Uids = [1, 2]
    ∧ exStale.DataBuffer.GetBufferItemFromUid 2 = some (exFrameItem 0 1 7)
    ∧ |(exFrameItem 0 1 7).FilteredTimeStamp - 1| < (NEGLIGIBLE_TIME_DIFFERENCE : ℚ)
    ∧ (exFrameItem 0 1 7).Uid = 0
    ∧ exStale.DataBuffer.GetTimeStamp 0 = (ITEM_NOT_AVAILABLE_ANYMORE, 0)
    ∧ exStale.GetDataBufferItemFromExactTime 1 (DataBufferItem.new ℚ)
        = (ITEM_NOT_AVAILABLE_ANYMORE, exFrameItem 0 1 7)
    ∧ (exStale.GetDataBufferItemFromExactTime 1 (DataBufferItem.new ℚ)).1 ≠ ITEM_OK := by
  have hex := exStale_exact 1 (by norm_num) (DataBufferItem.new ℚ)
  refine ⟨?_, exStale_uids, exStale_item2, ?_, rfl, exStale_ts0, hex, by rw [hex]; simp⟩
  · have hundef : ¬ ((3 : ℚ) = exAcquisitionStrict.UNDEFINED_TIMESTAMP) := by
      norm_num [exAcquisitionStrict, exAcquisition]
    have hcount : exVideo.DataBuffer.GetNumberOfItems = 2 := by
      simp [GetNumberOfItems, exVideo]
    have hnewest : exVideo.DataBuffer.newestUid = 1 := rfl
    have hprep : exVideo.DataBuffer.PrepareForNewItem (3 : ℚ)
        = (PLUS_SUCCESS,
           { exVideo.DataBuffer with nextUid := 3, oldestUid := 1, newestUid := 2 }, 2, 0) := by
      unfold PrepareForNewItem
      rw [hnewest, exVideo_ts1, hcount]
      norm_num [exVideo, vtkTimestampedCircularBuffer.GetBufferSize, BufferIndexFromUid]
    unfold AddItem
    simp only [hundef, if_false, decide_False, Bool.false_eq_true, false_and, hprep]
    simp [CheckFrameFormat, exVideo, WithDataBuffer, GetBufferItemFromBufferIndex, exFrameItem,
      exAcquisitionStrict]
  · norm_num [exFrameItem, NEGLIGIBLE_TIME_DIFFERENCE]

end vtkPlusDataBuffer

namespace vtkPlusDataBuffer

open vtkTimestampedCircularBuffer

/-- Counterexample to C9 as stated.  In `exOutOfView` the exact-time lookup at 1.0 s
succeeds, while the interpolated lookup does not take its exact-match path (the closest
item is not `TOOL_OK`) and returns an item that differs from the one of the exact-time
lookup.  In `exStale`, the ring left by a failed `AddItem`, it is the other way round: the
interpolated lookup at 1.0 s takes its exact-match path and the exact-time lookup fails. -/
theorem exact_lookup_not_only_exact_path_counterexample :
    ((exOutOfView.GetDataBufferItemFromExactTime 1 (DataBufferItem.new ℚ)).1 = ITEM_OK
      ∧ ¬ exOutOfView.TakesExactMatchPath 1
      ∧ (exOutOfView.GetInterpolatedDataBufferItemFromTime exMath 1 (DataBufferItem.new ℚ)).2.1
          ≠ (exOutOfView.GetDataBufferItemFromExactTime 1 (DataBufferItem.new ℚ)).2)
    ∧ (exStale.TakesExactMatchPath 1
      ∧ (exStale.GetDataBufferItemFromExactTime 1 (DataBufferItem.new ℚ)).1 ≠ ITEM_OK) := by
  have hA : exOutOfView.DataBuffer.GetBufferItemFromUid
      (exOutOfView.DataBuffer.GetItemUidFromTime 1).2 = some (exItem 0 1 TOOL_OUT_OF_VIEW 10) := by
    rw [exOutOfView_closest]; exact exOutOfView_item0
  have hlook : (exOutOfView.DataBuffer.GetItemUidFromTime 1).1 = ITEM_OK := by
    rw [exOutOfView_closest]
  have hB : exOutOfView.DataBuffer.GetBufferItemFromUid
      (NeighbourUid (exOutOfView.DataBuffer.GetItemUidFromTime 1).2 (1 : ℚ)
        (exItem 0 1 TOOL_OUT_OF_VIEW 10).FilteredTimeStamp)
      = some (exItem 0 1 TOOL_OUT_OF_VIEW 10) := by
    rw [exOutOfView_closest]
    simp [exOutOfView, exBuffer, GetBufferItemFromUid, GetBufferItemFromBufferIndex,
      BufferIndexFromUid]
  have hpn := GetPrevNextBufferItemFromTime_eq exOutOfView exOutOfView_valid 1
    (DataBufferItem.new ℚ) (DataBufferItem.new ℚ) _ _ hA hB hlook
  have hfail : (exOutOfView.GetPrevNextBufferItemFromTime 1 (DataBufferItem.new ℚ)
      (DataBufferItem.new ℚ)).1 ≠ PLUS_SUCCESS := by
    rw [hpn]; simp [exItem]
  have hex := GetDataBufferItemFromExactTime_eq exOutOfView exOutOfView_valid exOutOfView_stored 1
    (DataBufferItem.new ℚ) _ hA hlook
  have hnear : ¬ |(exItem 0 1 TOOL_OUT_OF_VIEW 10).FilteredTimeStamp - 1|
      > (NEGLIGIBLE_TIME_DIFFERENCE : ℚ) := by
    norm_num [exItem, NEGLIGIBLE_TIME_DIFFERENCE]
  rw [if_neg hnear] at hex
  refine ⟨⟨by rw [hex], fun hpath => hfail hpath.1, ?_⟩, ?_, ?_⟩
  · rw [hex, GetInterpolated_fallback exMath exOutOfView exOutOfView_valid 1
      (DataBufferItem.new ℚ) _ hA hlook hfail]
    intro heq
    have hst := congrArg DataBufferItem.Status heq
    simp [exItem] at hst
  · unfold TakesExactMatchPath
    rw [exStale_prevnext_exact]
    exact ⟨rfl, rfl⟩
  · rw [exStale_exact 1 (by norm_num)]
    simp

/-- C9 (amended): on a ring that holds an item and stores every UID of its window in its
slot, with `A` the stored closest item.  If the interpolated lookup takes its exact-match
path then `A` is `TOOL_OK`, the exact-time lookup succeeds and both lookups return `A`,
field for field; conversely, if `A` is `TOOL_OK` and less than 0.00001 s from the query,
the interpolated lookup takes its exact-match path and the exact-time lookup succeeds.  If
`A` is not `TOOL_OK` and at most 0.00001 s from the query, the exact-time lookup succeeds
with `A`, while the interpolated lookup does not take its exact-match path and returns
`A` with status `TOOL_MISSING`. -/
theorem exact_match_path_agrees_with_exact_lookup (m : ExternalMath K)
    (self : vtkPlusDataBuffer K) (hv : self.DataBuffer.CountersValid)
    (hs : self.DataBuffer.UidsStored) (time : K) (bufferItem A : DataBufferItem K)
    (hA : self.DataBuffer.GetBufferItemFromUid (self.DataBuffer.GetItemUidFromTime time).2 = some A) :
    (self.TakesExactMatchPath time →
        A.Status = TOOL_OK
        ∧ self.GetDataBufferItemFromExactTime time bufferItem = (ITEM_OK, A)
        ∧ self.GetInterpolatedDataBufferItemFromTime m time bufferItem = (ITEM_OK, A, false))
    ∧ (A.Status = TOOL_OK → |A.FilteredTimeStamp - time| < NEGLIGIBLE_TIME_DIFFERENCE →
        self.TakesExactMatchPath time
        ∧ self.GetDataBufferItemFromExactTime time bufferItem = (ITEM_OK, A))
    ∧ (A.Status ≠ TOOL_OK → |A.FilteredTimeStamp - time| ≤ NEGLIGIBLE_TIME_DIFFERENCE →
        self.GetDataBufferItemFromExactTime time bufferItem = (ITEM_OK, A)
        ∧ ¬ self.TakesExactMatchPath time
        ∧ self.GetInterpolatedDataBufferItemFromTime m time bufferItem
            = (ITEM_OK, { A with Status := TOOL_MISSING }, false)) := by
  obtain ⟨B, hB⟩ := self.DataBuffer.exists_item hv
    (NeighbourUid (self.DataBuffer.GetItemUidFromTime time).2 time A.FilteredTimeStamp)
  have hmemA := self.DataBuffer.GetItemUidFromTime_mem hv time
  have hlook_of_near : |A.FilteredTimeStamp - time| ≤ NEGLIGIBLE_TIME_DIFFERENCE →
      (self.DataBuffer.GetItemUidFromTime time).1 = ITEM_OK := by
    intro hle
    exact self.GetItemUidFromTime_ok_of_item hv time A hA
      (not_lt.2 (by linarith [(abs_le.1 hle).2]))
  have hexact_of_near : |A.FilteredTimeStamp - time| ≤ NEGLIGIBLE_TIME_DIFFERENCE →
      self.GetDataBufferItemFromExactTime time bufferItem = (ITEM_OK, A) := by
    intro hle
    rw [self.GetDataBufferItemFromExactTime_eq hv hs time bufferItem A hA (hlook_of_near hle),
      if_neg (not_lt.2 hle)]
  refine ⟨?_, ?_, ?_⟩
  · intro hpath
    have hlook : (self.DataBuffer.GetItemUidFromTime time).1 = ITEM_OK := by
      by_contra hne
      have hfail := self.GetPrevNextBufferItemFromTime_fail time (DataBufferItem.new K)
        (DataBufferItem.new K) hne
      have h1 := hpath.1
      rw [hfail] at h1
      simp at h1
    have hpn := self.GetPrevNextBufferItemFromTime_eq hv time (DataBufferItem.new K)
      (DataBufferItem.new K) A B hA hB hlook
    unfold TakesExactMatchPath at hpath
    rw [hpn] at hpath
    split_ifs at hpath with h1 h2 h3 h4 h5 h6
    · simp at hpath
    · refine ⟨not_not.1 h1, hexact_of_near (le_of_lt h2), ?_⟩
      apply self.GetInterpolated_exact m time bufferItem A
      rw [hpn]
      simp [h1, h2]
    · simp at hpath
    · simp at hpath
    · simp at hpath
    · simp at hpath
    · exfalso
      push_neg at h4
      have hmemB := (self.DataBuffer.mem_Uids_iff hv _).2 ⟨h4.1, h4.2⟩
      have hAuid := stored_uid self.DataBuffer hs hmemA hA
      have hBuid := stored_uid self.DataBuffer hs hmemB hB
      have huid := hpath.2
      simp only at huid
      rw [hAuid, hBuid] at huid
      unfold NeighbourUid at huid
      split_ifs at huid <;> omega
  · intro hok hnear
    have hpn := self.GetPrevNextBufferItemFromTime_eq hv time (DataBufferItem.new K)
      (DataBufferItem.new K) A B hA hB (hlook_of_near (le_of_lt hnear))
    refine ⟨?_, hexact_of_near (le_of_lt hnear)⟩
    unfold TakesExactMatchPath
    rw [hpn]
    simp [hok, hnear]
  · intro hnot hle
    have hlook := hlook_of_near hle
    have hpn := self.GetPrevNextBufferItemFromTime_eq hv time (DataBufferItem.new K)
      (DataBufferItem.new K) A B hA hB hlook
    have hfail : (self.GetPrevNextBufferItemFromTime time (DataBufferItem.new K)
        (DataBufferItem.new K)).1 ≠ PLUS_SUCCESS := by
      rw [hpn]
      simp [hnot]
    exact ⟨hexact_of_near hle, fun hpath => hfail hpath.1,
      self.GetInterpolated_fallback m hv time bufferItem A hA hlook hfail⟩

/-- Witness for C9 (amended): in `exThree` the interpolated lookup at 1.0 s takes its
exact-match path and the exact-time lookup returns the item stored at 1.0 s. -/
theorem exact_match_path_agrees_with_exact_lookup_witness :
    exThree.TakesExactMatchPath 1
    ∧ exThree.GetDataBufferItemFromExactTime 1 (DataBufferItem.new ℚ)
        = (ITEM_OK, exItem 0 1 TOOL_OK 10) := by
  have hA : exThree.DataBuffer.GetBufferItemFromUid
      (exThree.DataBuffer.GetItemUidFromTime 1).2 = some (exItem 0 1 TOOL_OK 10) := by
    rw [exThree_closest_0 1 (by norm_num) (by norm_num)]; exact exThree_item0
  exact (exact_match_path_agrees_with_exact_lookup exMath exThree exThree_valid exThree_stored 1
    (DataBufferItem.new ℚ) _ hA).2.1 rfl (by norm_num [exItem, NEGLIGIBLE_TIME_DIFFERENCE])

/-- Counterexample to C29 as stated.  `exThree` holds three items, none within 0.00001 s of a
query at 0 s; the claim promises `ITEM_UNKNOWN_ERROR` with the closest item copied to the
output, but the time lookup fails a second before the oldest item and the call returns
`ITEM_NOT_AVAILABLE_ANYMORE` with the output item untouched.  In `exStale`, the ring left
by a failed `AddItem`, no item is within 0.00001 s of a query at 0.9 s and the output is
overwritten, but the status is `ITEM_NOT_AVAILABLE_ANYMORE`. -/
theorem exact_time_failure_status_counterexample :
    ((∀ u ∈ exThree.DataBuffer.Uids, ∀ X, exThree.DataBuffer.GetBufferItemFromUid u = some X →
        (NEGLIGIBLE_TIME_DIFFERENCE : ℚ) < |X.FilteredTimeStamp - 0|)
      ∧ exThree.GetDataBufferItemFromExactTime 0 (DataBufferItem.new ℚ)
          = (ITEM_NOT_AVAILABLE_ANYMORE, DataBufferItem.new ℚ)
      ∧ (exThree.GetDataBufferItemFromExactTime 0 (DataBufferItem.new ℚ)).1 ≠ ITEM_UNKNOWN_ERROR)
    ∧ ((∀ u ∈ exStale.DataBuffer.Uids, ∀ X, exStale.DataBuffer.GetBufferItemFromUid u = some X →
        (NEGLIGIBLE_TIME_DIFFERENCE : ℚ) < |X.FilteredTimeStamp - 9 / 10|)
      ∧ exStale.GetDataBufferItemFromExactTime (9 / 10) (DataBufferItem.new ℚ)
          = (ITEM_NOT_AVAILABLE_ANYMORE, exFrameItem 0 1 7)
      ∧ (exStale.GetDataBufferItemFromExactTime (9 / 10) (DataBufferItem.new ℚ)).1
          ≠ ITEM_UNKNOWN_ERROR) := by
  have hc := exThree_before_oldest 0 (by norm_num)
  have hex : exThree.GetDataBufferItemFromExactTime 0 (DataBufferItem.new ℚ)
      = (ITEM_NOT_AVAILABLE_ANYMORE, DataBufferItem.new ℚ) := by
    rw [GetDataBufferItemFromExactTime_fail exThree 0 _ (by rw [hc]; simp), hc]
  have hst := exStale_exact (9 / 10) (by norm_num) (DataBufferItem.new ℚ)
  refine ⟨⟨exThree_none_near_zero, hex, by rw [hex]; simp⟩, ?_, hst, by rw [hst]; simp⟩
  intro u hu X hX
  rw [exStale_uids] at hu
  simp only [List.mem_cons, List.mem_singleton, List.not_mem_nil, or_false] at hu
  rcases hu with h | h <;> subst h
  · rw [exStale_item1] at hX
    cases hX
    norm_num [exFrameItem, NEGLIGIBLE_TIME_DIFFERENCE, lt_abs]
  · rw [exStale_item2] at hX
    cases hX
    norm_num [exFrameItem, NEGLIGIBLE_TIME_DIFFERENCE, lt_abs]

/-- C29 (amended): on a ring that holds an item and stores every UID of its window in its
slot, when no stored item has a timestamp within 0.00001 s of the query: if the time
lookup succeeds, `GetDataBufferItemFromExactTime` returns `ITEM_UNKNOWN_ERROR` and the
output item, whatever it held before, is the stored item `A` closest to the query; if the
time lookup fails, the query lies more than 0.00001 s before `A`, the call returns
`ITEM_NOT_AVAILABLE_ANYMORE` and the output item is left as it was. -/
theorem exact_time_failure_overwrites_output (self : vtkPlusDataBuffer K)
    (hv : self.DataBuffer.CountersValid) (hs : self.DataBuffer.UidsStored) (time : K)
    (bufferItem A : DataBufferItem K)
    (hA : self.DataBuffer.GetBufferItemFromUid (self.DataBuffer.GetItemUidFromTime time).2 = some A)
    (hnone : ∀ u ∈ self.DataBuffer.Uids, ∀ X, self.DataBuffer.GetBufferItemFromUid u = some X →
      (1 : K) / 100000 < |X.FilteredTimeStamp - time|) :
    ((self.DataBuffer.GetItemUidFromTime time).1 = ITEM_OK →
        self.GetDataBufferItemFromExactTime time bufferItem = (ITEM_UNKNOWN_ERROR, A))
    ∧ ((self.DataBuffer.GetItemUidFromTime time).1 ≠ ITEM_OK →
        time < A.FilteredTimeStamp - NEGLIGIBLE_TIME_DIFFERENCE
        ∧ self.GetDataBufferItemFromExactTime time bufferItem
            = (ITEM_NOT_AVAILABLE_ANYMORE, bufferItem))
    ∧ (∀ u ∈ self.DataBuffer.Uids, ∀ X, self.DataBuffer.GetBufferItemFromUid u = some X →
        |A.FilteredTimeStamp - time| ≤ |X.FilteredTimeStamp - time|) := by
  have hmem := self.DataBuffer.GetItemUidFromTime_mem hv time
  have hfar : |A.FilteredTimeStamp - time| > NEGLIGIBLE_TIME_DIFFERENCE := by
    simpa [NEGLIGIBLE_TIME_DIFFERENCE] using hnone _ hmem A hA
  refine ⟨?_, ?_, ?_⟩
  · intro hlook
    rw [self.GetDataBufferItemFromExactTime_eq hv hs time bufferItem A hA hlook, if_pos hfar]
  · intro hlook
    have hf := self.GetItemUidFromTime_fail_of_item hv time A hA hlook
    refine ⟨hf.2, ?_⟩
    rw [self.GetDataBufferItemFromExactTime_fail time bufferItem hlook, hf.1]
  · intro u hu X hX
    have h := self.DataBuffer.GetItemUidFromTime_closest hv time u hu
    rw [self.DataBuffer.GetTimeStamp_of_mem hv hmem hA,
      self.DataBuffer.GetTimeStamp_of_mem hv hu hX] at h
    exact h

/-- Witness for C29 (amended): the exact-time lookup in `exThree` at 1.1 s, between the
items at 1.0 s and 1.3 s, fails with `ITEM_UNKNOWN_ERROR` and leaves the item stored at
1.0 s in the output, which held a fresh item before. -/
theorem exact_time_failure_overwrites_output_witness :
    exThree.GetDataBufferItemFromExactTime (11 / 10) (DataBufferItem.new ℚ)
      = (ITEM_UNKNOWN_ERROR, exItem 0 1 TOOL_OK 10)
    ∧ exItem 0 1 TOOL_OK 10 ≠ DataBufferItem.new ℚ := by
  have hc := exThree_closest_0 (11 / 10) (by norm_num) (by norm_num)
  have hA : exThree.DataBuffer.GetBufferItemFromUid
      (exThree.DataBuffer.GetItemUidFromTime (11 / 10)).2 = some (exItem 0 1 TOOL_OK 10) := by
    rw [hc]; exact exThree_item0
  refine ⟨(exact_time_failure_overwrites_output exThree exThree_valid exThree_stored (11 / 10)
    (DataBufferItem.new ℚ) _ hA ?_).1 (by rw [hc]), ?_⟩
  · intro u hu X hX
    rw [exThree_uids] at hu
    simp only [List.mem_cons, List.mem_singleton, List.not_mem_nil, or_false] at hu
    rcases hu with h | h | h <;> subst h
    · rw [exThree_item0] at hX
      cases hX
      norm_num [exItem, lt_abs]
    · rw [exThree_item1] at hX
      cases hX
      norm_num [exItem, lt_abs]
    · rw [exThree_item2] at hX
      cases hX
      norm_num [exItem, lt_abs]
  · intro heq
    have hts := congrArg DataBufferItem.FilteredTimeStamp heq
    simp [exItem, DataBufferItem.new] at hts

end vtkPlusDataBuffer

/-! ## The shorter arc -/

namespace vtkPlusDataBuffer

open vtkTimestampedCircularBuffer

theorem exTurn_valid : exTurn.DataBuffer.CountersValid := by
  simp [exTurn, exBuffer, CountersValid]

theorem exTurn_uids : exTurn.DataBuffer.Uids = [0, 1] := by
  simp [exTurn, exBuffer, Uids, GetNumberOfItems, List.range_succ]

theorem exTurn_item0 :
    exTurn.DataBuffer.GetBufferItemFromUid 0 = some (exItem 0 1 TOOL_OK 10) := by
  simp [exTurn, exBuffer, GetBufferItemFromUid, GetBufferItemFromBufferIndex, BufferIndexFromUid]

theorem exTurn_item1 :
    exTurn.DataBuffer.GetBufferItemFromUid 1 = some (exItemTurned 1 (13 / 10) 20) := by
  simp [exTurn, exBuffer, GetBufferItemFromUid, GetBufferItemFromBufferIndex, BufferIndexFromUid]

theorem exTurn_ts0 : exTurn.DataBuffer.GetTimeStamp 0 = (ITEM_OK, 1) := by
  rw [GetTimeStamp_of_mem _ exTurn_valid (by simp [exTurn_uids]) exTurn_item0]; rfl

theorem exTurn_ts1 : exTurn.DataBuffer.GetTimeStamp 1 = (ITEM_OK, 13 / 10) := by
  rw [GetTimeStamp_of_mem _ exTurn_valid (by simp [exTurn_uids]) exTurn_item1]; rfl

theorem exTurn_closest : exTurn.DataBuffer.GetItemUidFromTime (11 / 10) = (ITEM_OK, 0) := by
  have h1 : ¬ |(13 : ℚ) / 10 - 11 / 10| < |1 - 11 / 10| := by norm_num [abs_lt, lt_abs]
  have h3 : ¬ ((0 : Int) = exTurn.DataBuffer.oldestUid
      ∧ (11 / 10 : ℚ) < 1 - NEGLIGIBLE_TIME_DIFFERENCE) := by
    norm_num [NEGLIGIBLE_TIME_DIFFERENCE]
  simp only [GetItemUidFromTime, exTurn_uids, List.foldl, CloserUid, exTurn_ts0, exTurn_ts1,
    h1, if_false, h3]

/-- In `exTurn` the neighbour lookup at 1.1 s returns the items at 1.0 s and 1.3 s. -/
theorem exTurn_prevnext (x y : DataBufferItem ℚ) :
    exTurn.GetPrevNextBufferItemFromTime (11 / 10) x y
      = (PLUS_SUCCESS, exItem 0 1 TOOL_OK 10, exItemTurned 1 (13 / 10) 20) := by
  have hc := exTurn_closest
  have hA : exTurn.DataBuffer.GetBufferItemFromUid
      (exTurn.DataBuffer.GetItemUidFromTime (11 / 10)).2 = some (exItem 0 1 TOOL_OK 10) := by
    rw [hc]; exact exTurn_item0
  have hN : NeighbourUid (exTurn.DataBuffer.GetItemUidFromTime (11 / 10)).2 (11 / 10 : ℚ)
      (exItem 0 1 TOOL_OK 10).FilteredTimeStamp = 1 := by
    rw [hc]; norm_num [NeighbourUid, exItem]
  have hB : exTurn.DataBuffer.GetBufferItemFromUid
      (NeighbourUid (exTurn.DataBuffer.GetItemUidFromTime (11 / 10)).2 (11 / 10 : ℚ)
        (exItem 0 1 TOOL_OK 10).FilteredTimeStamp) = some (exItemTurned 1 (13 / 10) 20) := by
    rw [hN]; exact exTurn_item1
  rw [GetPrevNextBufferItemFromTime_eq exTurn exTurn_valid (11 / 10) x y _ _ hA hB
    (by rw [hc]), hN]
  norm_num [exItem, exItemTurned, exTurn, exBuffer, NEGLIGIBLE_TIME_DIFFERENCE, abs_lt, lt_abs]

/-- The quaternions that `exMathArc` assigns to the two items of `exTurn`. -/
theorem exMathArc_quaternions :
    exMathArc.Matrix3x3ToQuaternion (RotationPart (exItem 0 1 TOOL_OK 10).Matrix)
      = ![1, 0, 0, 0]
    ∧ exMathArc.Matrix3x3ToQuaternion (RotationPart (exItemTurned 1 (13 / 10) 20).Matrix)
      = ![-3 / 5, 4 / 5, 0, 0] := by
  constructor
  · simp [exMathArc, RotationPart, exItem]
  · have h : ¬ ((-7 : ℚ) / 25 = 1) := by norm_num
    simp [exMathArc, RotationPart, exItemTurned, h]

/-- With the stand-ins of `exMathArc`, `Slerp` from (1, 0, 0, 0) towards (-3/5, 4/5, 0, 0)
with sign adjustment and parameter 1/3 moves towards (3/5, -4/5, 0, 0). -/
theorem exMathArc_slerp :
    PlusMath.Slerp exMathArc.acos exMathArc.sin (1 / 3) ![1, 0, 0, 0] ![-3 / 5, 4 / 5, 0, 0] true
      = ![13 / 15, -4 / 15, 0, 0] := by
  funext i
  have hdot : PlusMath.Dot (![1, 0, 0, 0] : Quaternion ℚ) ![-3 / 5, 4 / 5, 0, 0] = -3 / 5 := by
    simp [PlusMath.Dot]
  rw [PlusMath.Slerp_adjusted, hdot]
  have habs : |(-3 : ℚ) / 5| = 3 / 5 := by norm_num [abs_of_neg]
  rw [habs, PlusMath.SlerpCoefficients_trig _ _ _ _ (by norm_num)]
  fin_cases i <;> norm_num [exMathArc, exMath]

end vtkPlusDataBuffer

namespace PlusMath

/-- Over the reals, on the trigonometric branch and for unit quaternions, the result of
`Slerp` with sign adjustment lies on the arc from `from` to the sign-adjusted `to`: its dot
product with `from` is `cos (t * omega)` and its dot product with the sign-adjusted `to`
is `cos ((1 - t) * omega)`, where `omega = acos |dot(from, to)|`. -/
theorem Slerp_on_arc (p q : Quaternion ℝ) (hp : Dot p p = 1) (hq : Dot q q = 1)
    (hbranch : (1 : ℝ) - |Dot p q| > 1 / 10000) (t : ℝ) :
    Dot p (Slerp Real.arccos Real.sin t p q true) = Real.cos (t * Real.arccos |Dot p q|)
    ∧ Dot (Slerp Real.arccos Real.sin t p q true)
        (fun j => if Dot p q < 0 then -q j else q j)
      = Real.cos ((1 - t) * Real.arccos |Dot p q|) := by
  have hnn : 0 ≤ |Dot p q| := abs_nonneg _
  have hs : Real.sin (Real.arccos |Dot p q|) ≠ 0 :=
    sin_arccos_ne_zero _ (by linarith) hbranch
  have hc : Real.cos (Real.arccos |Dot p q|) = |Dot p q| :=
    Real.cos_arccos (by linarith) (by linarith)
  have hsub : Real.sin ((1 - t) * Real.arccos |Dot p q|)
      = Real.sin (Real.arccos |Dot p q|) * Real.cos (t * Real.arccos |Dot p q|)
        - |Dot p q| * Real.sin (t * Real.arccos |Dot p q|) := by
    rw [show (1 - t) * Real.arccos |Dot p q|
      = Real.arccos |Dot p q| - t * Real.arccos |Dot p q| by ring, Real.sin_sub, hc]
  have hsub2 : Real.sin (t * Real.arccos |Dot p q|)
      = Real.sin (Real.arccos |Dot p q|) * Real.cos ((1 - t) * Real.arccos |Dot p q|)
        - |Dot p q| * Real.sin ((1 - t) * Real.arccos |Dot p q|) := by
    rw [show t * Real.arccos |Dot p q|
      = Real.arccos |Dot p q| - (1 - t) * Real.arccos |Dot p q| by ring, Real.sin_sub, hc]
  have hadj := Dot_adjusted p q
  constructor
  · rw [Dot_comm, Slerp_adjusted_fun, Dot_blend_left, hp, Dot_comm _ p, hadj.1,
      SlerpCoefficients_trig _ _ _ _ hbranch]
    simp only
    rw [hsub]
    field_simp
    ring
  · rw [Slerp_adjusted_fun, Dot_blend_left, hadj.1, hadj.2, hq,
      SlerpCoefficients_trig _ _ _ _ hbranch]
    simp only
    rw [hsub2]
    field_simp
    ring

/-- The library `acos` does not increase: a larger cosine gives an angle that is not
larger. -/
theorem arccos_antitone {x y : ℝ} (h : x ≤ y) : Real.arccos y ≤ Real.arccos x := by
  rw [Real.arccos_eq_pi_div_two_sub_arcsin, Real.arccos_eq_pi_div_two_sub_arcsin]
  linarith [Real.monotone_arcsin h]

/-- The angle `acos |d|` is at most a right angle and at most both `acos d` and
`acos (-d)`: of the two arcs, towards `to` and towards `-to`, it is the shorter one. -/
theorem arccos_abs_le (d : ℝ) :
    Real.arccos |d| ≤ Real.pi / 2
    ∧ Real.arccos |d| ≤ Real.arccos d
    ∧ Real.arccos |d| ≤ Real.arccos (-d) :=
  ⟨Real.arccos_le_pi_div_two.2 (abs_nonneg d),
   arccos_antitone (le_abs_self d),
   arccos_antitone (neg_le_abs d)⟩

end PlusMath

namespace vtkPlusDataBuffer

open vtkTimestampedCircularBuffer

/-- C6: whenever `GetInterpolatedDataBufferItemFromTime` interpolates, the rotation block of
the result is the matrix of `Slerp` from the quaternion of `A` to the quaternion of `B` with
parameter `wB = 1 - |tB - t| / |tA - tB|` and sign adjustment on.  `Slerp` with sign
adjustment is plain `Slerp` towards `-to` when `dot(from, to) < 0` and towards `to`
otherwise, and the cosine between `from` and the target it moves to is `|dot(from, to)|`,
never negative.  Over the reals with the library `acos` and `sin`, for unit quaternions:
the angle `omega = acos |dot|` of the arc is at most a right angle and at most the angles
`acos dot` and `acos (-dot)` of the arcs towards `to` and `-to`; on the trigonometric
branch the result has dot product `cos (t omega)` with `from` and `cos ((1 - t) omega)`
with the target, so it lies on that shorter arc. -/
theorem interpolated_rotation_shorter_arc (m : ExternalMath K) (self : vtkPlusDataBuffer K)
    (time : K) (bufferItem A B : DataBufferItem K) (tA tB : K)
    (h : self.GetPrevNextBufferItemFromTime time (DataBufferItem.new K) (DataBufferItem.new K)
      = (PLUS_SUCCESS, A, B))
    (huid : A.Uid ≠ B.Uid)
    (htA : self.DataBuffer.GetTimeStamp A.Uid = (ITEM_OK, tA))
    (htB : self.DataBuffer.GetTimeStamp B.Uid = (ITEM_OK, tB))
    (hgap : ¬ |tA - tB| < NEGLIGIBLE_TIME_DIFFERENCE) :
    RotationPart (self.GetInterpolatedDataBufferItemFromTime m time bufferItem).2.1.Matrix
      = m.QuaternionToMatrix3x3
          (PlusMath.Slerp m.acos m.sin (1 - |tB - time| / |tA - tB|)
            (m.Matrix3x3ToQuaternion (RotationPart A.Matrix))
            (m.Matrix3x3ToQuaternion (RotationPart B.Matrix)) true)
    ∧ (∀ (t : K) (p q : Quaternion K),
        (p 0 * q 0 + p 1 * q 1 + p 2 * q 2 + p 3 * q 3 < 0 →
          PlusMath.Slerp m.acos m.sin t p q true
            = PlusMath.Slerp m.acos m.sin t p (fun i => -q i) false
          ∧ p 0 * -q 0 + p 1 * -q 1 + p 2 * -q 2 + p 3 * -q 3
            = |p 0 * q 0 + p 1 * q 1 + p 2 * q 2 + p 3 * q 3|)
        ∧ (¬ p 0 * q 0 + p 1 * q 1 + p 2 * q 2 + p 3 * q 3 < 0 →
          PlusMath.Slerp m.acos m.sin t p q true = PlusMath.Slerp m.acos m.sin t p q false
          ∧ p 0 * q 0 + p 1 * q 1 + p 2 * q 2 + p 3 * q 3
            = |p 0 * q 0 + p 1 * q 1 + p 2 * q 2 + p 3 * q 3|)
        ∧ ∀ i : Fin 4, PlusMath.Slerp m.acos m.sin t p q true i
          = (PlusMath.SlerpCoefficients m.acos m.sin
                |p 0 * q 0 + p 1 * q 1 + p 2 * q 2 + p 3 * q 3| t).1 * p i
            + (PlusMath.SlerpCoefficients m.acos m.sin
                |p 0 * q 0 + p 1 * q 1 + p 2 * q 2 + p 3 * q 3| t).2
              * (if p 0 * q 0 + p 1 * q 1 + p 2 * q 2 + p 3 * q 3 < 0 then -q i else q i))
    ∧ (∀ (t : ℝ) (p q : Quaternion ℝ),
        p 0 * p 0 + p 1 * p 1 + p 2 * p 2 + p 3 * p 3 = 1 →
        q 0 * q 0 + q 1 * q 1 + q 2 * q 2 + q 3 * q 3 = 1 →
        Real.arccos |p 0 * q 0 + p 1 * q 1 + p 2 * q 2 + p 3 * q 3| ≤ Real.pi / 2
        ∧ Real.arccos |p 0 * q 0 + p 1 * q 1 + p 2 * q 2 + p 3 * q 3|
            ≤ Real.arccos (p 0 * q 0 + p 1 * q 1 + p 2 * q 2 + p 3 * q 3)
        ∧ Real.arccos |p 0 * q 0 + p 1 * q 1 + p 2 * q 2 + p 3 * q 3|
            ≤ Real.arccos (-(p 0 * q 0 + p 1 * q 1 + p 2 * q 2 + p 3 * q 3))
        ∧ (|p 0 * q 0 + p 1 * q 1 + p 2 * q 2 + p 3 * q 3| < 9999 / 10000 →
            p 0 * PlusMath.Slerp Real.arccos Real.sin t p q true 0
              + p 1 * PlusMath.Slerp Real.arccos Real.sin t p q true 1
              + p 2 * PlusMath.Slerp Real.arccos Real.sin t p q true 2
              + p 3 * PlusMath.Slerp Real.arccos Real.sin t p q true 3
              = Real.cos (t * Real.arccos |p 0 * q 0 + p 1 * q 1 + p 2 * q 2 + p 3 * q 3|)
            ∧ PlusMath.Slerp Real.arccos Real.sin t p q true 0
                  * (if p 0 * q 0 + p 1 * q 1 + p 2 * q 2 + p 3 * q 3 < 0 then -q 0 else q 0)
              + PlusMath.Slerp Real.arccos Real.sin t p q true 1
                  * (if p 0 * q 0 + p 1 * q 1 + p 2 * q 2 + p 3 * q 3 < 0 then -q 1 else q 1)
              + PlusMath.Slerp Real.arccos Real.sin t p q true 2
                  * (if p 0 * q 0 + p 1 * q 1 + p 2 * q 2 + p 3 * q 3 < 0 then -q 2 else q 2)
              + PlusMath.Slerp Real.arccos Real.sin t p q true 3
                  * (if p 0 * q 0 + p 1 * q 1 + p 2 * q 2 + p 3 * q 3 < 0 then -q 3 else q 3)
              = Real.cos ((1 - t)
                  * Real.arccos |p 0 * q 0 + p 1 * q 1 + p 2 * q 2 + p 3 * q 3|))) := by
  refine ⟨?_, ?_, ?_⟩
  · rw [self.GetInterpolated_blend m time bufferItem A B tA tB h huid htA htB hgap]
    exact InterpolatedItem_rotation m A B time tA tB
  · intro t p q
    have hD : p 0 * q 0 + p 1 * q 1 + p 2 * q 2 + p 3 * q 3 = PlusMath.Dot p q := rfl
    rw [hD]
    refine ⟨?_, ?_, ?_⟩
    · intro hneg
      have h1 := PlusMath.Slerp_adjusted_eq m.acos m.sin t p q
      rw [if_pos hneg] at h1
      refine ⟨h1, ?_⟩
      rw [abs_of_neg hneg]
      simp only [PlusMath.Dot]
      ring
    · intro hnn
      have h1 := PlusMath.Slerp_adjusted_eq m.acos m.sin t p q
      rw [if_neg hnn] at h1
      exact ⟨h1, (abs_of_nonneg (not_lt.1 hnn)).symm⟩
    · intro i
      exact PlusMath.Slerp_adjusted m.acos m.sin t p q i
  · intro t p q hp hq
    have hD : p 0 * q 0 + p 1 * q 1 + p 2 * q 2 + p 3 * q 3 = PlusMath.Dot p q := rfl
    rw [hD]
    have harc := PlusMath.arccos_abs_le (PlusMath.Dot p q)
    refine ⟨harc.1, harc.2.1, harc.2.2, ?_⟩
    intro hlt
    have hon := PlusMath.Slerp_on_arc p q hp hq (by linarith) t
    exact ⟨hon.1, hon.2⟩

/-- Witness for C6: in `exTurn` the quaternions of the two items, (1, 0, 0, 0) and
(-3/5, 4/5, 0, 0), have dot product -3/5 < 0; the rotation block of the item
interpolated at 1.1 s is the matrix of the `Slerp` result with parameter `wB = 1/3`, which
has moved from (1, 0, 0, 0) towards (3/5, -4/5, 0, 0), the negated quaternion of item B. -/
theorem interpolated_rotation_shorter_arc_witness :
    PlusMath.Dot (exMathArc.Matrix3x3ToQuaternion (RotationPart (exItem 0 1 TOOL_OK 10).Matrix))
        (exMathArc.Matrix3x3ToQuaternion (RotationPart (exItemTurned 1 (13 / 10) 20).Matrix))
      = -3 / 5
    ∧ RotationPart (exTurn.GetInterpolatedDataBufferItemFromTime exMathArc (11 / 10)
        (DataBufferItem.new ℚ)).2.1.Matrix
      = exQuaternionToMatrix3x3 ![13 / 15, -4 / 15, 0, 0] := by
  have hq := exMathArc_quaternions
  have hrot := (interpolated_rotation_shorter_arc exMathArc exTurn (11 / 10)
    (DataBufferItem.new ℚ) (exItem 0 1 TOOL_OK 10) (exItemTurned 1 (13 / 10) 20) 1 (13 / 10)
    (exTurn_prevnext _ _) (by simp [exItem, exItemTurned]) exTurn_ts0 exTurn_ts1 exThree_gap).1
  have hw : (1 : ℚ) - |13 / 10 - 11 / 10| / |1 - 13 / 10| = 1 / 3 := by
    norm_num [abs_of_nonneg, abs_of_neg]
  rw [hq.1, hq.2, hw, exMathArc_slerp] at hrot
  refine ⟨?_, hrot⟩
  rw [hq.1, hq.2]
  simp [PlusMath.Dot]

end vtkPlusDataBuffer

/-! ## The divisor of Slerp -/

namespace PlusMath

/-- With sign adjustment the cosine used by `Slerp` is `|dot(from, to)|`. -/
theorem SlerpDivisor_adjusted (acos sin : K → K) (p q : Quaternion K) :
    SlerpDivisor acos sin p q true
      = if (1 : K) - |Dot p q| > 1 / 10000 then some (sin (acos |Dot p q|)) else none := by
  unfold SlerpDivisor
  by_cases h : Dot p q < 0
  · simp [h, abs_of_neg h]
  · simp [h, abs_of_nonneg (not_lt.1 h)]

/-- Without sign adjustment and with `dot(from, to) = -1`, `Slerp` takes the trigonometric
branch and divides by `sin (acos (-1))`, whatever the functions `acos` and `sin` are. -/
theorem SlerpDivisor_antipodal (acos sin : K → K) (p q : Quaternion K) (h : Dot p q = -1) :
    SlerpDivisor acos sin p q false = some (sin (acos (-1))) := by
  unfold SlerpDivisor
  simp only [Bool.false_and, Bool.false_eq_true, if_false, h]
  rw [if_pos (by norm_num)]

/-- Counterexample to C28 as stated: for the antipodal quaternions (1, 0, 0, 0) and
(-1, 0, 0, 0) without sign adjustment, with the double-precision values of the library
functions (`acos(-1.0)` is the double next to pi, whose sine is 1.2246e-16), the divisor
of the trigonometric branch is not zero. -/
theorem Slerp_divisor_antipodal_counterexample :
    Dot (![1, 0, 0, 0] : Quaternion ℚ) ![-1, 0, 0, 0] = -1
    ∧ SlerpDivisor exAcosDouble exSinDouble ![1, 0, 0, 0] ![-1, 0, 0, 0] false
        = some (4967757600021511 / 40564819207303340847894502572032)
    ∧ (4967757600021511 / 40564819207303340847894502572032 : ℚ) ≠ 0
    ∧ SlerpDivisor exAcosDouble exSinDouble ![1, 0, 0, 0] ![-1, 0, 0, 0] false ≠ some 0 := by
  have hdot : Dot (![1, 0, 0, 0] : Quaternion ℚ) ![-1, 0, 0, 0] = -1 := by simp [Dot]
  have hdiv : SlerpDivisor exAcosDouble exSinDouble ![1, 0, 0, 0] ![-1, 0, 0, 0] false
      = some (4967757600021511 / 40564819207303340847894502572032) := by
    rw [SlerpDivisor_antipodal _ _ _ _ hdot]
    simp [exAcosDouble, exSinDouble]
  refine ⟨hdot, hdiv, by norm_num, ?_⟩
  rw [hdiv]
  norm_num

/-- C28 (amended): over the reals and with `adjustSign` true, whenever `Slerp` divides (the
trigonometric branch), the sign-adjusted cosine `c = |dot(from, to)|` lies in
`[0, 0.9999)`, `omega = acos c` lies in `(0, π/2]`, the divisor is `sin omega > 0`, and
the coefficients of the result are `sin ((1 - t) omega) / sin omega` and
`sin (t omega) / sin omega`; in the linear branch nothing is divided.  With `adjustSign`
false and `dot(from, to) = -1` the trigonometric branch is taken and its divisor is
`sin (acos (-1))` for whatever functions `acos` and `sin` the program calls; that divisor
is 0 for the exact real functions. -/
theorem Slerp_divisor_positive (p q : Quaternion ℝ) :
    (∀ d, SlerpDivisor Real.arccos Real.sin p q true = some d →
      0 ≤ |Dot p q| ∧ |Dot p q| < 9999 / 10000
      ∧ 0 < Real.arccos |Dot p q| ∧ Real.arccos |Dot p q| ≤ Real.pi / 2
      ∧ d = Real.sin (Real.arccos |Dot p q|) ∧ 0 < d
      ∧ ∀ t, SlerpCoefficients Real.arccos Real.sin |Dot p q| t
          = (Real.sin ((1 - t) * Real.arccos |Dot p q|) / d,
             Real.sin (t * Real.arccos |Dot p q|) / d))
    ∧ (SlerpDivisor Real.arccos Real.sin p q true = none →
        ∀ t, SlerpCoefficients Real.arccos Real.sin |Dot p q| t = (1 - t, t))
    ∧ (Dot p q = -1 →
        (∀ acos sin : ℝ → ℝ, SlerpDivisor acos sin p q false = some (sin (acos (-1))))
        ∧ SlerpDivisor Real.arccos Real.sin p q false = some 0) := by
  refine ⟨?_, ?_, ?_⟩
  · intro d hd
    rw [SlerpDivisor_adjusted] at hd
    by_cases hbranch : (1 : ℝ) - |Dot p q| > 1 / 10000
    · rw [if_pos hbranch] at hd
      have hd1 : Real.sin (Real.arccos |Dot p q|) = d := by simpa using hd
      have h0 : 0 ≤ |Dot p q| := abs_nonneg _
      have h1 : |Dot p q| < 9999 / 10000 := by linarith
      have hpos : 0 < Real.arccos |Dot p q| := Real.arccos_pos.2 (by linarith)
      have hle : Real.arccos |Dot p q| ≤ Real.pi / 2 := Real.arccos_le_pi_div_two.2 h0
      have hsin : 0 < Real.sin (Real.arccos |Dot p q|) :=
        Real.sin_pos_of_pos_of_lt_pi hpos (by linarith [Real.pi_pos])
      refine ⟨h0, h1, hpos, hle, hd1.symm, by rw [← hd1]; exact hsin, ?_⟩
      intro t
      rw [SlerpCoefficients_trig _ _ _ _ hbranch, hd1]
    · rw [if_neg hbranch] at hd
      exact absurd hd (by simp)
  · intro hnone t
    rw [SlerpDivisor_adjusted] at hnone
    by_cases hbranch : (1 : ℝ) - |Dot p q| > 1 / 10000
    · rw [if_pos hbranch] at hnone
      exact absurd hnone (by simp)
    · exact SlerpCoefficients_linear _ _ _ _ hbranch
  · intro hdot
    refine ⟨fun acos sin => SlerpDivisor_antipodal acos sin p q hdot, ?_⟩
    rw [SlerpDivisor_antipodal _ _ _ _ hdot]
    simp [Real.arccos_neg_one]

/-- Witness for C28 (amended): for the orthogonal quaternions (1,0,0,0) and (0,1,0,0) the
divisor is `sin (π/2) = 1`; for the antipodal pair (1,0,0,0), (-1,0,0,0) without sign
adjustment it is `sin (acos (-1))`, which is 0 for the exact real functions. -/
theorem Slerp_divisor_positive_witness :
    SlerpDivisor Real.arccos Real.sin ![1, 0, 0, 0] ![0, 1, 0, 0] true = some 1
    ∧ (0 : ℝ) < 1
    ∧ SlerpDivisor Real.arccos Real.sin ![1, 0, 0, 0] ![-1, 0, 0, 0] false = some 0 := by
  have hdot : Dot (![1, 0, 0, 0] : Quaternion ℝ) ![0, 1, 0, 0] = 0 := by simp [Dot]
  have hdiv : SlerpDivisor Real.arccos Real.sin (![1, 0, 0, 0] : Quaternion ℝ) ![0, 1, 0, 0] true
      = some 1 := by
    rw [SlerpDivisor_adjusted, hdot]
    norm_num
  have h := Slerp_divisor_positive (![1, 0, 0, 0] : Quaternion ℝ) ![0, 1, 0, 0]
  have h2 := Slerp_divisor_positive (![1, 0, 0, 0] : Quaternion ℝ) ![-1, 0, 0, 0]
  exact ⟨hdiv, (h.1 1 hdiv).2.2.2.2.2.1, (h2.2.2 (by simp [Dot])).2⟩

end PlusMath

/-! ## Reads through the output pointer -/

namespace ItemMemory

open vtkTimestampedCircularBuffer vtkPlusDataBuffer

/-- The item found through the pointer that `GetBufferItemFromUid` returns is the item of
the slot of that UID. -/
theorem Load_GetBufferItemFromUid {L : Type} (mem : ItemMemory K L) (uid : Int) :
    mem.Load (mem.GetBufferItemFromUid uid) = mem.Buffer.DataBuffer.GetBufferItemFromUid uid := by
  unfold ItemMemory.GetBufferItemFromUid vtkTimestampedCircularBuffer.GetBufferItemFromUid
  by_cases h : mem.Buffer.DataBuffer.BufferIndexFromUid uid < mem.Buffer.DataBuffer.items.length
  · rw [if_pos h]
    rfl
  · rw [if_neg h]
    simp only [Load, GetBufferItemFromBufferIndex]
    exact (List.get?_eq_none.2 (not_lt.1 h)).symm

/-- With the item of the caller as output, `GetDataBufferItem` on the memory returns the
status of the call on the buffer and changes nothing but the item of the caller. -/
theorem GetDataBufferItem_Caller {L : Type} (mem : ItemMemory K L) (uid : Int) :
    mem.GetDataBufferItem uid ItemPointer.Caller
      = ((mem.Buffer.GetDataBufferItem uid mem.Caller).1,
         { mem with Caller := (mem.Buffer.GetDataBufferItem uid mem.Caller).2 }) := by
  unfold ItemMemory.GetDataBufferItem vtkPlusDataBuffer.GetDataBufferItem DeepCopy
  rw [if_neg (by decide)]
  by_cases hst : mem.Buffer.DataBuffer.GetFrameStatus uid = ITEM_OK
  · simp only [hst, ne_eq, not_true_eq_false, if_false, Load_GetBufferItemFromUid]
    cases hitem : mem.Buffer.DataBuffer.GetBufferItemFromUid uid with
    | none => simp
    | some dataItem => simp [Store, hst]
  · simp [hst]

/-- With a NULL output pointer `GetDataBufferItem` fails and changes nothing. -/
theorem GetDataBufferItem_Null {L : Type} (mem : ItemMemory K L) (uid : Int) :
    mem.GetDataBufferItem uid ItemPointer.Null = (ITEM_UNKNOWN_ERROR, mem) := by
  unfold ItemMemory.GetDataBufferItem
  rw [if_pos rfl]

/-- With the item of the caller as output, `GetDataBufferItemFromClosestTime` on the memory
returns the status of the call on the buffer and changes the item of the caller and the
lock state only. -/
theorem GetDataBufferItemFromClosestTime_Caller {L : Type} (k : ExternalLock L)
    (mem : ItemMemory K L) (time : K) :
    mem.GetDataBufferItemFromClosestTime k time ItemPointer.Caller
      = ((mem.Buffer.GetDataBufferItemFromClosestTime time mem.Caller).1,
         { mem with
           Caller := (mem.Buffer.GetDataBufferItemFromClosestTime time mem.Caller).2
           LockState := k.Unlock (k.Lock mem.LockState) }) := by
  unfold ItemMemory.GetDataBufferItemFromClosestTime
    vtkPlusDataBuffer.GetDataBufferItemFromClosestTime
  by_cases hst : (mem.Buffer.DataBuffer.GetItemUidFromTime time).1 = ITEM_OK
  · simp [hst, GetDataBufferItem_Caller]
  · simp [hst]

/-- With a NULL output pointer `GetDataBufferItemFromClosestTime` fails and changes the lock
state only. -/
theorem GetDataBufferItemFromClosestTime_Null {L : Type} (k : ExternalLock L)
    (mem : ItemMemory K L) (time : K) :
    mem.GetDataBufferItemFromClosestTime k time ItemPointer.Null
      = (if (mem.Buffer.DataBuffer.GetItemUidFromTime time).1 ≠ ITEM_OK
           then (mem.Buffer.DataBuffer.GetItemUidFromTime time).1 else ITEM_UNKNOWN_ERROR,
         { mem with LockState := k.Unlock (k.Lock mem.LockState) }) := by
  unfold ItemMemory.GetDataBufferItemFromClosestTime
  by_cases hst : (mem.Buffer.DataBuffer.GetItemUidFromTime time).1 = ITEM_OK
  · simp [hst, GetDataBufferItem_Null]
  · simp [hst]

/-- With the item of the caller as output, `GetDataBufferItemFromExactTime` on the memory
returns the status of the call on the buffer and changes the item of the caller and the
lock state only. -/
theorem GetDataBufferItemFromExactTime_Caller {L : Type} (k : ExternalLock L)
    (mem : ItemMemory K L) (time : K) :
    mem.GetDataBufferItemFromExactTime k time ItemPointer.Caller
      = ((mem.Buffer.GetDataBufferItemFromExactTime time mem.Caller).1,
         { mem with
           Caller := (mem.Buffer.GetDataBufferItemFromExactTime time mem.Caller).2
           LockState := k.Unlock (k.Lock mem.LockState) }) := by
  unfold ItemMemory.GetDataBufferItemFromExactTime
    vtkPlusDataBuffer.GetDataBufferItemFromExactTime
  rw [GetDataBufferItemFromClosestTime_Caller]
  simp only [Load]
  split_ifs <;> rfl

/-- With a NULL output pointer `GetDataBufferItemFromExactTime` fails and changes the lock
state only. -/
theorem GetDataBufferItemFromExactTime_Null {L : Type} (k : ExternalLock L)
    (mem : ItemMemory K L) (time : K) :
    mem.GetDataBufferItemFromExactTime k time ItemPointer.Null
      = (if (mem.Buffer.DataBuffer.GetItemUidFromTime time).1 ≠ ITEM_OK
           then (mem.Buffer.DataBuffer.GetItemUidFromTime time).1 else ITEM_UNKNOWN_ERROR,
         { mem with LockState := k.Unlock (k.Lock mem.LockState) }) := by
  unfold ItemMemory.GetDataBufferItemFromExactTime
  rw [GetDataBufferItemFromClosestTime_Null]
  by_cases hst : (mem.Buffer.DataBuffer.GetItemUidFromTime time).1 = ITEM_OK
  · simp [hst]
  · simp [hst]

/-- A copy in the other direction would write into the ring: `DeepCopy` with a slot as
target replaces the item of that slot, here slot 1 of `exThree` by the fresh item of the
caller. -/
theorem DeepCopy_into_slot_changes_ring :
    (exMemory.DeepCopy (ItemPointer.Slot 1) ItemPointer.Caller).2.Buffer.DataBuffer.items
      = [exItem 0 1 TOOL_OK 10, DataBufferItem.new ℚ, exItem 2 (16 / 10) TOOL_OUT_OF_VIEW 30]
    ∧ (exMemory.DeepCopy (ItemPointer.Slot 1) ItemPointer.Caller).2.Buffer ≠ exMemory.Buffer := by
  have h : (exMemory.DeepCopy (ItemPointer.Slot 1) ItemPointer.Caller).2.Buffer.DataBuffer.items
      = [exItem 0 1 TOOL_OK 10, DataBufferItem.new ℚ,
          exItem 2 (16 / 10) TOOL_OUT_OF_VIEW 30] := by
    simp [DeepCopy, Load, Store, exMemory, WithDataBuffer, SetBufferItem, exThree, exBuffer]
  refine ⟨h, ?_⟩
  intro heq
  rw [heq] at h
  have h1 : (exItem 1 (13 / 10) TOOL_OK 20).FilteredTimeStamp
      = (DataBufferItem.new ℚ).FilteredTimeStamp := by
    have h2 := congrArg (fun l => (l.get? 1).map DataBufferItem.FilteredTimeStamp) h
    simpa [exMemory, exThree, exBuffer] using h2
  norm_num [exItem, DataBufferItem.new] at h1

/-- C22: with an output pointer that does not point into the ring, `GetDataBufferItem` and
`GetDataBufferItemFromExactTime` leave the buffer as they found it (slots, oldest, newest
and next UID, every other member); `GetDataBufferItem` leaves the lock alone as well.  A
second call with the same UID, respectively the same time, on the memory left by the
first call returns the same status and leaves the same item in the output. -/
theorem reads_leave_buffer_unchanged {L : Type} (k : ExternalLock L) (mem : ItemMemory K L)
    (uid : Int) (time : K) (bufferItem : ItemPointer)
    (hout : ∀ bufferIndex, bufferItem ≠ ItemPointer.Slot bufferIndex) :
    ((mem.GetDataBufferItem uid bufferItem).2.Buffer = mem.Buffer
      ∧ (mem.GetDataBufferItem uid bufferItem).2.LockState = mem.LockState
      ∧ ((mem.GetDataBufferItem uid bufferItem).2.GetDataBufferItem uid bufferItem).1
          = (mem.GetDataBufferItem uid bufferItem).1
      ∧ ((mem.GetDataBufferItem uid bufferItem).2.GetDataBufferItem uid bufferItem).2.Caller
          = (mem.GetDataBufferItem uid bufferItem).2.Caller)
    ∧ ((mem.GetDataBufferItemFromExactTime k time bufferItem).2.Buffer = mem.Buffer
      ∧ ((mem.GetDataBufferItemFromExactTime k time bufferItem).2.GetDataBufferItemFromExactTime
            k time bufferItem).1
          = (mem.GetDataBufferItemFromExactTime k time bufferItem).1
      ∧ ((mem.GetDataBufferItemFromExactTime k time bufferItem).2.GetDataBufferItemFromExactTime
            k time bufferItem).2.Caller
          = (mem.GetDataBufferItemFromExactTime k time bufferItem).2.Caller) := by
  cases bufferItem with
  | Slot bufferIndex => exact absurd rfl (hout bufferIndex)
  | Null =>
    simp [GetDataBufferItem_Null, GetDataBufferItemFromExactTime_Null]
  | Caller =>
    simp [GetDataBufferItem_Caller, GetDataBufferItemFromExactTime_Caller,
      mem.Buffer.GetDataBufferItem_again uid mem.Caller,
      mem.Buffer.GetDataBufferItemFromExactTime_again time mem.Caller]

/-- Witness for C22: on `exThree`, with the item of the caller as output, a read of UID 1
and an exact-time read at 1.3 s leave the buffer as it was and fill the output with the
item stored at 1.3 s, the first time and the second time. -/
theorem reads_leave_buffer_unchanged_witness :
    (exMemory.GetDataBufferItem 1 ItemPointer.Caller).2.Buffer = exThree
    ∧ (exMemory.GetDataBufferItem 1 ItemPointer.Caller).1 = ITEM_OK
    ∧ (exMemory.GetDataBufferItem 1 ItemPointer.Caller).2.Caller
        = exItem 1 (13 / 10) TOOL_OK 20
    ∧ ((exMemory.GetDataBufferItem 1 ItemPointer.Caller).2.GetDataBufferItem 1
        ItemPointer.Caller).2.Caller = exItem 1 (13 / 10) TOOL_OK 20
    ∧ (exMemory.GetDataBufferItemFromExactTime exLock (13 / 10) ItemPointer.Caller).2.Buffer
        = exThree
    ∧ ((exMemory.GetDataBufferItemFromExactTime exLock (13 / 10)
          ItemPointer.Caller).2.GetDataBufferItemFromExactTime exLock (13 / 10)
          ItemPointer.Caller).1
        = (exMemory.GetDataBufferItemFromExactTime exLock (13 / 10) ItemPointer.Caller).1 := by
  have h := reads_leave_buffer_unchanged exLock exMemory 1 (13 / 10) ItemPointer.Caller
    (fun _ => by simp)
  have hget : exThree.GetDataBufferItem 1 (DataBufferItem.new ℚ)
      = (ITEM_OK, exItem 1 (13 / 10) TOOL_OK 20) :=
    exThree.GetDataBufferItem_of_mem exThree_valid (by simp [exThree_uids]) exThree_item1 _
  have hfirst : exMemory.GetDataBufferItem 1 ItemPointer.Caller
      = (ITEM_OK, { exMemory with Caller := exItem 1 (13 / 10) TOOL_OK 20 }) := by
    rw [GetDataBufferItem_Caller]
    have hb : exMemory.Buffer = exThree := rfl
    have hc : exMemory.Caller = DataBufferItem.new ℚ := rfl
    rw [hb, hc, hget]
    rfl
  refine ⟨h.1.1, by rw [hfirst], by rw [hfirst], ?_, h.2.1, h.2.2.1⟩
  rw [h.1.2.2.2, hfirst]

end ItemMemory

end Model

end Plus
